import Mathlib

/-!
# Maze device REST API: validating services and HTTP handlers

A shallow embedding of the Go packages `models`, `repository/DAL/SQLite`,
`service/device_config`, `service/maze_device`, `handlers/device_config` and
`handlers/maze_device`.

Conventions of the embedding.

* Go `int` / `int64` values are `Int`; the arithmetic the embedded code does on them is
  comparison with small constants, and one product, the page offset, which is wrapped
  into the `int64` range (`wrapInt64`).
* A Go `string` is a Lean `String`; Go's `len(s)` is the number of bytes of the UTF-8
  encoding, `String.utf8ByteSize`.
* A `time.Time` is an `Int`: the instant in nanoseconds since the Unix epoch.
  The standard library functions `time.Parse(time.RFC3339, ·)` and `time.Now()` are
  inputs of the embedded functions (`parse`, `now`).
* A Go `error` is `Option GoError`, `none` being `nil`.
* A slice is an `Option (List _)`, `none` being the nil slice.
* A method that receives a pointer to a record returns the record as the callee left it.
* Repositories and services are interfaces in the source; here they are records of
  state-passing functions over an arbitrary state type `σ`.
* An `http.ResponseWriter` is the status code and body written so far; headers are not
  modelled. The request body is a `String`, and the functions of `encoding/json` that read
  and write a record are inputs of the handlers (`decode`, `encode`).
* A request is the texts the handler reads from it: the body, the values of the query
  parameters, the path value `id`.
* A SQLite repository is the record of its prepared statements, each a state-passing
  function that gives what the store answers.
* The `context.Context` argument (a two second deadline) and the logger are not modelled.
-/

namespace MazeApi

/-! ## Package `models` -/

/-- The record `models.DeviceConfig`. -/
structure DeviceConfig where
  ID : Int
  DeviceID : String
  AlarmTimeout : Int
  SensitivityLevel : Int
  UpdatedAt : String
  deriving DecidableEq, Repr, Inhabited

/-- The record `models.MazeDeviceStatus`. -/
structure MazeDeviceStatus where
  ID : Int
  DeviceID : String
  AlarmActive : Bool
  MazeCompleted : Bool
  HallSensorValue : Bool
  BatteryLevel : Int
  Timestamp : String
  deriving DecidableEq, Repr, Inhabited

/-- The composite literal `models.DeviceConfig{ID: id}`: every other field has its zero
value. -/
def DeviceConfig.ofID (id : Int) : DeviceConfig :=
  { ID := id, DeviceID := "", AlarmTimeout := 0, SensitivityLevel := 0, UpdatedAt := "" }

/-- The composite literal `models.MazeDeviceStatus{ID: id}`: every other field has its zero
value. -/
def MazeDeviceStatus.ofID (id : Int) : MazeDeviceStatus :=
  { ID := id, DeviceID := "", AlarmActive := false, MazeCompleted := false,
    HallSensorValue := false, BatteryLevel := 0, Timestamp := "" }

/-- Go error values, by dynamic type: the two business error types of the service
packages, and every other error (for instance one made by `errors.New`, or one coming
from the database driver), which carries the text its `Error()` method returns. -/
inductive GoError where
  | DeviceConfigError (Message : String)
  | MazeDeviceStatusError (Message : String)
  | other (text : String)
  deriving DecidableEq, Repr, Inhabited

/-- The method `Error()` of an error value. -/
def GoError.Error : GoError → String
  | .DeviceConfigError m => m
  | .MazeDeviceStatusError m => m
  | .other t => t

/-- The constant `time.Minute`, in nanoseconds. -/
def Minute : Int := 60 * 1000000000

/-- The interface `models.DeviceConfigRepository`. -/
structure DeviceConfigRepository (σ : Type) where
  Create : DeviceConfig → σ → Option GoError × DeviceConfig × σ
  ReadOne : Int → σ → (Option DeviceConfig × Option GoError) × σ
  ReadByDeviceID : String → σ → (Option DeviceConfig × Option GoError) × σ
  ReadMany : Int → Int → σ → (Option (List DeviceConfig) × Option GoError) × σ
  Update : DeviceConfig → σ → (Int × Option GoError) × DeviceConfig × σ
  Delete : DeviceConfig → σ → (Int × Option GoError) × DeviceConfig × σ

/-- The interface `models.MazeDeviceStatusRepository`. -/
structure MazeDeviceStatusRepository (σ : Type) where
  Create : MazeDeviceStatus → σ → Option GoError × MazeDeviceStatus × σ
  ReadOne : Int → σ → (Option MazeDeviceStatus × Option GoError) × σ
  ReadMany : Int → Int → σ → (Option (List MazeDeviceStatus) × Option GoError) × σ
  ReadByDeviceID : String → σ → (Option (List MazeDeviceStatus) × Option GoError) × σ
  Update : MazeDeviceStatus → σ → (Int × Option GoError) × MazeDeviceStatus × σ
  Delete : MazeDeviceStatus → σ → (Int × Option GoError) × MazeDeviceStatus × σ

/-! ## Package `service/device_config` -/

/-- The interface `device_config.DeviceConfigService`. -/
structure DeviceConfigService (σ : Type) where
  Create : DeviceConfig → σ → Option GoError × DeviceConfig × σ
  ReadOne : Int → σ → (Option DeviceConfig × Option GoError) × σ
  ReadByDeviceID : String → σ → (Option DeviceConfig × Option GoError) × σ
  ReadMany : Int → Int → σ → (Option (List DeviceConfig) × Option GoError) × σ
  Update : DeviceConfig → σ → (Int × Option GoError) × DeviceConfig × σ
  Delete : DeviceConfig → σ → (Int × Option GoError) × DeviceConfig × σ
  ValidateConfig : DeviceConfig → σ → Option GoError × DeviceConfig × σ

/-- The method `DeviceConfigServiceSQLite.ValidateConfig`. -/
def ValidateConfig (parse : String → Option Int) (now : Int) (config : DeviceConfig) :
    Option GoError :=
  let errMsg := ""
  let errMsg :=
    if config.DeviceID = "" ∨ config.DeviceID.utf8ByteSize > 50 then
      errMsg ++ "device_id is required and must be less than 50 characters. "
    else errMsg
  let errMsg :=
    if config.AlarmTimeout < 1 ∨ config.AlarmTimeout > 3600 then
      errMsg ++ "alarm_timeout must be between 1 and 3600 seconds. "
    else errMsg
  let errMsg :=
    if config.SensitivityLevel < 1 ∨ config.SensitivityLevel > 10 then
      errMsg ++ "sensitivity_level must be between 1 and 10. "
    else errMsg
  let errMsg :=
    match parse config.UpdatedAt with
    | none =>
      errMsg ++ "updated_at must be in RFC3339 format (e.g., 2006-01-02T15:04:05Z07:00). "
    | some updatedAt =>
      if updatedAt > now + 1 * Minute then
        errMsg ++ "updated_at must not be in the future. "
      else errMsg
  if errMsg ≠ "" then some (GoError.DeviceConfigError errMsg) else none

/-- The struct `DeviceConfigServiceSQLite`: a service over a repository. -/
structure DeviceConfigServiceSQLite (σ : Type) where
  repo : DeviceConfigRepository σ

namespace DeviceConfigServiceSQLite

variable {σ : Type}

/-- The method `DeviceConfigServiceSQLite.Create`. -/
def Create (parse : String → Option Int) (now : Int) (s : DeviceConfigServiceSQLite σ)
    (config : DeviceConfig) (st : σ) : Option GoError × DeviceConfig × σ :=
  match ValidateConfig parse now config with
  | some err =>
    (some (GoError.DeviceConfigError ("Invalid device config: " ++ err.Error)), config, st)
  | none => s.repo.Create config st

/-- The method `DeviceConfigServiceSQLite.ReadOne`. -/
def ReadOne (s : DeviceConfigServiceSQLite σ) (id : Int) (st : σ) :
    (Option DeviceConfig × Option GoError) × σ :=
  match s.repo.ReadOne id st with
  | ((_, some err), st1) => ((none, some err), st1)
  | ((config, none), st1) => ((config, none), st1)

/-- The method `DeviceConfigServiceSQLite.ReadByDeviceID`. -/
def ReadByDeviceID (s : DeviceConfigServiceSQLite σ) (deviceID : String) (st : σ) :
    (Option DeviceConfig × Option GoError) × σ :=
  if deviceID = "" then
    ((none, some (GoError.DeviceConfigError "device_id is required")), st)
  else
    match s.repo.ReadByDeviceID deviceID st with
    | ((_, some err), st1) => ((none, some err), st1)
    | ((config, none), st1) => ((config, none), st1)

/-- The method `DeviceConfigServiceSQLite.ReadMany`. -/
def ReadMany (s : DeviceConfigServiceSQLite σ) (page rowsPerPage : Int) (st : σ) :
    (Option (List DeviceConfig) × Option GoError) × σ :=
  s.repo.ReadMany page rowsPerPage st

/-- The method `DeviceConfigServiceSQLite.Update`. -/
def Update (parse : String → Option Int) (now : Int) (s : DeviceConfigServiceSQLite σ)
    (config : DeviceConfig) (st : σ) : (Int × Option GoError) × DeviceConfig × σ :=
  match ValidateConfig parse now config with
  | some err =>
    ((0, some (GoError.DeviceConfigError ("Invalid device config: " ++ err.Error))), config, st)
  | none => s.repo.Update config st

/-- The method `DeviceConfigServiceSQLite.Delete`. -/
def Delete (s : DeviceConfigServiceSQLite σ) (config : DeviceConfig) (st : σ) :
    (Int × Option GoError) × DeviceConfig × σ :=
  s.repo.Delete config st

/-- The struct seen through the interface `DeviceConfigService`, at one reading of the
clock. -/
def toService (parse : String → Option Int) (now : Int) (s : DeviceConfigServiceSQLite σ) :
    DeviceConfigService σ where
  Create := Create parse now s
  ReadOne := ReadOne s
  ReadByDeviceID := ReadByDeviceID s
  ReadMany := ReadMany s
  Update := Update parse now s
  Delete := Delete s
  ValidateConfig := fun config st => (ValidateConfig parse now config, config, st)

end DeviceConfigServiceSQLite

/-! ## Package `service/maze_device` -/

/-- The interface `maze_device.MazeDeviceStatusService`. -/
structure MazeDeviceStatusService (σ : Type) where
  Create : MazeDeviceStatus → σ → Option GoError × MazeDeviceStatus × σ
  ReadOne : Int → σ → (Option MazeDeviceStatus × Option GoError) × σ
  ReadMany : Int → Int → σ → (Option (List MazeDeviceStatus) × Option GoError) × σ
  ReadByDeviceID : String → σ → (Option (List MazeDeviceStatus) × Option GoError) × σ
  Update : MazeDeviceStatus → σ → (Int × Option GoError) × MazeDeviceStatus × σ
  Delete : MazeDeviceStatus → σ → (Int × Option GoError) × MazeDeviceStatus × σ
  ValidateStatus : MazeDeviceStatus → σ → Option GoError × MazeDeviceStatus × σ

/-- The method `MazeDeviceStatusServiceSQLite.ValidateStatus`. -/
def ValidateStatus (parse : String → Option Int) (now : Int) (status : MazeDeviceStatus) :
    Option GoError :=
  let errMsg := ""
  let errMsg :=
    if status.DeviceID = "" ∨ status.DeviceID.utf8ByteSize > 50 then
      errMsg ++ "device_id is required and must be less than 50 characters. "
    else errMsg
  let errMsg :=
    if status.BatteryLevel < 0 ∨ status.BatteryLevel > 100 then
      errMsg ++ "battery_level must be between 0 and 100. "
    else errMsg
  let errMsg :=
    match parse status.Timestamp with
    | none =>
      errMsg ++ "timestamp must be in RFC3339 format (e.g., 2006-01-02T15:04:05Z07:00). "
    | some timestamp =>
      if timestamp > now + 1 * Minute then
        errMsg ++ "timestamp must not be in the future. "
      else errMsg
  let errMsg :=
    if status.MazeCompleted ∧ ¬ status.HallSensorValue then
      errMsg ++ "maze_completed cannot be true when hall_sensor_value is false. "
    else errMsg
  if errMsg ≠ "" then some (GoError.MazeDeviceStatusError errMsg) else none

/-- The struct `MazeDeviceStatusServiceSQLite`: a service over a repository. -/
structure MazeDeviceStatusServiceSQLite (σ : Type) where
  repo : MazeDeviceStatusRepository σ

namespace MazeDeviceStatusServiceSQLite

variable {σ : Type}

/-- The method `MazeDeviceStatusServiceSQLite.Create`. -/
def Create (parse : String → Option Int) (now : Int) (s : MazeDeviceStatusServiceSQLite σ)
    (status : MazeDeviceStatus) (st : σ) : Option GoError × MazeDeviceStatus × σ :=
  match ValidateStatus parse now status with
  | some err =>
    (some (GoError.MazeDeviceStatusError ("Invalid maze device status: " ++ err.Error)),
      status, st)
  | none => s.repo.Create status st

/-- The method `MazeDeviceStatusServiceSQLite.ReadOne`. -/
def ReadOne (s : MazeDeviceStatusServiceSQLite σ) (id : Int) (st : σ) :
    (Option MazeDeviceStatus × Option GoError) × σ :=
  match s.repo.ReadOne id st with
  | ((_, some err), st1) => ((none, some err), st1)
  | ((status, none), st1) => ((status, none), st1)

/-- The method `MazeDeviceStatusServiceSQLite.ReadMany`. -/
def ReadMany (s : MazeDeviceStatusServiceSQLite σ) (page rowsPerPage : Int) (st : σ) :
    (Option (List MazeDeviceStatus) × Option GoError) × σ :=
  s.repo.ReadMany page rowsPerPage st

/-- The method `MazeDeviceStatusServiceSQLite.ReadByDeviceID`. -/
def ReadByDeviceID (s : MazeDeviceStatusServiceSQLite σ) (deviceID : String) (st : σ) :
    (Option (List MazeDeviceStatus) × Option GoError) × σ :=
  if deviceID = "" then
    ((none, some (GoError.MazeDeviceStatusError "device_id is required")), st)
  else s.repo.ReadByDeviceID deviceID st

/-- The method `MazeDeviceStatusServiceSQLite.Update`. -/
def Update (parse : String → Option Int) (now : Int) (s : MazeDeviceStatusServiceSQLite σ)
    (status : MazeDeviceStatus) (st : σ) : (Int × Option GoError) × MazeDeviceStatus × σ :=
  match ValidateStatus parse now status with
  | some err =>
    ((0, some (GoError.MazeDeviceStatusError ("Invalid maze device status: " ++ err.Error))),
      status, st)
  | none => s.repo.Update status st

/-- The method `MazeDeviceStatusServiceSQLite.Delete`. -/
def Delete (s : MazeDeviceStatusServiceSQLite σ) (status : MazeDeviceStatus) (st : σ) :
    (Int × Option GoError) × MazeDeviceStatus × σ :=
  s.repo.Delete status st

/-- The struct seen through the interface `MazeDeviceStatusService`, at one reading of
the clock. -/
def toService (parse : String → Option Int) (now : Int)
    (s : MazeDeviceStatusServiceSQLite σ) : MazeDeviceStatusService σ where
  Create := Create parse now s
  ReadOne := ReadOne s
  ReadMany := ReadMany s
  ReadByDeviceID := ReadByDeviceID s
  Update := Update parse now s
  Delete := Delete s
  ValidateStatus := fun status st => (ValidateStatus parse now status, status, st)

end MazeDeviceStatusServiceSQLite

/-! ## Call logs

To speak about which calls a caller makes, an interface value is wrapped so that every
method appends the call to a log kept next to the state. -/

/-- A call of a method of the config repository or the config service. -/
inductive DeviceConfigCall where
  | Create (config : DeviceConfig)
  | ReadOne (id : Int)
  | ReadByDeviceID (deviceID : String)
  | ReadMany (page rowsPerPage : Int)
  | Update (config : DeviceConfig)
  | Delete (config : DeviceConfig)
  | ValidateConfig (config : DeviceConfig)
  deriving DecidableEq, Repr

/-- A call of a method of the status repository or the status service. -/
inductive MazeDeviceStatusCall where
  | Create (status : MazeDeviceStatus)
  | ReadOne (id : Int)
  | ReadMany (page rowsPerPage : Int)
  | ReadByDeviceID (deviceID : String)
  | Update (status : MazeDeviceStatus)
  | Delete (status : MazeDeviceStatus)
  | ValidateStatus (status : MazeDeviceStatus)
  deriving DecidableEq, Repr

/-- The repository `repo`, logging its calls. -/
def DeviceConfigRepository.logged {σ : Type} (repo : DeviceConfigRepository σ) :
    DeviceConfigRepository (σ × List DeviceConfigCall) where
  Create := fun c st =>
    let r := repo.Create c st.1
    (r.1, r.2.1, (r.2.2, st.2 ++ [.Create c]))
  ReadOne := fun id st =>
    let r := repo.ReadOne id st.1
    (r.1, (r.2, st.2 ++ [.ReadOne id]))
  ReadByDeviceID := fun d st =>
    let r := repo.ReadByDeviceID d st.1
    (r.1, (r.2, st.2 ++ [.ReadByDeviceID d]))
  ReadMany := fun page rows st =>
    let r := repo.ReadMany page rows st.1
    (r.1, (r.2, st.2 ++ [.ReadMany page rows]))
  Update := fun c st =>
    let r := repo.Update c st.1
    (r.1, r.2.1, (r.2.2, st.2 ++ [.Update c]))
  Delete := fun c st =>
    let r := repo.Delete c st.1
    (r.1, r.2.1, (r.2.2, st.2 ++ [.Delete c]))

/-- The repository `repo`, logging its calls. -/
def MazeDeviceStatusRepository.logged {σ : Type} (repo : MazeDeviceStatusRepository σ) :
    MazeDeviceStatusRepository (σ × List MazeDeviceStatusCall) where
  Create := fun c st =>
    let r := repo.Create c st.1
    (r.1, r.2.1, (r.2.2, st.2 ++ [.Create c]))
  ReadOne := fun id st =>
    let r := repo.ReadOne id st.1
    (r.1, (r.2, st.2 ++ [.ReadOne id]))
  ReadMany := fun page rows st =>
    let r := repo.ReadMany page rows st.1
    (r.1, (r.2, st.2 ++ [.ReadMany page rows]))
  ReadByDeviceID := fun d st =>
    let r := repo.ReadByDeviceID d st.1
    (r.1, (r.2, st.2 ++ [.ReadByDeviceID d]))
  Update := fun c st =>
    let r := repo.Update c st.1
    (r.1, r.2.1, (r.2.2, st.2 ++ [.Update c]))
  Delete := fun c st =>
    let r := repo.Delete c st.1
    (r.1, r.2.1, (r.2.2, st.2 ++ [.Delete c]))

/-- The service `svc`, logging its calls. -/
def DeviceConfigService.logged {σ : Type} (svc : DeviceConfigService σ) :
    DeviceConfigService (σ × List DeviceConfigCall) where
  Create := fun c st =>
    let r := svc.Create c st.1
    (r.1, r.2.1, (r.2.2, st.2 ++ [.Create c]))
  ReadOne := fun id st =>
    let r := svc.ReadOne id st.1
    (r.1, (r.2, st.2 ++ [.ReadOne id]))
  ReadByDeviceID := fun d st =>
    let r := svc.ReadByDeviceID d st.1
    (r.1, (r.2, st.2 ++ [.ReadByDeviceID d]))
  ReadMany := fun page rows st =>
    let r := svc.ReadMany page rows st.1
    (r.1, (r.2, st.2 ++ [.ReadMany page rows]))
  Update := fun c st =>
    let r := svc.Update c st.1
    (r.1, r.2.1, (r.2.2, st.2 ++ [.Update c]))
  Delete := fun c st =>
    let r := svc.Delete c st.1
    (r.1, r.2.1, (r.2.2, st.2 ++ [.Delete c]))
  ValidateConfig := fun c st =>
    let r := svc.ValidateConfig c st.1
    (r.1, r.2.1, (r.2.2, st.2 ++ [.ValidateConfig c]))

/-- The service `svc`, logging its calls. -/
def MazeDeviceStatusService.logged {σ : Type} (svc : MazeDeviceStatusService σ) :
    MazeDeviceStatusService (σ × List MazeDeviceStatusCall) where
  Create := fun c st =>
    let r := svc.Create c st.1
    (r.1, r.2.1, (r.2.2, st.2 ++ [.Create c]))
  ReadOne := fun id st =>
    let r := svc.ReadOne id st.1
    (r.1, (r.2, st.2 ++ [.ReadOne id]))
  ReadMany := fun page rows st =>
    let r := svc.ReadMany page rows st.1
    (r.1, (r.2, st.2 ++ [.ReadMany page rows]))
  ReadByDeviceID := fun d st =>
    let r := svc.ReadByDeviceID d st.1
    (r.1, (r.2, st.2 ++ [.ReadByDeviceID d]))
  Update := fun c st =>
    let r := svc.Update c st.1
    (r.1, r.2.1, (r.2.2, st.2 ++ [.Update c]))
  Delete := fun c st =>
    let r := svc.Delete c st.1
    (r.1, r.2.1, (r.2.2, st.2 ++ [.Delete c]))
  ValidateStatus := fun c st =>
    let r := svc.ValidateStatus c st.1
    (r.1, r.2.1, (r.2.2, st.2 ++ [.ValidateStatus c]))

/-! ## Package `net/http`, as far as the handlers use it -/

/-- The constant `http.StatusOK`. -/
def StatusOK : Nat := 200
/-- The constant `http.StatusCreated`. -/
def StatusCreated : Nat := 201
/-- The constant `http.StatusBadRequest`. -/
def StatusBadRequest : Nat := 400
/-- The constant `http.StatusNotFound`. -/
def StatusNotFound : Nat := 404
/-- The constant `http.StatusConflict`. -/
def StatusConflict : Nat := 409
/-- The constant `http.StatusInternalServerError`. -/
def StatusInternalServerError : Nat := 500

/-- What a handler has written to its `http.ResponseWriter`: the status code, once the
header has been sent, and the body. -/
structure ResponseWriter where
  code : Option Nat
  body : String
  deriving DecidableEq, Repr

namespace ResponseWriter

/-- The writer a handler receives: nothing sent yet. -/
def fresh : ResponseWriter := ⟨none, ""⟩

/-- The method `WriteHeader`: the first call fixes the status code, a later one is
ignored. -/
def WriteHeader (w : ResponseWriter) (statusCode : Nat) : ResponseWriter :=
  match w.code with
  | some _ => w
  | none => { w with code := some statusCode }

/-- The method `Write`: sends the header with `http.StatusOK` when it has not been sent,
then appends to the body. -/
def Write (w : ResponseWriter) (b : String) : ResponseWriter :=
  let w := w.WriteHeader StatusOK
  { w with body := w.body ++ b }

/-- The status code the client receives. -/
def status (w : ResponseWriter) : Nat := w.code.getD StatusOK

end ResponseWriter

/-- The function `http.Error`: sends the header with `code`, then the text and a line
feed. -/
def httpError (w : ResponseWriter) (error : String) (code : Nat) : ResponseWriter :=
  (w.WriteHeader code).Write (error ++ "\n")

/-! ## Package `strconv`, as far as the handlers use it -/

/-- The two causes a `strconv.NumError` can carry. -/
inductive NumError where
  | ErrSyntax
  | ErrRange
  deriving DecidableEq, Repr

/-- The largest `uint64`. -/
def maxUint64 : Nat := 2 ^ 64 - 1

/-- The digit loop of `strconv.ParseUint(s, 10, 64)`: it reads the text from the left,
stops with a syntax error at the first byte that is no decimal digit, and stops with a
range error and the largest value as soon as the number read no longer fits. -/
def parseUintLoop : List Char → Nat → Nat × Option NumError
  | [], n => (n, none)
  | c :: cs, n =>
    if '0' ≤ c ∧ c ≤ '9' then
      if n ≥ maxUint64 / 10 + 1 then (maxUint64, some NumError.ErrRange)
      else
        let n1 := n * 10 + (c.toNat - '0'.toNat)
        if n1 > maxUint64 then (maxUint64, some NumError.ErrRange)
        else parseUintLoop cs n1
    else (0, some NumError.ErrSyntax)

/-- The function `strconv.ParseUint(s, 10, 64)`. -/
def ParseUint (s : List Char) : Nat × Option NumError :=
  if s = [] then (0, some NumError.ErrSyntax) else parseUintLoop s 0

/-- The function `strconv.ParseInt(s, 10, 0)` on a 64-bit platform: an optional sign, then
`ParseUint`; a syntax error gives 0, a value out of range gives the nearest `int64` and a
range error. -/
def ParseInt (s : String) : Int × Option NumError :=
  match s.data with
  | [] => (0, some NumError.ErrSyntax)
  | c :: cs =>
    let neg : Bool := c = '-'
    let digits := if c = '+' ∨ c = '-' then cs else c :: cs
    match ParseUint digits with
    | (_, some NumError.ErrSyntax) => (0, some NumError.ErrSyntax)
    | (un, _) =>
      if neg = false ∧ un ≥ 2 ^ 63 then (2 ^ 63 - 1, some NumError.ErrRange)
      else if neg = true ∧ un > 2 ^ 63 then (-(2 ^ 63), some NumError.ErrRange)
      else (if neg then -(un : Int) else (un : Int), none)

/-- The function `strconv.Atoi` on a 64-bit platform. Its fast path for short texts
computes what `ParseInt(s, 10, 0)` computes. -/
def Atoi (s : String) : Int × Option NumError := ParseInt s

/-! ## Machine integers -/

/-- The value of an `int` expression whose mathematical value is `x`, on a 64-bit
platform: `x` wrapped into the range of `int64`. -/
def wrapInt64 (x : Int) : Int := (x + 2 ^ 63) % 2 ^ 64 - 2 ^ 63

/-! ## Package `encoding/json`, slices -/

/-- What `json.NewEncoder(w).Encode` writes for a slice, given the text of each element:
the null value for the nil slice, otherwise a JSON array; then a line feed. -/
def encodeSlice {α : Type} (encodeElem : α → String) : Option (List α) → String
  | none => "null\n"
  | some xs => "[" ++ ",".intercalate (xs.map encodeElem) ++ "]\n"

/-! ## Package `database/sql`, as far as the repositories use it -/

/-- A `sql.Result`: what its methods `LastInsertId` and `RowsAffected` return. -/
structure SqlResult where
  LastInsertId : Int × Option GoError
  RowsAffected : Int × Option GoError

/-- The outcome of `QueryRowContext(...).Scan(...)`: the columns of the first row, the
error `sql.ErrNoRows`, or another error. -/
inductive RowScan (ρ : Type) where
  | row (columns : ρ)
  | ErrNoRows
  | failed (err : GoError)

/-- The outcome of `QueryContext`: an error, or the rows that `rows.Next()` delivers, each
with the outcome of its `Scan`. -/
abbrev Rows (ρ : Type) := Except GoError (List (Except GoError ρ))

/-- The built-in `append` on a slice and one element. -/
def appendSlice {α : Type} (s : Option (List α)) (x : α) : Option (List α) :=
  some (s.getD [] ++ [x])

/-- The loop `for rows.Next()` of the repositories: each row is scanned into a fresh
record and appended to the slice, and the first scan error ends the loop with the nil
slice and that error. -/
def scanRows {ρ α : Type} (scan : ρ → α) :
    List (Except GoError ρ) → Option (List α) → Option (List α) × Option GoError
  | [], acc => (acc, none)
  | Except.error err :: _, _ => (none, some err)
  | Except.ok columns :: rest, acc => scanRows scan rest (appendSlice acc (scan columns))

/-! ## Package `repository/DAL/SQLite` -/

namespace SQLite

/-- The columns `id, device_id, alarm_timeout, sensitivity_level, updated_at`. -/
abbrev ConfigRow := Int × String × Int × Int × String

/-- The columns `id, device_id, alarm_active, maze_completed, hall_sensor_value,
battery_level, timestamp`. -/
abbrev StatusRow := Int × String × Bool × Bool × Bool × Int × String

/-- The effect of `Scan(&c.ID, &c.DeviceID, &c.AlarmTimeout, &c.SensitivityLevel,
&c.UpdatedAt)` on a fresh record. -/
def scanConfig (r : ConfigRow) : MazeApi.DeviceConfig :=
  { ID := r.1, DeviceID := r.2.1, AlarmTimeout := r.2.2.1, SensitivityLevel := r.2.2.2.1,
    UpdatedAt := r.2.2.2.2 }

/-- The effect of `Scan(&s.ID, &s.DeviceID, &s.AlarmActive, &s.MazeCompleted,
&s.HallSensorValue, &s.BatteryLevel, &s.Timestamp)` on a fresh record. -/
def scanStatus (r : StatusRow) : MazeApi.MazeDeviceStatus :=
  { ID := r.1, DeviceID := r.2.1, AlarmActive := r.2.2.1, MazeCompleted := r.2.2.2.1,
    HallSensorValue := r.2.2.2.2.1, BatteryLevel := r.2.2.2.2.2.1,
    Timestamp := r.2.2.2.2.2.2 }

/-- The struct `SQLite.DeviceConfigRepository`: its prepared statements, and the query
that `ReadAll` sends over the connection, each as the store runs it on its arguments. -/
structure DeviceConfigRepository (σ : Type) where
  createStmt : String → Int → Int → String → σ → Except GoError SqlResult × σ
  readStmt : Int → σ → RowScan ConfigRow × σ
  readByDeviceIDStmt : String → σ → RowScan ConfigRow × σ
  readManyStmt : Int → Int → σ → Rows ConfigRow × σ
  updateStmt : String → Int → Int → String → Int → σ → Except GoError SqlResult × σ
  deleteStmt : Int → σ → Except GoError SqlResult × σ
  readAllQuery : σ → Rows ConfigRow × σ

/-- The struct `SQLite.MazeDeviceStatusRepository`: its prepared statements, and the query
that `ReadAll` sends over the connection, each as the store runs it on its arguments. -/
structure MazeDeviceStatusRepository (σ : Type) where
  createStmt : String → Bool → Bool → Bool → Int → String → σ → Except GoError SqlResult × σ
  readStmt : Int → σ → RowScan StatusRow × σ
  readManyStmt : Int → Int → σ → Rows StatusRow × σ
  readByDeviceIDStmt : String → σ → Rows StatusRow × σ
  updateStmt :
    String → Bool → Bool → Bool → Int → String → Int → σ → Except GoError SqlResult × σ
  deleteStmt : Int → σ → Except GoError SqlResult × σ
  readAllQuery : σ → Rows StatusRow × σ

/-- The tail shared by `Update` and `Delete`: the error of `ExecContext`, else the error
of `RowsAffected`, else the count. -/
def rowsAffectedOf (res : Except GoError SqlResult) : Int × Option GoError :=
  match res with
  | Except.error err => (0, some err)
  | Except.ok res =>
    match res.RowsAffected with
    | (_, some err) => (0, some err)
    | (rowsAffected, none) => (rowsAffected, none)

/-- The tail shared by the reading methods: the error of `QueryContext`, else the loop
over the rows, starting from the nil slice. -/
def collect {ρ α : Type} (scan : ρ → α) (rows : Rows ρ) :
    Option (List α) × Option GoError :=
  match rows with
  | Except.error err => (none, some err)
  | Except.ok rows => scanRows scan rows none

namespace DeviceConfigRepository

variable {σ : Type}

/-- The method `DeviceConfigRepository.Create`. -/
def Create (r : DeviceConfigRepository σ) (config : MazeApi.DeviceConfig) (st : σ) :
    Option GoError × MazeApi.DeviceConfig × σ :=
  match r.createStmt config.DeviceID config.AlarmTimeout config.SensitivityLevel
      config.UpdatedAt st with
  | (Except.error err, st) => (some err, config, st)
  | (Except.ok res, st) =>
    match res.LastInsertId with
    | (_, some err) => (some err, config, st)
    | (id, none) => (none, { config with ID := id }, st)

/-- The method `DeviceConfigRepository.ReadOne`. -/
def ReadOne (r : DeviceConfigRepository σ) (id : Int) (st : σ) :
    (Option MazeApi.DeviceConfig × Option GoError) × σ :=
  match r.readStmt id st with
  | (RowScan.ErrNoRows, st) => ((none, none), st)
  | (RowScan.failed err, st) => ((none, some err), st)
  | (RowScan.row columns, st) => ((some (scanConfig columns), none), st)

/-- The method `DeviceConfigRepository.ReadByDeviceID`. -/
def ReadByDeviceID (r : DeviceConfigRepository σ) (deviceID : String) (st : σ) :
    (Option MazeApi.DeviceConfig × Option GoError) × σ :=
  match r.readByDeviceIDStmt deviceID st with
  | (RowScan.ErrNoRows, st) => ((none, none), st)
  | (RowScan.failed err, st) => ((none, some err), st)
  | (RowScan.row columns, st) => ((some (scanConfig columns), none), st)

/-- The method `DeviceConfigRepository.ReadAll`. -/
def ReadAll (r : DeviceConfigRepository σ) (st : σ) :
    (Option (List MazeApi.DeviceConfig) × Option GoError) × σ :=
  match r.readAllQuery st with
  | (rows, st) => (collect scanConfig rows, st)

/-- The method `DeviceConfigRepository.ReadMany`. -/
def ReadMany (r : DeviceConfigRepository σ) (page rowsPerPage : Int) (st : σ) :
    (Option (List MazeApi.DeviceConfig) × Option GoError) × σ :=
  if page < 1 then ReadAll r st
  else
    let offset := wrapInt64 (rowsPerPage * (page - 1))
    match r.readManyStmt rowsPerPage offset st with
    | (rows, st) => (collect scanConfig rows, st)

/-- The method `DeviceConfigRepository.Update`. -/
def Update (r : DeviceConfigRepository σ) (config : MazeApi.DeviceConfig) (st : σ) :
    (Int × Option GoError) × MazeApi.DeviceConfig × σ :=
  match r.updateStmt config.DeviceID config.AlarmTimeout config.SensitivityLevel
      config.UpdatedAt config.ID st with
  | (res, st) => (rowsAffectedOf res, config, st)

/-- The method `DeviceConfigRepository.Delete`. -/
def Delete (r : DeviceConfigRepository σ) (config : MazeApi.DeviceConfig) (st : σ) :
    (Int × Option GoError) × MazeApi.DeviceConfig × σ :=
  match r.deleteStmt config.ID st with
  | (res, st) => (rowsAffectedOf res, config, st)

/-- The struct seen through the interface `models.DeviceConfigRepository`. -/
def toRepository (r : DeviceConfigRepository σ) : MazeApi.DeviceConfigRepository σ where
  Create := Create r
  ReadOne := ReadOne r
  ReadByDeviceID := ReadByDeviceID r
  ReadMany := ReadMany r
  Update := Update r
  Delete := Delete r

end DeviceConfigRepository

namespace MazeDeviceStatusRepository

variable {σ : Type}

/-- The method `MazeDeviceStatusRepository.Create`. -/
def Create (r : MazeDeviceStatusRepository σ) (status : MazeApi.MazeDeviceStatus) (st : σ) :
    Option GoError × MazeApi.MazeDeviceStatus × σ :=
  match r.createStmt status.DeviceID status.AlarmActive status.MazeCompleted
      status.HallSensorValue status.BatteryLevel status.Timestamp st with
  | (Except.error err, st) => (some err, status, st)
  | (Except.ok res, st) =>
    match res.LastInsertId with
    | (_, some err) => (some err, status, st)
    | (id, none) => (none, { status with ID := id }, st)

/-- The method `MazeDeviceStatusRepository.ReadOne`. -/
def ReadOne (r : MazeDeviceStatusRepository σ) (id : Int) (st : σ) :
    (Option MazeApi.MazeDeviceStatus × Option GoError) × σ :=
  match r.readStmt id st with
  | (RowScan.ErrNoRows, st) => ((none, none), st)
  | (RowScan.failed err, st) => ((none, some err), st)
  | (RowScan.row columns, st) => ((some (scanStatus columns), none), st)

/-- The method `MazeDeviceStatusRepository.ReadAll`. -/
def ReadAll (r : MazeDeviceStatusRepository σ) (st : σ) :
    (Option (List MazeApi.MazeDeviceStatus) × Option GoError) × σ :=
  match r.readAllQuery st with
  | (rows, st) => (collect scanStatus rows, st)

/-- The method `MazeDeviceStatusRepository.ReadMany`. -/
def ReadMany (r : MazeDeviceStatusRepository σ) (page rowsPerPage : Int) (st : σ) :
    (Option (List MazeApi.MazeDeviceStatus) × Option GoError) × σ :=
  if page < 1 then ReadAll r st
  else
    let offset := wrapInt64 (rowsPerPage * (page - 1))
    match r.readManyStmt rowsPerPage offset st with
    | (rows, st) => (collect scanStatus rows, st)

/-- The method `MazeDeviceStatusRepository.ReadByDeviceID`. -/
def ReadByDeviceID (r : MazeDeviceStatusRepository σ) (deviceID : String) (st : σ) :
    (Option (List MazeApi.MazeDeviceStatus) × Option GoError) × σ :=
  match r.readByDeviceIDStmt deviceID st with
  | (rows, st) => (collect scanStatus rows, st)

/-- The method `MazeDeviceStatusRepository.Update`. -/
def Update (r : MazeDeviceStatusRepository σ) (status : MazeApi.MazeDeviceStatus) (st : σ) :
    (Int × Option GoError) × MazeApi.MazeDeviceStatus × σ :=
  match r.updateStmt status.DeviceID status.AlarmActive status.MazeCompleted
      status.HallSensorValue status.BatteryLevel status.Timestamp status.ID st with
  | (res, st) => (rowsAffectedOf res, status, st)

/-- The method `MazeDeviceStatusRepository.Delete`. -/
def Delete (r : MazeDeviceStatusRepository σ) (status : MazeApi.MazeDeviceStatus) (st : σ) :
    (Int × Option GoError) × MazeApi.MazeDeviceStatus × σ :=
  match r.deleteStmt status.ID st with
  | (res, st) => (rowsAffectedOf res, status, st)

/-- The struct seen through the interface `models.MazeDeviceStatusRepository`. -/
def toRepository (r : MazeDeviceStatusRepository σ) : MazeApi.MazeDeviceStatusRepository σ where
  Create := Create r
  ReadOne := ReadOne r
  ReadMany := ReadMany r
  ReadByDeviceID := ReadByDeviceID r
  Update := Update r
  Delete := Delete r

end MazeDeviceStatusRepository

end SQLite

/-! ## Package `handlers/device_config` -/

namespace DeviceConfigHandlers

variable {σ : Type}

/-- The function `device_config.PostHandler`. `decode` is `json.NewDecoder(r.Body).Decode`
into a zero record (`none` when it returns an error) and `encode` is
`json.NewEncoder(w).Encode` (`none` when it returns an error, else the text written). -/
def PostHandler (decode : String → Option DeviceConfig) (encode : DeviceConfig → Option String)
    (w : ResponseWriter) (body : String) (service : DeviceConfigService σ) (st : σ) :
    ResponseWriter × σ :=
  match decode body with
  | none =>
    let w := w.WriteHeader StatusBadRequest
    (w.Write "\x7b\"error\": \"Invalid request data. Please check your input.\"\x7d", st)
  | some config =>
    match service.Create config st with
    | (some err, _, st) =>
      match err with
      | .DeviceConfigError _ =>
        let w := w.WriteHeader StatusBadRequest
        (w.Write ("\x7b\"error\": \"" ++ err.Error ++ "\"\x7d"), st)
      | _ =>
        if err.Error = "UNIQUE constraint failed: device_config.device_id" then
          let w := w.WriteHeader StatusConflict
          (w.Write "\x7b\"error\": \"Device config already exists for this device_id.\"\x7d",
            st)
        else (httpError w "Internal server error." StatusInternalServerError, st)
    | (none, config, st) =>
      let w := w.WriteHeader StatusCreated
      match encode config with
      | none => (httpError w "Internal server error." StatusInternalServerError, st)
      | some text => (w.Write text, st)

/-- The function `device_config.PutHandler`, with `decode` and `encode` as for
`PostHandler`. -/
def PutHandler (decode : String → Option DeviceConfig) (encode : DeviceConfig → Option String)
    (w : ResponseWriter) (body : String) (service : DeviceConfigService σ) (st : σ) :
    ResponseWriter × σ :=
  match decode body with
  | none =>
    let w := w.WriteHeader StatusBadRequest
    (w.Write "\x7b\"error\": \"Invalid request data. Please check your input.\"\x7d", st)
  | some config =>
    if config.ID = 0 then
      let w := w.WriteHeader StatusBadRequest
      (w.Write "\x7b\"error\": \"ID is required for update.\"\x7d", st)
    else
      match service.Update config st with
      | ((_, some err), _, st) =>
        match err with
        | .DeviceConfigError _ =>
          let w := w.WriteHeader StatusBadRequest
          (w.Write ("\x7b\"error\": \"" ++ err.Error ++ "\"\x7d"), st)
        | _ => (httpError w "Internal server error." StatusInternalServerError, st)
      | ((rowsAffected, none), config, st) =>
        if rowsAffected = 0 then
          let w := w.WriteHeader StatusNotFound
          (w.Write "\x7b\"error\": \"Device config not found.\"\x7d", st)
        else
          let w := w.WriteHeader StatusOK
          match encode config with
          | none => (httpError w "Internal server error." StatusInternalServerError, st)
          | some text => (w.Write text, st)

/-- The function `device_config.GetHandler`. The three texts are what
`r.URL.Query().Get` returns for `page`, `rows_per_page` and `device_id` (the empty text for
an absent parameter); `encode` and `encodeMany` are `json.NewEncoder(w).Encode` on a record
and on a slice. -/
def GetHandler (encode : DeviceConfig → Option String)
    (encodeMany : Option (List DeviceConfig) → Option String)
    (w : ResponseWriter) (pageStr rowsPerPageStr deviceID : String)
    (service : DeviceConfigService σ) (st : σ) : ResponseWriter × σ :=
  let page := (Atoi pageStr).1
  let rowsPerPage := (Atoi rowsPerPageStr).1
  if deviceID ≠ "" then
    match service.ReadByDeviceID deviceID st with
    | ((_, some err), st) =>
      (match err with
      | .DeviceConfigError _ =>
        let w := w.WriteHeader StatusBadRequest
        (w.Write ("\x7b\"error\": \"" ++ err.Error ++ "\"\x7d"), st)
      | _ => (httpError w "Internal server error." StatusInternalServerError, st))
    | ((none, none), st) =>
      let w := w.WriteHeader StatusNotFound
      (w.Write "\x7b\"error\": \"Device config not found.\"\x7d", st)
    | ((some config, none), st) =>
      let w := w.WriteHeader StatusOK
      match encode config with
      | none => (httpError w "Internal server error." StatusInternalServerError, st)
      | some text => (w.Write text, st)
  else
    match service.ReadMany page rowsPerPage st with
    | ((_, some _), st) =>
      (httpError w "Internal server error." StatusInternalServerError, st)
    | ((records, none), st) =>
      let w := w.WriteHeader StatusOK
      match encodeMany records with
      | none => (httpError w "Internal server error." StatusInternalServerError, st)
      | some text => (w.Write text, st)

/-- The function `device_config.GetByIDHandler`; `idStr` is what `r.PathValue("id")`
returns. -/
def GetByIDHandler (encode : DeviceConfig → Option String) (w : ResponseWriter)
    (idStr : String) (service : DeviceConfigService σ) (st : σ) : ResponseWriter × σ :=
  match Atoi idStr with
  | (_, some _) =>
    let w := w.WriteHeader StatusBadRequest
    (w.Write "\x7b\"error\": \"Invalid ID format.\"\x7d", st)
  | (id, none) =>
    match service.ReadOne id st with
    | ((_, some _), st) =>
      (httpError w "Internal server error." StatusInternalServerError, st)
    | ((none, none), st) =>
      let w := w.WriteHeader StatusNotFound
      (w.Write "\x7b\"error\": \"Device config not found.\"\x7d", st)
    | ((some record, none), st) =>
      let w := w.WriteHeader StatusOK
      match encode record with
      | none => (httpError w "Internal server error." StatusInternalServerError, st)
      | some text => (w.Write text, st)

end DeviceConfigHandlers

/-! ## Package `handlers/maze_device` -/

namespace MazeDeviceHandlers

variable {σ : Type}

/-- The function `maze_device.PostHandler`. `decode` is `json.NewDecoder(r.Body).Decode`
into a zero record (`none` when it returns an error) and `encode` is
`json.NewEncoder(w).Encode` (`none` when it returns an error, else the text written). -/
def PostHandler (decode : String → Option MazeDeviceStatus)
    (encode : MazeDeviceStatus → Option String)
    (w : ResponseWriter) (body : String) (service : MazeDeviceStatusService σ) (st : σ) :
    ResponseWriter × σ :=
  match decode body with
  | none =>
    let w := w.WriteHeader StatusBadRequest
    (w.Write "\x7b\"error\": \"Invalid request data. Please check your input.\"\x7d", st)
  | some status =>
    match service.Create status st with
    | (some err, _, st) =>
      match err with
      | .MazeDeviceStatusError _ =>
        let w := w.WriteHeader StatusBadRequest
        (w.Write ("\x7b\"error\": \"" ++ err.Error ++ "\"\x7d"), st)
      | _ => (httpError w "Internal server error." StatusInternalServerError, st)
    | (none, status, st) =>
      let w := w.WriteHeader StatusCreated
      match encode status with
      | none => (httpError w "Internal server error." StatusInternalServerError, st)
      | some text => (w.Write text, st)

/-- The function `maze_device.PutHandler`. `decode` is `json.NewDecoder(r.Body).Decode`
into a zero record (`none` when it returns an error) and `encode` is
`json.NewEncoder(w).Encode` (`none` when it returns an error, else the text written). -/
def PutHandler (decode : String → Option MazeDeviceStatus)
    (encode : MazeDeviceStatus → Option String)
    (w : ResponseWriter) (body : String) (service : MazeDeviceStatusService σ) (st : σ) :
    ResponseWriter × σ :=
  match decode body with
  | none =>
    let w := w.WriteHeader StatusBadRequest
    (w.Write "\x7b\"error\": \"Invalid request data. Please check your input.\"\x7d", st)
  | some status =>
    if status.ID = 0 then
      let w := w.WriteHeader StatusBadRequest
      (w.Write "\x7b\"error\": \"ID is required for update.\"\x7d", st)
    else
      match service.Update status st with
      | ((_, some err), _, st) =>
        match err with
        | .MazeDeviceStatusError _ =>
          let w := w.WriteHeader StatusBadRequest
          (w.Write ("\x7b\"error\": \"" ++ err.Error ++ "\"\x7d"), st)
        | _ => (httpError w "Internal server error." StatusInternalServerError, st)
      | ((rowsAffected, none), status, st) =>
        if rowsAffected = 0 then
          let w := w.WriteHeader StatusNotFound
          (w.Write "\x7b\"error\": \"Maze device status not found.\"\x7d", st)
        else
          let w := w.WriteHeader StatusOK
          match encode status with
          | none => (httpError w "Internal server error." StatusInternalServerError, st)
          | some text => (w.Write text, st)

/-- The function `maze_device.GetHandler`. The three texts are what
`r.URL.Query().Get` returns for `page`, `rows_per_page` and `device_id` (the empty text for
an absent parameter); `encodeMany` is `json.NewEncoder(w).Encode` on a slice. -/
def GetHandler (encodeMany : Option (List MazeDeviceStatus) → Option String)
    (w : ResponseWriter) (pageStr rowsPerPageStr deviceID : String)
    (service : MazeDeviceStatusService σ) (st : σ) : ResponseWriter × σ :=
  let page := (Atoi pageStr).1
  let rowsPerPage := (Atoi rowsPerPageStr).1
  if deviceID ≠ "" then
    match service.ReadByDeviceID deviceID st with
    | ((_, some err), st) =>
      (match err with
      | .MazeDeviceStatusError _ =>
        let w := w.WriteHeader StatusBadRequest
        (w.Write ("\x7b\"error\": \"" ++ err.Error ++ "\"\x7d"), st)
      | _ => (httpError w "Internal server error." StatusInternalServerError, st))
    | ((statuses, none), st) =>
      let w := w.WriteHeader StatusOK
      match encodeMany statuses with
      | none => (httpError w "Internal server error." StatusInternalServerError, st)
      | some text => (w.Write text, st)
  else
    match service.ReadMany page rowsPerPage st with
    | ((_, some _), st) =>
      (httpError w "Internal server error." StatusInternalServerError, st)
    | ((records, none), st) =>
      let w := w.WriteHeader StatusOK
      match encodeMany records with
      | none => (httpError w "Internal server error." StatusInternalServerError, st)
      | some text => (w.Write text, st)

/-- The function `maze_device.GetByIDHandler`; `idStr` is what `r.PathValue("id")`
returns. -/
def GetByIDHandler (encode : MazeDeviceStatus → Option String) (w : ResponseWriter)
    (idStr : String) (service : MazeDeviceStatusService σ) (st : σ) : ResponseWriter × σ :=
  match Atoi idStr with
  | (_, some _) =>
    let w := w.WriteHeader StatusBadRequest
    (w.Write "\x7b\"error\": \"Invalid ID format.\"\x7d", st)
  | (id, none) =>
    match service.ReadOne id st with
    | ((_, some _), st) =>
      (httpError w "Internal server error." StatusInternalServerError, st)
    | ((none, none), st) =>
      let w := w.WriteHeader StatusNotFound
      (w.Write "\x7b\"error\": \"Maze device status not found.\"\x7d", st)
    | ((some record, none), st) =>
      let w := w.WriteHeader StatusOK
      match encode record with
      | none => (httpError w "Internal server error." StatusInternalServerError, st)
      | some text => (w.Write text, st)

end MazeDeviceHandlers

/-! ## The store as a table, for the reading statements -/

/-- The slice that the loop over the rows builds out of the nil slice by appending the
elements of `xs` one after the other: the nil slice when there is none. -/
def sliceOf {α : Type} : List α → Option (List α)
  | [] => none
  | x :: xs => some (x :: xs)

/-- The rows that a `SELECT ... LIMIT ? OFFSET ?` delivers out of the rows that the same
`SELECT` delivers without the clause: SQLite skips `offset` rows, none of them when
`offset` is negative, and delivers at most `limit` of the others, all of them when `limit`
is negative. -/
def limitOffset {ρ : Type} (rows : List ρ) (limit offset : Int) : List ρ :=
  if limit < 0 then rows.drop offset.toNat else (rows.drop offset.toNat).take limit.toNat

namespace SQLite

/-- A config store whose state is the table `device_config`, the list of its rows in the
order in which a `SELECT` without `ORDER BY` delivers them, and whose two reading
statements of `ReadMany` and `ReadAll` run as SQL has it, without failing. The other
statements are those of `base`. -/
def DeviceConfigRepository.onTable (base : DeviceConfigRepository (List ConfigRow)) :
    DeviceConfigRepository (List ConfigRow) :=
  { base with
    readManyStmt := fun limit offset table =>
      (Except.ok ((limitOffset table limit offset).map Except.ok), table)
    readAllQuery := fun table => (Except.ok (table.map Except.ok), table) }

/-- A status store whose state is the table `maze_device_status`, the list of its rows in
the order in which a `SELECT` without `ORDER BY` delivers them, and whose two reading
statements of `ReadMany` and `ReadAll` run as SQL has it, without failing; `order` is the
arrangement that `ORDER BY timestamp DESC` gives the rows. The other statements are those
of `base`. -/
def MazeDeviceStatusRepository.onTable (order : List StatusRow → List StatusRow)
    (base : MazeDeviceStatusRepository (List StatusRow)) :
    MazeDeviceStatusRepository (List StatusRow) :=
  { base with
    readManyStmt := fun limit offset table =>
      (Except.ok ((limitOffset table limit offset).map Except.ok), table)
    readAllQuery := fun table => (Except.ok ((order table).map Except.ok), table) }

end SQLite

/-! ## Fixtures for the examples -/

/-- A stand-in for `time.Parse(time.RFC3339, ·)` that knows the timestamp of the handler
tests, `2024-01-15T10:30:00Z`, and rejects every other string (`invalid-timestamp` among
them); it agrees with `time.Parse` on the strings the examples below use. -/
def parseFixture (value : String) : Option Int :=
  if value = "2024-01-15T10:30:00Z" then some (1705314600 * 1000000000) else none

/-- A reading of the clock one hour after the fixture timestamp. -/
def nowFixture : Int := (1705314600 + 3600) * 1000000000

/-- The valid config of the handler tests. -/
def configFixture : DeviceConfig :=
  { ID := 0, DeviceID := "ARD001", AlarmTimeout := 300, SensitivityLevel := 5,
    UpdatedAt := "2024-01-15T10:30:00Z" }

/-- A valid status, after the service tests. -/
def statusFixture : MazeDeviceStatus :=
  { ID := 0, DeviceID := "ARD001", AlarmActive := true, MazeCompleted := false,
    HallSensorValue := false, BatteryLevel := 85, Timestamp := "2024-01-15T10:30:00Z" }

/-- A repository stub over a counter: `Create` assigns the next key, `Update` and
`Delete` report one row. -/
def statusRepoFixture : MazeDeviceStatusRepository Nat where
  Create := fun c n => (none, { c with ID := n + 1 }, n + 1)
  ReadOne := fun _ n => ((none, none), n)
  ReadMany := fun _ _ n => ((none, none), n)
  ReadByDeviceID := fun _ n => ((none, none), n)
  Update := fun c n => ((1, none), c, n)
  Delete := fun c n => ((1, none), c, n)

/-- A repository stub over a counter: `Create` assigns the next key, `Update` and
`Delete` report one row. -/
def configRepoFixture : DeviceConfigRepository Nat where
  Create := fun c n => (none, { c with ID := n + 1 }, n + 1)
  ReadOne := fun _ n => ((none, none), n)
  ReadByDeviceID := fun _ n => ((none, none), n)
  ReadMany := fun _ _ n => ((none, none), n)
  Update := fun c n => ((1, none), c, n)
  Delete := fun c n => ((1, none), c, n)

/-- A stand-in for the JSON decoder of configs: it reads the two bodies the examples
use and reports every other body as malformed. -/
def decodeConfigFixture (body : String) : Option DeviceConfig :=
  if body = "valid" then some configFixture
  else if body = "bad-timeout" then some { configFixture with AlarmTimeout := 0 }
  else none

/-- A stand-in for the JSON decoder of statuses: it reads the one body the examples use. -/
def decodeStatusFixture (body : String) : Option MazeDeviceStatus :=
  if body = "valid" then some statusFixture else none

/-- A stand-in for the JSON encoder of configs: it writes the key and the device id. -/
def encodeConfigFixture (c : DeviceConfig) : Option String :=
  some (toString c.ID ++ ":" ++ c.DeviceID)

/-- A stand-in for the JSON encoder of statuses: it writes the key and the device id. -/
def encodeStatusFixture (c : MazeDeviceStatus) : Option String :=
  some (toString c.ID ++ ":" ++ c.DeviceID)

/-- A service stub whose `Create` always fails with the uniqueness error of the store, as
the mock of the handler test does. -/
def conflictServiceFixture : DeviceConfigService Nat where
  Create := fun c n =>
    (some (GoError.other "UNIQUE constraint failed: device_config.device_id"), c, n)
  ReadOne := fun _ n => ((none, none), n)
  ReadByDeviceID := fun _ n => ((none, none), n)
  ReadMany := fun _ _ n => ((none, none), n)
  Update := fun c n => ((0, none), c, n)
  Delete := fun c n => ((0, none), c, n)
  ValidateConfig := fun c n => (none, c, n)

/-- A stand-in for the JSON decoder of configs for the update examples: it reads a body
with id 3, and one with id 3 and an invalid alarm_timeout. -/
def decodePutFixture (body : String) : Option DeviceConfig :=
  if body = "update" then some { configFixture with ID := 3 }
  else if body = "update-bad-timeout" then some { configFixture with ID := 3, AlarmTimeout := 0 }
  else none

/-- A store stub for configs: the table is the list of its rows, keys are assigned by
counting, and no statement fails. The paging statement skips `offset` rows and delivers at
most `limit` rows. -/
def sqliteConfigFixture : SQLite.DeviceConfigRepository (List SQLite.ConfigRow) where
  createStmt := fun d a l u table =>
    (Except.ok { LastInsertId := (table.length + 1, none), RowsAffected := (1, none) },
      table ++ [(((table.length + 1 : Nat) : Int), d, a, l, u)])
  readStmt := fun id table =>
    (match table.find? (fun r => r.1 = id) with
     | some r => RowScan.row r
     | none => RowScan.ErrNoRows, table)
  readByDeviceIDStmt := fun d table =>
    (match table.find? (fun r => r.2.1 = d) with
     | some r => RowScan.row r
     | none => RowScan.ErrNoRows, table)
  readManyStmt := fun limit offset table =>
    (Except.ok (((table.drop offset.toNat).take limit.toNat).map Except.ok), table)
  updateStmt := fun d a l u id table =>
    (Except.ok { LastInsertId := (0, none),
                 RowsAffected := (((table.filter (fun r => r.1 = id)).length : Nat), none) },
      table.map (fun r => if r.1 = id then (id, d, a, l, u) else r))
  deleteStmt := fun id table =>
    (Except.ok { LastInsertId := (0, none),
                 RowsAffected := (((table.filter (fun r => r.1 = id)).length : Nat), none) },
      table.filter (fun r => r.1 ≠ id))
  readAllQuery := fun table => (Except.ok (table.map Except.ok), table)

/-- A store stub for statuses: the table is the list of its rows, keys are assigned by
counting, and no statement fails. The paging statement skips `offset` rows and delivers at
most `limit` rows; the device query delivers the rows of the device. -/
def sqliteStatusFixture : SQLite.MazeDeviceStatusRepository (List SQLite.StatusRow) where
  createStmt := fun d a m h b t table =>
    (Except.ok { LastInsertId := (table.length + 1, none), RowsAffected := (1, none) },
      table ++ [(((table.length + 1 : Nat) : Int), d, a, m, h, b, t)])
  readStmt := fun id table =>
    (match table.find? (fun r => r.1 = id) with
     | some r => RowScan.row r
     | none => RowScan.ErrNoRows, table)
  readManyStmt := fun limit offset table =>
    (Except.ok (((table.drop offset.toNat).take limit.toNat).map Except.ok), table)
  readByDeviceIDStmt := fun d table =>
    (Except.ok ((table.filter (fun r => r.2.1 = d)).map Except.ok), table)
  updateStmt := fun d a m h b t id table =>
    (Except.ok { LastInsertId := (0, none),
                 RowsAffected := (((table.filter (fun r => r.1 = id)).length : Nat), none) },
      table.map (fun r => if r.1 = id then (id, d, a, m, h, b, t) else r))
  deleteStmt := fun id table =>
    (Except.ok { LastInsertId := (0, none),
                 RowsAffected := (((table.filter (fun r => r.1 = id)).length : Nat), none) },
      table.filter (fun r => r.1 ≠ id))
  readAllQuery := fun table => (Except.ok (table.map Except.ok), table)

/-- A stand-in for the JSON encoder of config slices: the slice rule of `encodeSlice` over
the element text of `encodeConfigFixture`. -/
def encodeConfigsFixture (cs : Option (List DeviceConfig)) : Option String :=
  some (encodeSlice (fun c => toString c.ID ++ ":" ++ c.DeviceID) cs)

/-- A stand-in for the JSON encoder of status slices: the slice rule of `encodeSlice` over
the element text of `encodeStatusFixture`. -/
def encodeStatusesFixture (cs : Option (List MazeDeviceStatus)) : Option String :=
  some (encodeSlice (fun c => toString c.ID ++ ":" ++ c.DeviceID) cs)

/-- A repository stub whose `ReadByDeviceID` returns a record together with an error. -/
def recordWithErrorRepoFixture : DeviceConfigRepository Nat where
  Create := fun c n => (none, c, n)
  ReadOne := fun _ n => ((none, none), n)
  ReadByDeviceID := fun _ n => ((some configFixture, some (GoError.other "database is locked")), n)
  ReadMany := fun _ _ n => ((none, none), n)
  Update := fun c n => ((1, none), c, n)
  Delete := fun c n => ((1, none), c, n)

/-- A repository stub whose `ReadOne` returns a record together with an error. -/
def readOneRecordWithErrorFixture : DeviceConfigRepository Nat where
  Create := fun c n => (none, c, n)
  ReadOne := fun _ n => ((some configFixture, some (GoError.other "database is locked")), n)
  ReadByDeviceID := fun _ n => ((none, none), n)
  ReadMany := fun _ _ n => ((none, none), n)
  Update := fun c n => ((1, none), c, n)
  Delete := fun c n => ((1, none), c, n)

/-- A store stub for configs whose update statement always fails with the uniqueness error
of the store; the other statements are those of `sqliteConfigFixture`. -/
def sqliteConflictFixture : SQLite.DeviceConfigRepository (List SQLite.ConfigRow) :=
  { sqliteConfigFixture with
    updateStmt := fun _ _ _ _ _ table =>
      (Except.error (GoError.other "UNIQUE constraint failed: device_config.device_id"),
        table) }

/-- A status service stub whose `Create` always fails with the uniqueness error of the
config table. -/
def statusConflictServiceFixture : MazeDeviceStatusService Nat where
  Create := fun c n =>
    (some (GoError.other "UNIQUE constraint failed: device_config.device_id"), c, n)
  ReadOne := fun _ n => ((none, none), n)
  ReadMany := fun _ _ n => ((none, none), n)
  ReadByDeviceID := fun _ n => ((none, none), n)
  Update := fun c n => ((0, none), c, n)
  Delete := fun c n => ((0, none), c, n)
  ValidateStatus := fun c n => (none, c, n)

/-! ## The validation rules as the specification words them -/

/-- The messages of the rules a config violates, in the order device_id, alarm_timeout,
sensitivity_level, updated_at: one message for each violated rule and none for a
satisfied one. -/
def configViolations (parse : String → Option Int) (now : Int) (c : DeviceConfig) :
    List String :=
  (if c.DeviceID = "" ∨ c.DeviceID.utf8ByteSize > 50 then
    ["device_id is required and must be less than 50 characters. "] else []) ++
  (if c.AlarmTimeout < 1 ∨ c.AlarmTimeout > 3600 then
    ["alarm_timeout must be between 1 and 3600 seconds. "] else []) ++
  (if c.SensitivityLevel < 1 ∨ c.SensitivityLevel > 10 then
    ["sensitivity_level must be between 1 and 10. "] else []) ++
  (match parse c.UpdatedAt with
   | none => ["updated_at must be in RFC3339 format (e.g., 2006-01-02T15:04:05Z07:00). "]
   | some t => if t > now + 1 * Minute then ["updated_at must not be in the future. "] else [])

/-- The messages of the rules a status violates, in the order device_id, battery_level,
timestamp, completion without sensor confirmation. -/
def statusViolations (parse : String → Option Int) (now : Int) (c : MazeDeviceStatus) :
    List String :=
  (if c.DeviceID = "" ∨ c.DeviceID.utf8ByteSize > 50 then
    ["device_id is required and must be less than 50 characters. "] else []) ++
  (if c.BatteryLevel < 0 ∨ c.BatteryLevel > 100 then
    ["battery_level must be between 0 and 100. "] else []) ++
  (match parse c.Timestamp with
   | none => ["timestamp must be in RFC3339 format (e.g., 2006-01-02T15:04:05Z07:00). "]
   | some t => if t > now + 1 * Minute then ["timestamp must not be in the future. "] else []) ++
  (if c.MazeCompleted ∧ ¬ c.HallSensorValue then
    ["maze_completed cannot be true when hall_sensor_value is false. "] else [])

/-- The text `sub` occurs in `s`. -/
def Contains (s sub : String) : Prop := ∃ pre suf : String, s = pre ++ sub ++ suf

/-! ## JSON texts of the error bodies -/

/-- A character that may stand unescaped inside a JSON string: printable ASCII other than
the double quote and the backslash. (JSON also admits the characters above ASCII; the
messages at hand have none.) -/
def plainChar (c : Char) : Bool :=
  decide (32 ≤ c.toNat) && decide (c.toNat < 127) && decide (c ≠ '"') && decide (c ≠ '\\')

/-- The text has no double quote, no backslash and no control character. -/
def jsonSafe (s : String) : Bool := s.data.all plainChar

/-- Reads the rest of a JSON string after its opening quote, as long as it has no escape:
the characters up to the closing quote, and what follows it. -/
def readStringBody : List Char → Option (List Char × List Char)
  | [] => none
  | c :: cs =>
    if c = '"' then some ([], cs)
    else if plainChar c then
      match readStringBody cs with
      | some (value, rest) => some (c :: value, rest)
      | none => none
    else none

/-- Drops the given opening from a text, when the text starts with it. -/
def dropOpening : List Char → List Char → Option (List Char)
  | [], text => some text
  | _ :: _, [] => none
  | o :: opening, c :: text => if o = c then dropOpening opening text else none

/-- Reads a body of the form `{"error": "<text without escapes>"}` as JSON and gives the
value of its `error` field; every text it accepts is a well-formed JSON object with that
one field. -/
def parseErrorBody (body : String) : Option String :=
  match dropOpening "\x7b\"error\": \"".data body.data with
  | none => none
  | some rest =>
    match readStringBody rest with
    | some (value, ['\x7d']) => some (String.mk value)
    | _ => none

/-! ## Lemmas shared by the theorems -/

theorem append_ne_empty (s t : String) (h : t ≠ "") : s ++ t ≠ "" := by
  intro hst
  apply h
  have hd := congrArg String.data hst
  simp only [String.data_append] at hd
  exact String.ext (List.append_eq_nil.mp hd).2

set_option maxRecDepth 100000 in
theorem validateConfig_eq (parse : String → Option Int) (now : Int) (c : DeviceConfig) :
    ValidateConfig parse now c =
      if configViolations parse now c = [] then none
      else some (GoError.DeviceConfigError (String.join (configViolations parse now c))) := by
  unfold ValidateConfig configViolations
  by_cases h1 : c.DeviceID = "" ∨ c.DeviceID.utf8ByteSize > 50 <;>
  by_cases h2 : c.AlarmTimeout < 1 ∨ c.AlarmTimeout > 3600 <;>
  by_cases h3 : c.SensitivityLevel < 1 ∨ c.SensitivityLevel > 10 <;>
  rcases h4 : parse c.UpdatedAt with _ | t <;>
  simp only [h1, h2, h3, h4, if_true, if_false] <;>
  first
  | rfl
  | (by_cases h5 : t > now + 1 * Minute <;> simp only [h5, if_true, if_false] <;> rfl)

set_option maxRecDepth 100000 in
theorem validateStatus_eq (parse : String → Option Int) (now : Int) (c : MazeDeviceStatus) :
    ValidateStatus parse now c =
      if statusViolations parse now c = [] then none
      else some (GoError.MazeDeviceStatusError (String.join (statusViolations parse now c))) := by
  unfold ValidateStatus statusViolations
  by_cases h1 : c.DeviceID = "" ∨ c.DeviceID.utf8ByteSize > 50 <;>
  by_cases h2 : c.BatteryLevel < 0 ∨ c.BatteryLevel > 100 <;>
  by_cases h3 : c.MazeCompleted = true ∧ ¬ c.HallSensorValue = true <;>
  rcases h4 : parse c.Timestamp with _ | t <;>
  simp only [h1, h2, h3, h4, if_true, if_false] <;>
  first
  | rfl
  | (by_cases h5 : t > now + 1 * Minute <;> simp only [h5, if_true, if_false] <;> rfl)

theorem configViolations_eq_nil_iff (parse : String → Option Int) (now : Int)
    (c : DeviceConfig) :
    configViolations parse now c = [] ↔
      (c.DeviceID ≠ "" ∧ c.DeviceID.utf8ByteSize ≤ 50) ∧
      (1 ≤ c.AlarmTimeout ∧ c.AlarmTimeout ≤ 3600) ∧
      (1 ≤ c.SensitivityLevel ∧ c.SensitivityLevel ≤ 10) ∧
      ∃ t, parse c.UpdatedAt = some t ∧ t ≤ now + Minute := by
  unfold configViolations
  rcases h4 : parse c.UpdatedAt with _ | t
  · simp
  · simp only [List.append_eq_nil, ite_eq_right_iff, List.cons_ne_nil, imp_false, not_or,
      not_lt, gt_iff_lt, one_mul, Option.some.injEq, exists_eq_left', ne_eq, not_le]
    tauto

theorem statusViolations_eq_nil_iff (parse : String → Option Int) (now : Int)
    (c : MazeDeviceStatus) :
    statusViolations parse now c = [] ↔
      (c.DeviceID ≠ "" ∧ c.DeviceID.utf8ByteSize ≤ 50) ∧
      (0 ≤ c.BatteryLevel ∧ c.BatteryLevel ≤ 100) ∧
      (∃ t, parse c.Timestamp = some t ∧ t ≤ now + Minute) ∧
      ¬ (c.MazeCompleted = true ∧ c.HallSensorValue = false) := by
  unfold statusViolations
  rcases h4 : parse c.Timestamp with _ | t
  · simp
  · simp only [List.append_eq_nil, ite_eq_right_iff, List.cons_ne_nil, imp_false, not_or,
      not_lt, gt_iff_lt, one_mul, Option.some.injEq, exists_eq_left', ne_eq, not_le,
      Bool.not_eq_true]
    tauto

theorem validateConfig_none_iff (parse : String → Option Int) (now : Int) (c : DeviceConfig) :
    ValidateConfig parse now c = none ↔
      (c.DeviceID ≠ "" ∧ c.DeviceID.utf8ByteSize ≤ 50) ∧
      (1 ≤ c.AlarmTimeout ∧ c.AlarmTimeout ≤ 3600) ∧
      (1 ≤ c.SensitivityLevel ∧ c.SensitivityLevel ≤ 10) ∧
      ∃ t, parse c.UpdatedAt = some t ∧ t ≤ now + Minute := by
  rw [validateConfig_eq, ← configViolations_eq_nil_iff]
  split_ifs with h <;> simp [h]

theorem validateStatus_none_iff (parse : String → Option Int) (now : Int)
    (c : MazeDeviceStatus) :
    ValidateStatus parse now c = none ↔
      (c.DeviceID ≠ "" ∧ c.DeviceID.utf8ByteSize ≤ 50) ∧
      (0 ≤ c.BatteryLevel ∧ c.BatteryLevel ≤ 100) ∧
      (∃ t, parse c.Timestamp = some t ∧ t ≤ now + Minute) ∧
      ¬ (c.MazeCompleted = true ∧ c.HallSensorValue = false) := by
  rw [validateStatus_eq, ← statusViolations_eq_nil_iff]
  split_ifs with h <;> simp [h]

theorem validateStatus_of_incomplete (parse : String → Option Int) (now : Int)
    (c : MazeDeviceStatus) (hm : c.MazeCompleted = true) (hh : c.HallSensorValue = false) :
    ∃ p : String, ValidateStatus parse now c = some (GoError.MazeDeviceStatusError
      (p ++ "maze_completed cannot be true when hall_sensor_value is false. ")) := by
  unfold ValidateStatus
  simp only [hm, hh, true_and, Bool.false_eq_true, not_false_eq_true, if_true]
  generalize hp : (match parse c.Timestamp with
    | none => _
    | some timestamp => _) = p
  refine ⟨p, ?_⟩
  rw [if_pos (append_ne_empty p _ (by decide))]

theorem postHandler_of_created {σ : Type} (decode : String → Option DeviceConfig)
    (encode : DeviceConfig → Option String) (service : DeviceConfigService σ)
    (body : String) (config created : DeviceConfig) (st st1 : σ)
    (hdecode : decode body = some config)
    (hcreate : service.Create config st = (none, created, st1)) :
    DeviceConfigHandlers.PostHandler decode encode ResponseWriter.fresh body service st =
      match encode created with
      | none =>
        (httpError (ResponseWriter.fresh.WriteHeader StatusCreated) "Internal server error."
          StatusInternalServerError, st1)
      | some text => ((ResponseWriter.fresh.WriteHeader StatusCreated).Write text, st1) := by
  simp only [DeviceConfigHandlers.PostHandler, hdecode, hcreate]

theorem postHandler_of_rejected {σ : Type} (decode : String → Option DeviceConfig)
    (encode : DeviceConfig → Option String) (service : DeviceConfigService σ)
    (body : String) (config left : DeviceConfig) (m : String) (st st1 : σ)
    (hdecode : decode body = some config)
    (hcreate : service.Create config st = (some (GoError.DeviceConfigError m), left, st1)) :
    DeviceConfigHandlers.PostHandler decode encode ResponseWriter.fresh body service st =
      ({ code := some 400, body := "\x7b\"error\": \"" ++ m ++ "\"\x7d" }, st1) := by
  simp only [DeviceConfigHandlers.PostHandler, hdecode, hcreate]
  rfl

theorem postHandler_of_failed {σ : Type} (decode : String → Option DeviceConfig)
    (encode : DeviceConfig → Option String) (service : DeviceConfigService σ)
    (body : String) (config left : DeviceConfig) (err : GoError) (st st1 : σ)
    (hdecode : decode body = some config)
    (hcreate : service.Create config st = (some err, left, st1))
    (hkind : ∀ m, err ≠ GoError.DeviceConfigError m) :
    DeviceConfigHandlers.PostHandler decode encode ResponseWriter.fresh body service st =
      if err.Error = "UNIQUE constraint failed: device_config.device_id" then
        ({ code := some 409,
           body := "\x7b\"error\": \"Device config already exists for this device_id.\"\x7d" },
          st1)
      else ({ code := some 500, body := "Internal server error.\n" }, st1) := by
  simp only [DeviceConfigHandlers.PostHandler, hdecode, hcreate]
  cases err with
  | DeviceConfigError m => exact absurd rfl (hkind m)
  | MazeDeviceStatusError m => split_ifs <;> rfl
  | other t => split_ifs <;> rfl

/-! ## Validation -/

/-- C1: `ValidateConfig` returns no error exactly when device_id is non-empty and at most
50 long (`len`, the byte count), alarm_timeout is in [1,3600], sensitivity_level is in
[1,10], updated_at parses, and the parsed instant is at most one minute after the current
time. For a config that is accepted, setting alarm_timeout to 1 or 3600 or
sensitivity_level to 1 or 10 keeps it accepted; every config with alarm_timeout 0 or 3601
or sensitivity_level 0 or 11 is rejected. -/
theorem validateConfig_accepts_iff (parse : String → Option Int) (now : Int)
    (c : DeviceConfig) :
    (ValidateConfig parse now c = none ↔
      (c.DeviceID ≠ "" ∧ c.DeviceID.utf8ByteSize ≤ 50) ∧
      (1 ≤ c.AlarmTimeout ∧ c.AlarmTimeout ≤ 3600) ∧
      (1 ≤ c.SensitivityLevel ∧ c.SensitivityLevel ≤ 10) ∧
      ∃ t, parse c.UpdatedAt = some t ∧ t ≤ now + Minute) ∧
    (ValidateConfig parse now c = none →
      ValidateConfig parse now { c with AlarmTimeout := 1 } = none ∧
      ValidateConfig parse now { c with AlarmTimeout := 3600 } = none ∧
      ValidateConfig parse now { c with SensitivityLevel := 1 } = none ∧
      ValidateConfig parse now { c with SensitivityLevel := 10 } = none) ∧
    ValidateConfig parse now { c with AlarmTimeout := 0 } ≠ none ∧
    ValidateConfig parse now { c with AlarmTimeout := 3601 } ≠ none ∧
    ValidateConfig parse now { c with SensitivityLevel := 0 } ≠ none ∧
    ValidateConfig parse now { c with SensitivityLevel := 11 } ≠ none := by
  refine ⟨validateConfig_none_iff parse now c, ?_, ?_, ?_, ?_, ?_⟩
  · intro h
    obtain ⟨h1, h2, h3, h4⟩ := (validateConfig_none_iff parse now c).mp h
    refine ⟨?_, ?_, ?_, ?_⟩ <;> rw [validateConfig_none_iff] <;>
      exact ⟨h1, by first | exact h2 | (dsimp only; omega),
        by first | exact h3 | (dsimp only; omega), h4⟩
  all_goals
    rw [ne_eq, validateConfig_none_iff]
    rintro ⟨-, h2, h3, -⟩
    dsimp only at h2 h3
    omega

/-- The fixture config is accepted, and stays accepted with alarm_timeout 1. -/
theorem validateConfig_accepts_iff_witness :
    ValidateConfig parseFixture nowFixture configFixture = none ∧
    ValidateConfig parseFixture nowFixture { configFixture with AlarmTimeout := 1 } = none :=
  ⟨by decide,
    ((validateConfig_accepts_iff parseFixture nowFixture configFixture).2.1 (by decide)).1⟩

/-- C2: `ValidateStatus` returns no error exactly when device_id is non-empty and at most
50 long (`len`, the byte count), battery_level is in [0,100], timestamp parses and the
parsed instant is at most one minute after the current time, and it is not the case that
maze_completed is true while hall_sensor_value is false. For a status that is accepted,
setting battery_level to 0 or 100 keeps it accepted; every status with battery_level -1
or 101 is rejected. -/
theorem validateStatus_accepts_iff (parse : String → Option Int) (now : Int)
    (c : MazeDeviceStatus) :
    (ValidateStatus parse now c = none ↔
      (c.DeviceID ≠ "" ∧ c.DeviceID.utf8ByteSize ≤ 50) ∧
      (0 ≤ c.BatteryLevel ∧ c.BatteryLevel ≤ 100) ∧
      (∃ t, parse c.Timestamp = some t ∧ t ≤ now + Minute) ∧
      ¬ (c.MazeCompleted = true ∧ c.HallSensorValue = false)) ∧
    (ValidateStatus parse now c = none →
      ValidateStatus parse now { c with BatteryLevel := 0 } = none ∧
      ValidateStatus parse now { c with BatteryLevel := 100 } = none) ∧
    ValidateStatus parse now { c with BatteryLevel := -1 } ≠ none ∧
    ValidateStatus parse now { c with BatteryLevel := 101 } ≠ none := by
  refine ⟨validateStatus_none_iff parse now c, ?_, ?_, ?_⟩
  · intro h
    obtain ⟨h1, -, h3, h4⟩ := (validateStatus_none_iff parse now c).mp h
    refine ⟨?_, ?_⟩ <;> rw [validateStatus_none_iff] <;>
      exact ⟨h1, by dsimp only; omega, h3, h4⟩
  all_goals
    rw [ne_eq, validateStatus_none_iff]
    rintro ⟨-, h2, -, -⟩
    dsimp only at h2
    omega

/-- The fixture status is accepted, and stays accepted with battery_level 100. -/
theorem validateStatus_accepts_iff_witness :
    ValidateStatus parseFixture nowFixture statusFixture = none ∧
    ValidateStatus parseFixture nowFixture { statusFixture with BatteryLevel := 100 } = none :=
  ⟨by decide,
    ((validateStatus_accepts_iff parseFixture nowFixture statusFixture).2.1 (by decide)).2⟩

/-- C4, evaluated where it fails: a device_id of 26 letters `é` is 26 characters long and
52 bytes long, and both validators report the device_id rule for it, every other field
being valid. -/
theorem deviceID_length_counts_bytes :
    String.length "éééééééééééééééééééééééééé" = 26 ∧
    String.utf8ByteSize "éééééééééééééééééééééééééé" = 52 ∧
    ValidateConfig parseFixture nowFixture { configFixture with DeviceID := "éééééééééééééééééééééééééé" } =
      some (GoError.DeviceConfigError
        "device_id is required and must be less than 50 characters. ") ∧
    ValidateStatus parseFixture nowFixture { statusFixture with DeviceID := "éééééééééééééééééééééééééé" } =
      some (GoError.MazeDeviceStatusError
        "device_id is required and must be less than 50 characters. ") := by
  refine ⟨by decide, by decide, by decide, by decide⟩

/-- C5: the error of `ValidateConfig` is absent when no rule is violated, and otherwise
carries the concatenation, in the order device_id, alarm_timeout, sensitivity_level,
updated_at, of the messages of exactly the violated rules. With an unparseable
`invalid-timestamp`, the config with empty device_id, alarm_timeout 5000 and
sensitivity_level 20 gets one error with all four messages. -/
theorem validateConfig_concatenates (parse : String → Option Int) (now : Int)
    (c : DeviceConfig) :
    ValidateConfig parse now c =
      (if configViolations parse now c = [] then none
       else some (GoError.DeviceConfigError (String.join (configViolations parse now c)))) ∧
    (parse "invalid-timestamp" = none →
      ValidateConfig parse now
          { c with DeviceID := "", AlarmTimeout := 5000, SensitivityLevel := 20,
                   UpdatedAt := "invalid-timestamp" } =
        some (GoError.DeviceConfigError
          ("device_id is required and must be less than 50 characters. " ++
           "alarm_timeout must be between 1 and 3600 seconds. " ++
           "sensitivity_level must be between 1 and 10. " ++
           "updated_at must be in RFC3339 format (e.g., 2006-01-02T15:04:05Z07:00). "))) := by
  refine ⟨validateConfig_eq parse now c, ?_⟩
  intro h
  rw [validateConfig_eq]
  simp only [configViolations, h]
  rfl

/-- The four-fold violation of the service test, at the fixture parser. -/
theorem validateConfig_concatenates_witness :
    ValidateConfig parseFixture nowFixture
        { ID := 0, DeviceID := "", AlarmTimeout := 5000, SensitivityLevel := 20,
          UpdatedAt := "invalid-timestamp" } =
      some (GoError.DeviceConfigError
        ("device_id is required and must be less than 50 characters. " ++
         "alarm_timeout must be between 1 and 3600 seconds. " ++
         "sensitivity_level must be between 1 and 10. " ++
         "updated_at must be in RFC3339 format (e.g., 2006-01-02T15:04:05Z07:00). ")) :=
  (validateConfig_concatenates parseFixture nowFixture configFixture).2 (by decide)

/-! ## The validating services -/

/-- C3: every status that the status service hands to the repository's `Create` or
`Update` has maze_completed = true only with hall_sensor_value = true; and for a status
with maze_completed = true and hall_sensor_value = false, `Create` and `Update` return a
`MazeDeviceStatusError` whose message contains the text of the completion rule, leave the
record and the repository state as they were, and make no repository call. -/
theorem status_completion_invariant {σ : Type} (parse : String → Option Int) (now : Int)
    (repo : MazeDeviceStatusRepository σ) (status : MazeDeviceStatus) (st : σ)
    (log : List MazeDeviceStatusCall) :
    (∀ call x,
      (call ∈ (MazeDeviceStatusServiceSQLite.Create parse now ⟨repo.logged⟩ status
          (st, [])).2.2.2 ∨
       call ∈ (MazeDeviceStatusServiceSQLite.Update parse now ⟨repo.logged⟩ status
          (st, [])).2.2.2) →
      (call = MazeDeviceStatusCall.Create x ∨ call = MazeDeviceStatusCall.Update x) →
      x.MazeCompleted = true → x.HallSensorValue = true) ∧
    (status.MazeCompleted = true → status.HallSensorValue = false →
      ∃ msg, Contains msg "maze_completed cannot be true when hall_sensor_value is false" ∧
        MazeDeviceStatusServiceSQLite.Create parse now ⟨repo.logged⟩ status (st, log) =
          (some (GoError.MazeDeviceStatusError msg), status, (st, log)) ∧
        MazeDeviceStatusServiceSQLite.Update parse now ⟨repo.logged⟩ status (st, log) =
          ((0, some (GoError.MazeDeviceStatusError msg)), status, (st, log))) := by
  constructor
  · intro call x hmem hcall hm
    by_contra hh
    have hh : x.HallSensorValue = false := by simpa using hh
    rcases hv : ValidateStatus parse now status with _ | e
    · have hinv := ((validateStatus_none_iff parse now status).mp hv).2.2.2
      simp only [MazeDeviceStatusServiceSQLite.Create, MazeDeviceStatusServiceSQLite.Update,
        hv, MazeDeviceStatusRepository.logged, List.nil_append, List.mem_singleton] at hmem
      rcases hmem with h | h <;> rcases hcall with h2 | h2 <;> rw [h] at h2 <;>
        first
        | (injection h2 with h3; subst h3; exact hinv ⟨hm, hh⟩)
        | exact MazeDeviceStatusCall.noConfusion h2
    · simp [MazeDeviceStatusServiceSQLite.Create, MazeDeviceStatusServiceSQLite.Update,
        hv] at hmem
  · intro hm hh
    obtain ⟨p, hp⟩ := validateStatus_of_incomplete parse now status hm hh
    refine ⟨"Invalid maze device status: " ++
      (p ++ "maze_completed cannot be true when hall_sensor_value is false. "),
      ⟨"Invalid maze device status: " ++ p, ". ", ?_⟩, ?_, ?_⟩
    · have hlit : "maze_completed cannot be true when hall_sensor_value is false. " =
          "maze_completed cannot be true when hall_sensor_value is false" ++ ". " := by
        decide
      rw [hlit]
      simp only [String.append_assoc]
    · simp only [MazeDeviceStatusServiceSQLite.Create, hp, GoError.Error]
    · simp only [MazeDeviceStatusServiceSQLite.Update, hp, GoError.Error]

/-- A completed maze without sensor confirmation is turned away by `Create`, with the
repository state and the call log untouched. -/
theorem status_completion_invariant_witness :
    ∃ msg, Contains msg "maze_completed cannot be true when hall_sensor_value is false" ∧
      MazeDeviceStatusServiceSQLite.Create parseFixture nowFixture
          ⟨(statusRepoFixture).logged⟩
          { statusFixture with MazeCompleted := true } ((7 : Nat), []) =
        (some (GoError.MazeDeviceStatusError msg),
          { statusFixture with MazeCompleted := true }, ((7 : Nat), [])) :=
  let ⟨msg, h1, h2, _⟩ :=
    (status_completion_invariant parseFixture nowFixture statusRepoFixture
      { statusFixture with MazeCompleted := true } (7 : Nat) []).2 rfl rfl
  ⟨msg, h1, h2⟩

/-- C6: when the record fails validation with error `e`, the config service's `Create`
and `Update` make no repository call (the log and the repository state are unchanged) and
return the `DeviceConfigError` with message `Invalid device config: ` followed by the
message of `e`, `Update` with row count 0; likewise the status service with
`MazeDeviceStatusError` and `Invalid maze device status: `. -/
theorem invalid_record_never_reaches_repository {σ τ : Type}
    (parse : String → Option Int) (now : Int)
    (crepo : DeviceConfigRepository σ) (srepo : MazeDeviceStatusRepository τ)
    (config : DeviceConfig) (status : MazeDeviceStatus) (st : σ) (st2 : τ)
    (clog : List DeviceConfigCall) (slog : List MazeDeviceStatusCall) :
    (∀ e, ValidateConfig parse now config = some e →
      DeviceConfigServiceSQLite.Create parse now ⟨crepo.logged⟩ config (st, clog) =
        (some (GoError.DeviceConfigError ("Invalid device config: " ++ e.Error)),
          config, (st, clog)) ∧
      DeviceConfigServiceSQLite.Update parse now ⟨crepo.logged⟩ config (st, clog) =
        ((0, some (GoError.DeviceConfigError ("Invalid device config: " ++ e.Error))),
          config, (st, clog))) ∧
    (∀ e, ValidateStatus parse now status = some e →
      MazeDeviceStatusServiceSQLite.Create parse now ⟨srepo.logged⟩ status (st2, slog) =
        (some (GoError.MazeDeviceStatusError ("Invalid maze device status: " ++ e.Error)),
          status, (st2, slog)) ∧
      MazeDeviceStatusServiceSQLite.Update parse now ⟨srepo.logged⟩ status (st2, slog) =
        ((0, some (GoError.MazeDeviceStatusError
            ("Invalid maze device status: " ++ e.Error))),
          status, (st2, slog))) := by
  constructor
  · intro e he
    simp only [DeviceConfigServiceSQLite.Create, DeviceConfigServiceSQLite.Update, he,
      and_self]
  · intro e he
    simp only [MazeDeviceStatusServiceSQLite.Create, MazeDeviceStatusServiceSQLite.Update,
      he, and_self]

/-- A config with alarm_timeout 0 is turned away by `Create` with the prefixed message,
and the repository stub is not called. -/
theorem invalid_record_never_reaches_repository_witness :
    DeviceConfigServiceSQLite.Create parseFixture nowFixture ⟨configRepoFixture.logged⟩
        { configFixture with AlarmTimeout := 0 } (7, []) =
      (some (GoError.DeviceConfigError ("Invalid device config: " ++
          "alarm_timeout must be between 1 and 3600 seconds. ")),
        { configFixture with AlarmTimeout := 0 }, (7, [])) :=
  ((invalid_record_never_reaches_repository parseFixture nowFixture configRepoFixture
      statusRepoFixture { configFixture with AlarmTimeout := 0 } statusFixture 7 7 [] []).1
    (GoError.DeviceConfigError "alarm_timeout must be between 1 and 3600 seconds. ")
    (by decide)).1

/-- C7: for a record that passes validation, the service's `Create` returns exactly what
the repository's `Create` returns on that record (error value, record and state), having
called it once and nothing else; and `Update` returns exactly what the repository's
`Update` returns, having called it once and nothing else. This holds for the config
service and for the status service. -/
theorem valid_record_passes_through {σ τ : Type}
    (parse : String → Option Int) (now : Int)
    (crepo : DeviceConfigRepository σ) (srepo : MazeDeviceStatusRepository τ)
    (config : DeviceConfig) (status : MazeDeviceStatus) (st : σ) (st2 : τ)
    (clog : List DeviceConfigCall) (slog : List MazeDeviceStatusCall) :
    (ValidateConfig parse now config = none →
      DeviceConfigServiceSQLite.Create parse now ⟨crepo⟩ config st = crepo.Create config st ∧
      DeviceConfigServiceSQLite.Update parse now ⟨crepo⟩ config st = crepo.Update config st ∧
      (DeviceConfigServiceSQLite.Create parse now ⟨crepo.logged⟩ config (st, clog)).2.2.2 =
        clog ++ [DeviceConfigCall.Create config] ∧
      (DeviceConfigServiceSQLite.Update parse now ⟨crepo.logged⟩ config (st, clog)).2.2.2 =
        clog ++ [DeviceConfigCall.Update config]) ∧
    (ValidateStatus parse now status = none →
      MazeDeviceStatusServiceSQLite.Create parse now ⟨srepo⟩ status st2 =
        srepo.Create status st2 ∧
      MazeDeviceStatusServiceSQLite.Update parse now ⟨srepo⟩ status st2 =
        srepo.Update status st2 ∧
      (MazeDeviceStatusServiceSQLite.Create parse now ⟨srepo.logged⟩ status
          (st2, slog)).2.2.2 = slog ++ [MazeDeviceStatusCall.Create status] ∧
      (MazeDeviceStatusServiceSQLite.Update parse now ⟨srepo.logged⟩ status
          (st2, slog)).2.2.2 = slog ++ [MazeDeviceStatusCall.Update status]) := by
  constructor
  · intro h
    simp only [DeviceConfigServiceSQLite.Create, DeviceConfigServiceSQLite.Update, h,
      DeviceConfigRepository.logged, and_self]
  · intro h
    simp only [MazeDeviceStatusServiceSQLite.Create, MazeDeviceStatusServiceSQLite.Update, h,
      MazeDeviceStatusRepository.logged, and_self]

/-- The fixture config passes validation, and `Create` returns what the repository stub
returns: no error, the record with the assigned key 8, the advanced state. -/
theorem valid_record_passes_through_witness :
    DeviceConfigServiceSQLite.Create parseFixture nowFixture ⟨configRepoFixture⟩
        configFixture 7 = (none, { configFixture with ID := 8 }, 8) :=
  ((valid_record_passes_through parseFixture nowFixture configRepoFixture statusRepoFixture
      configFixture statusFixture 7 7 [] []).1 (by decide)).1

/-! ## The handlers -/

/-- C8: for a body that decodes, when the service's `Create` fails with the store's error
whose text is `UNIQUE constraint failed: device_config.device_id`, the config
`PostHandler` answers 409 with the body
`{"error": "Device config already exists for this device_id."}`. -/
theorem postHandler_conflict {σ : Type} (decode : String → Option DeviceConfig)
    (encode : DeviceConfig → Option String) (service : DeviceConfigService σ)
    (body : String) (config : DeviceConfig) (st : σ)
    (hdecode : decode body = some config)
    (hcreate : (service.Create config st).1 =
      some (GoError.other "UNIQUE constraint failed: device_config.device_id")) :
    (DeviceConfigHandlers.PostHandler decode encode ResponseWriter.fresh body service st).1 =
      { code := some 409,
        body := "\x7b\"error\": \"Device config already exists for this device_id.\"\x7d" } := by
  unfold DeviceConfigHandlers.PostHandler
  rcases hr : service.Create config st with ⟨e, c2, st1⟩
  rw [hr] at hcreate
  simp only at hcreate
  subst hcreate
  simp only [hdecode, hr, GoError.Error, if_true]
  rfl

/-- The conflict stub behind the handler: 409 with the fixed body. -/
theorem postHandler_conflict_witness :
    (DeviceConfigHandlers.PostHandler decodeConfigFixture encodeConfigFixture
        ResponseWriter.fresh "valid" conflictServiceFixture 7).1 =
      { code := some 409,
        body := "\x7b\"error\": \"Device config already exists for this device_id.\"\x7d" } :=
  postHandler_conflict decodeConfigFixture encodeConfigFixture conflictServiceFixture
    "valid" configFixture 7 (by decide) (by decide)

/-- C9: the answer of the config `PostHandler`. When the body does not decode: 400 with
the fixed body `{"error": "Invalid request data. Please check your input."}`, and no call
of the service. When it decodes to `config`: exactly one call of the service, `Create` on
`config`; then 400 with body `{"error": "<message>"}` when `Create` returns a
`DeviceConfigError`; 201 when `Create` returns no error, the body being what the encoder
writes for the record as `Create` left it; and 500 when `Create` returns an error of
another type whose text is not the uniqueness message. -/
theorem postHandler_outcomes {σ : Type} (decode : String → Option DeviceConfig)
    (encode : DeviceConfig → Option String) (service : DeviceConfigService σ)
    (body : String) (st : σ) (log : List DeviceConfigCall) :
    (decode body = none →
      DeviceConfigHandlers.PostHandler decode encode ResponseWriter.fresh body
          service.logged (st, log) =
        ({ code := some 400,
           body := "\x7b\"error\": \"Invalid request data. Please check your input.\"\x7d" },
          (st, log))) ∧
    (∀ config, decode body = some config →
      (DeviceConfigHandlers.PostHandler decode encode ResponseWriter.fresh body
          service.logged (st, log)).2 =
        ((service.Create config st).2.2, log ++ [DeviceConfigCall.Create config]) ∧
      (∀ m, (service.Create config st).1 = some (GoError.DeviceConfigError m) →
        (DeviceConfigHandlers.PostHandler decode encode ResponseWriter.fresh body
            service.logged (st, log)).1 =
          { code := some 400, body := "\x7b\"error\": \"" ++ m ++ "\"\x7d" }) ∧
      ((service.Create config st).1 = none →
        (DeviceConfigHandlers.PostHandler decode encode ResponseWriter.fresh body
            service.logged (st, log)).1.code = some 201 ∧
        ∀ text, encode (service.Create config st).2.1 = some text →
          (DeviceConfigHandlers.PostHandler decode encode ResponseWriter.fresh body
              service.logged (st, log)).1.body = text) ∧
      (∀ e, (service.Create config st).1 = some e →
        (∀ m, e ≠ GoError.DeviceConfigError m) →
        e.Error ≠ "UNIQUE constraint failed: device_config.device_id" →
        (DeviceConfigHandlers.PostHandler decode encode ResponseWriter.fresh body
            service.logged (st, log)).1 =
          { code := some 500, body := "Internal server error.\n" })) := by
  constructor
  · intro hdecode
    simp only [DeviceConfigHandlers.PostHandler, hdecode]
    rfl
  · intro config hdecode
    rcases hr : service.Create config st with ⟨e, c2, st1⟩
    have hl : service.logged.Create config (st, log) =
        (e, c2, (st1, log ++ [DeviceConfigCall.Create config])) := by
      simp only [DeviceConfigService.logged, hr]
    rcases e with _ | e
    · rw [postHandler_of_created decode encode service.logged body config _ _ _ hdecode hl]
      rcases hen : encode c2 with _ | text
      · exact ⟨rfl, fun m hm => by simp at hm, fun _ => ⟨rfl, fun t ht => by simp at ht⟩,
          fun e2 he => by simp at he⟩
      · refine ⟨rfl, fun m hm => by simp at hm, fun _ => ⟨rfl, fun t ht => ?_⟩,
          fun e2 he => by simp at he⟩
        simp only [Option.some.injEq] at ht
        subst ht
        exact String.empty_append _
    · by_cases hkind : ∀ m, e ≠ GoError.DeviceConfigError m
      · rw [postHandler_of_failed decode encode service.logged body config _ _ _ _ hdecode hl
          hkind]
        refine ⟨by split_ifs <;> rfl, fun m hm => ?_, fun h => by simp at h,
          fun e2 he _ ht => ?_⟩
        · simp only [Option.some.injEq] at hm
          exact absurd hm (hkind m)
        · simp only [Option.some.injEq] at he
          subst he
          rw [if_neg ht]
      · push_neg at hkind
        obtain ⟨m, rfl⟩ := hkind
        rw [postHandler_of_rejected decode encode service.logged body config _ _ _ _ hdecode
          hl]
        refine ⟨rfl, fun m2 hm => ?_, fun h => by simp at h, fun e2 he hne _ => ?_⟩
        · simp only [Option.some.injEq, GoError.DeviceConfigError.injEq] at hm
          subst hm
          rfl
        · simp only [Option.some.injEq] at he
          subst he
          exact absurd rfl (hne m)

/-- The real service over the repository stub: the fixture body is stored and answered
201 with the record carrying the assigned key 8; a body with alarm_timeout 0 is answered
400 with the validation message. -/
theorem postHandler_outcomes_witness :
    (DeviceConfigHandlers.PostHandler decodeConfigFixture encodeConfigFixture
        ResponseWriter.fresh "valid"
        (DeviceConfigServiceSQLite.toService parseFixture nowFixture
          ⟨configRepoFixture⟩).logged (7, [])).1.body = "8:ARD001" ∧
    (DeviceConfigHandlers.PostHandler decodeConfigFixture encodeConfigFixture
        ResponseWriter.fresh "bad-timeout"
        (DeviceConfigServiceSQLite.toService parseFixture nowFixture
          ⟨configRepoFixture⟩).logged (7, [])).1 =
      { code := some 400,
        body := "\x7b\"error\": \"" ++
          ("Invalid device config: " ++ "alarm_timeout must be between 1 and 3600 seconds. ")
          ++ "\"\x7d" } :=
  ⟨((postHandler_outcomes decodeConfigFixture encodeConfigFixture
        (DeviceConfigServiceSQLite.toService parseFixture nowFixture ⟨configRepoFixture⟩)
        "valid" 7 []).2 configFixture (by decide)).2.2.1 (by decide) |>.2 "8:ARD001"
        (by decide),
   ((postHandler_outcomes decodeConfigFixture encodeConfigFixture
        (DeviceConfigServiceSQLite.toService parseFixture nowFixture ⟨configRepoFixture⟩)
        "bad-timeout" 7 []).2 { configFixture with AlarmTimeout := 0 } (by decide)).2.1
        _ (by decide)⟩

/-- C10: for both resources, when the body decodes to a record whose id is 0 (the value an
absent id decodes to), `PutHandler` answers 400 with the body
`{"error": "ID is required for update."}` and makes no call of the service, whatever the
other fields are. -/
theorem putHandler_requires_id {σ τ : Type}
    (cdecode : String → Option DeviceConfig) (cencode : DeviceConfig → Option String)
    (sdecode : String → Option MazeDeviceStatus) (sencode : MazeDeviceStatus → Option String)
    (cservice : DeviceConfigService σ) (sservice : MazeDeviceStatusService τ)
    (body : String) (st : σ) (st2 : τ)
    (clog : List DeviceConfigCall) (slog : List MazeDeviceStatusCall) :
    (∀ config, cdecode body = some config → config.ID = 0 →
      DeviceConfigHandlers.PutHandler cdecode cencode ResponseWriter.fresh body
          cservice.logged (st, clog) =
        ({ code := some 400, body := "\x7b\"error\": \"ID is required for update.\"\x7d" },
          (st, clog))) ∧
    (∀ status, sdecode body = some status → status.ID = 0 →
      MazeDeviceHandlers.PutHandler sdecode sencode ResponseWriter.fresh body
          sservice.logged (st2, slog) =
        ({ code := some 400, body := "\x7b\"error\": \"ID is required for update.\"\x7d" },
          (st2, slog))) := by
  constructor
  · intro config hdecode hid
    simp only [DeviceConfigHandlers.PutHandler, hdecode, hid, if_true]
    rfl
  · intro status hdecode hid
    simp only [MazeDeviceHandlers.PutHandler, hdecode, hid, if_true]
    rfl

/-- The body of the handler test, whose id is 0 and whose alarm_timeout is invalid as
well: 400 for the missing id, and the call log stays empty. -/
theorem putHandler_requires_id_witness :
    DeviceConfigHandlers.PutHandler decodeConfigFixture encodeConfigFixture
        ResponseWriter.fresh "bad-timeout"
        (DeviceConfigServiceSQLite.toService parseFixture nowFixture
          ⟨configRepoFixture⟩).logged (7, []) =
      ({ code := some 400, body := "\x7b\"error\": \"ID is required for update.\"\x7d" },
        (7, [])) :=
  (putHandler_requires_id decodeConfigFixture encodeConfigFixture decodeStatusFixture
      encodeStatusFixture
      (DeviceConfigServiceSQLite.toService parseFixture nowFixture ⟨configRepoFixture⟩)
      (MazeDeviceStatusServiceSQLite.toService parseFixture nowFixture ⟨statusRepoFixture⟩)
      "bad-timeout" 7 7 [] []).1 { configFixture with AlarmTimeout := 0 } (by decide)
    (by decide)

/-- C11: for a body that decodes to `config` with a non-zero id, the config `PutHandler`
makes exactly one call of the service, `Update` on `config` as decoded, and answers 400
with body `{"error": "<message>"}` when `Update` returns a `DeviceConfigError`, 500 when it
returns another error, 404 with body `{"error": "Device config not found."}` when it
returns 0 rows and no error, and otherwise 200 with what the encoder writes for the
handler's record as `Update` left it; that record is the client-supplied one whenever
`Update` does not write to it, as is the case for the validating service over the SQLite
repository. -/
theorem putHandler_outcomes {σ τ : Type} (decode : String → Option DeviceConfig)
    (encode : DeviceConfig → Option String) (service : DeviceConfigService σ)
    (body : String) (config : DeviceConfig) (st : σ) (log : List DeviceConfigCall)
    (parse : String → Option Int) (now : Int) (repo : SQLite.DeviceConfigRepository τ)
    (st2 : τ)
    (hdecode : decode body = some config) (hid : config.ID ≠ 0) :
    (DeviceConfigHandlers.PutHandler decode encode ResponseWriter.fresh body
        service.logged (st, log)).2 =
      ((service.Update config st).2.2, log ++ [DeviceConfigCall.Update config]) ∧
    (∀ m, (service.Update config st).1.2 = some (GoError.DeviceConfigError m) →
      (DeviceConfigHandlers.PutHandler decode encode ResponseWriter.fresh body
          service.logged (st, log)).1 =
        { code := some 400, body := "\x7b\"error\": \"" ++ m ++ "\"\x7d" }) ∧
    (∀ e, (service.Update config st).1.2 = some e →
      (∀ m, e ≠ GoError.DeviceConfigError m) →
      (DeviceConfigHandlers.PutHandler decode encode ResponseWriter.fresh body
          service.logged (st, log)).1 =
        { code := some 500, body := "Internal server error.\n" }) ∧
    ((service.Update config st).1.2 = none → (service.Update config st).1.1 = 0 →
      (DeviceConfigHandlers.PutHandler decode encode ResponseWriter.fresh body
          service.logged (st, log)).1 =
        { code := some 404, body := "\x7b\"error\": \"Device config not found.\"\x7d" }) ∧
    ((service.Update config st).1.2 = none → (service.Update config st).1.1 ≠ 0 →
      (DeviceConfigHandlers.PutHandler decode encode ResponseWriter.fresh body
          service.logged (st, log)).1.code = some 200 ∧
      (∀ text, encode (service.Update config st).2.1 = some text →
        (DeviceConfigHandlers.PutHandler decode encode ResponseWriter.fresh body
            service.logged (st, log)).1.body = text) ∧
      ((service.Update config st).2.1 = config → ∀ text, encode config = some text →
        (DeviceConfigHandlers.PutHandler decode encode ResponseWriter.fresh body
            service.logged (st, log)).1.body = text)) ∧
    ((DeviceConfigServiceSQLite.toService parse now ⟨repo.toRepository⟩).Update
        config st2).2.1 = config := by
  rcases hr : service.Update config st with ⟨⟨n, e⟩, c2, st1⟩
  have hl : service.logged.Update config (st, log) =
      ((n, e), c2, (st1, log ++ [DeviceConfigCall.Update config])) := by
    simp only [DeviceConfigService.logged, hr]
  refine ⟨?_, ?_, ?_, ?_, ?_, ?_⟩
  · rcases e with _ | e
    · by_cases hn : n = 0
      · simp only [DeviceConfigHandlers.PutHandler, hdecode, if_neg hid, hl, hn, if_true]
      · rcases hen : encode c2 with _ | text <;>
          simp only [DeviceConfigHandlers.PutHandler, hdecode, if_neg hid, hl, if_neg hn, hen]
    · cases e <;> simp only [DeviceConfigHandlers.PutHandler, hdecode, if_neg hid, hl]
  · intro m hm
    simp only at hm
    subst hm
    simp only [DeviceConfigHandlers.PutHandler, hdecode, if_neg hid, hl]
    rfl
  · intro e2 he hne
    simp only at he
    subst he
    cases e2 with
    | DeviceConfigError m => exact absurd rfl (hne m)
    | MazeDeviceStatusError m =>
      simp only [DeviceConfigHandlers.PutHandler, hdecode, if_neg hid, hl]
      rfl
    | other t =>
      simp only [DeviceConfigHandlers.PutHandler, hdecode, if_neg hid, hl]
      rfl
  · intro he hn
    simp only at he hn
    subst he
    subst hn
    simp only [DeviceConfigHandlers.PutHandler, hdecode, if_neg hid, hl, if_true]
    rfl
  · intro he hn
    simp only at he hn
    subst he
    have key : ∀ text, encode c2 = some text →
        (DeviceConfigHandlers.PutHandler decode encode ResponseWriter.fresh body
          service.logged (st, log)).1.body = text := by
      intro text htext
      simp only [DeviceConfigHandlers.PutHandler, hdecode, if_neg hid, hl, if_neg hn, htext]
      exact String.empty_append text
    refine ⟨?_, key, ?_⟩
    · rcases hen : encode c2 with _ | text <;>
        simp only [DeviceConfigHandlers.PutHandler, hdecode, if_neg hid, hl, if_neg hn, hen] <;>
        rfl
    · intro hc text htext
      simp only at hc
      subst hc
      exact key text htext
  · simp only [DeviceConfigServiceSQLite.toService, DeviceConfigServiceSQLite.Update,
      SQLite.DeviceConfigRepository.toRepository, SQLite.DeviceConfigRepository.Update]
    cases ValidateConfig parse now config <;> rfl

/-- The validating service over the repository stub: an update of record 3 is answered 200
with the encoding of the record the client sent. -/
theorem putHandler_outcomes_witness :
    (DeviceConfigHandlers.PutHandler decodePutFixture encodeConfigFixture
        ResponseWriter.fresh "update"
        (DeviceConfigServiceSQLite.toService parseFixture nowFixture
          ⟨configRepoFixture⟩).logged (7, [])).1.body = "3:ARD001" :=
  ((putHandler_outcomes decodePutFixture encodeConfigFixture
      (DeviceConfigServiceSQLite.toService parseFixture nowFixture ⟨configRepoFixture⟩)
      "update" { configFixture with ID := 3 } 7 [] parseFixture nowFixture
      sqliteConfigFixture [] (by decide) (by decide)).2.2.2.2.1 (by decide) (by decide)).2.2
    (by decide) "3:ARD001" (by decide)

/-- C12: behind the config `PutHandler`, the validating service answers a body that
decodes to a record with a non-zero id and fails validation with 400 and the validation
message, for every repository and every repository state (so whether or not a record with
that id exists), and the repository is not called. -/
theorem putHandler_validates_before_lookup {σ : Type} (parse : String → Option Int)
    (now : Int) (decode : String → Option DeviceConfig) (encode : DeviceConfig → Option String)
    (repo : DeviceConfigRepository σ) (body : String) (config : DeviceConfig) (e : GoError)
    (st : σ) (log : List DeviceConfigCall)
    (hdecode : decode body = some config) (hid : config.ID ≠ 0)
    (hinvalid : ValidateConfig parse now config = some e) :
    DeviceConfigHandlers.PutHandler decode encode ResponseWriter.fresh body
        (DeviceConfigServiceSQLite.toService parse now ⟨repo.logged⟩) (st, log) =
      ({ code := some 400,
         body := "\x7b\"error\": \"" ++ ("Invalid device config: " ++ e.Error) ++ "\"\x7d" },
        (st, log)) := by
  simp only [DeviceConfigHandlers.PutHandler, hdecode, if_neg hid,
    DeviceConfigServiceSQLite.toService, DeviceConfigServiceSQLite.Update, hinvalid]
  rfl

/-- An update of record 3 with alarm_timeout 0 is answered 400, and the repository stub
sees no call. -/
theorem putHandler_validates_before_lookup_witness :
    DeviceConfigHandlers.PutHandler decodePutFixture encodeConfigFixture
        ResponseWriter.fresh "update-bad-timeout"
        (DeviceConfigServiceSQLite.toService parseFixture nowFixture
          ⟨configRepoFixture.logged⟩) (7, []) =
      ({ code := some 400,
         body := "\x7b\"error\": \"" ++ ("Invalid device config: " ++
           "alarm_timeout must be between 1 and 3600 seconds. ") ++ "\"\x7d" },
        (7, [])) :=
  putHandler_validates_before_lookup parseFixture nowFixture decodePutFixture
    encodeConfigFixture configRepoFixture "update-bad-timeout"
    { configFixture with ID := 3, AlarmTimeout := 0 }
    (GoError.DeviceConfigError "alarm_timeout must be between 1 and 3600 seconds. ")
    7 [] (by decide) (by decide) (by decide)

/-- C13, evaluated where it fails: `strconv.Atoi` rejects the text `99999999999999999999`
as out of range and returns the largest `int64` with the error; both collection handlers
drop the error and call `ReadMany` with that value as the page, not with 0. For a text
rejected for its syntax the value is 0. -/
theorem getHandler_passes_clamped_page :
    Atoi "99999999999999999999" = (9223372036854775807, some NumError.ErrRange) ∧
    (DeviceConfigHandlers.GetHandler encodeConfigFixture encodeConfigsFixture
        ResponseWriter.fresh "99999999999999999999" "" ""
        (DeviceConfigServiceSQLite.toService parseFixture nowFixture
          ⟨configRepoFixture⟩).logged (7, [])).2.2 =
      [DeviceConfigCall.ReadMany 9223372036854775807 0] ∧
    (MazeDeviceHandlers.GetHandler encodeStatusesFixture
        ResponseWriter.fresh "99999999999999999999" "" ""
        (MazeDeviceStatusServiceSQLite.toService parseFixture nowFixture
          ⟨statusRepoFixture⟩).logged (7, [])).2.2 =
      [MazeDeviceStatusCall.ReadMany 9223372036854775807 0] ∧
    (∀ s, (Atoi s).2 = some NumError.ErrSyntax → (Atoi s).1 = 0) := by
  refine ⟨by decide, by decide, by decide, ?_⟩
  intro s hs
  unfold Atoi ParseInt at *
  rcases hd : s.data with _ | ⟨c, cs⟩
  · simp only [hd]
  · simp only [hd] at hs ⊢
    rcases hp : ParseUint (if c = '+' ∨ c = '-' then cs else c :: cs) with ⟨un, _ | e⟩
    · simp only [hp] at hs
      split_ifs at hs <;> simp at hs
    · cases e
      · simp only [hp]
      · simp only [hp] at hs
        split_ifs at hs <;> simp at hs

/-- C14: for both resources, with a non-empty `device_id` the collection handler makes
exactly one call of the service, `ReadByDeviceID` with that value, and its result is the
same for all `page` and `rows_per_page` texts; with an empty (or absent) `device_id` it
makes exactly one call, `ReadMany` with the values `Atoi` gives for the two texts. The
texts `2` and `20` give 2 and 20. -/
theorem getHandler_routes {σ τ : Type} (cencode : DeviceConfig → Option String)
    (cencodeMany : Option (List DeviceConfig) → Option String)
    (sencodeMany : Option (List MazeDeviceStatus) → Option String)
    (cservice : DeviceConfigService σ) (sservice : MazeDeviceStatusService τ)
    (pageStr rowsPerPageStr deviceID : String) (st : σ) (st2 : τ)
    (clog : List DeviceConfigCall) (slog : List MazeDeviceStatusCall) :
    (deviceID ≠ "" →
      (DeviceConfigHandlers.GetHandler cencode cencodeMany ResponseWriter.fresh pageStr
          rowsPerPageStr deviceID cservice.logged (st, clog)).2 =
        ((cservice.ReadByDeviceID deviceID st).2,
          clog ++ [DeviceConfigCall.ReadByDeviceID deviceID]) ∧
      (MazeDeviceHandlers.GetHandler sencodeMany ResponseWriter.fresh pageStr
          rowsPerPageStr deviceID sservice.logged (st2, slog)).2 =
        ((sservice.ReadByDeviceID deviceID st2).2,
          slog ++ [MazeDeviceStatusCall.ReadByDeviceID deviceID]) ∧
      ∀ pageStr2 rowsPerPageStr2 : String,
        DeviceConfigHandlers.GetHandler cencode cencodeMany ResponseWriter.fresh pageStr2
            rowsPerPageStr2 deviceID cservice.logged (st, clog) =
          DeviceConfigHandlers.GetHandler cencode cencodeMany ResponseWriter.fresh pageStr
            rowsPerPageStr deviceID cservice.logged (st, clog) ∧
        MazeDeviceHandlers.GetHandler sencodeMany ResponseWriter.fresh pageStr2
            rowsPerPageStr2 deviceID sservice.logged (st2, slog) =
          MazeDeviceHandlers.GetHandler sencodeMany ResponseWriter.fresh pageStr
            rowsPerPageStr deviceID sservice.logged (st2, slog)) ∧
    (deviceID = "" →
      (DeviceConfigHandlers.GetHandler cencode cencodeMany ResponseWriter.fresh pageStr
          rowsPerPageStr deviceID cservice.logged (st, clog)).2 =
        ((cservice.ReadMany (Atoi pageStr).1 (Atoi rowsPerPageStr).1 st).2,
          clog ++ [DeviceConfigCall.ReadMany (Atoi pageStr).1 (Atoi rowsPerPageStr).1]) ∧
      (MazeDeviceHandlers.GetHandler sencodeMany ResponseWriter.fresh pageStr
          rowsPerPageStr deviceID sservice.logged (st2, slog)).2 =
        ((sservice.ReadMany (Atoi pageStr).1 (Atoi rowsPerPageStr).1 st2).2,
          slog ++ [MazeDeviceStatusCall.ReadMany (Atoi pageStr).1 (Atoi rowsPerPageStr).1])) ∧
    Atoi "2" = (2, none) ∧ Atoi "20" = (20, none) := by
  refine ⟨fun hd => ⟨?_, ?_, fun p2 r2 => ⟨?_, ?_⟩⟩, fun hd => ⟨?_, ?_⟩, by decide, by decide⟩
  · rcases hr : cservice.ReadByDeviceID deviceID st with ⟨⟨c, e⟩, st1⟩
    have hl : cservice.logged.ReadByDeviceID deviceID (st, clog) =
        ((c, e), (st1, clog ++ [DeviceConfigCall.ReadByDeviceID deviceID])) := by
      simp only [DeviceConfigService.logged, hr]
    rcases e with _ | e
    · rcases c with _ | c
      · simp only [DeviceConfigHandlers.GetHandler, hd, ne_eq, not_false_eq_true, if_true, hl]
      · rcases hen : cencode c with _ | text <;>
          simp only [DeviceConfigHandlers.GetHandler, hd, ne_eq, not_false_eq_true, if_true,
            hl, hen]
    · cases e <;>
        simp only [DeviceConfigHandlers.GetHandler, hd, ne_eq, not_false_eq_true, if_true, hl]
  · rcases hr : sservice.ReadByDeviceID deviceID st2 with ⟨⟨c, e⟩, st1⟩
    have hl : sservice.logged.ReadByDeviceID deviceID (st2, slog) =
        ((c, e), (st1, slog ++ [MazeDeviceStatusCall.ReadByDeviceID deviceID])) := by
      simp only [MazeDeviceStatusService.logged, hr]
    rcases e with _ | e
    · rcases hen : sencodeMany c with _ | text <;>
        simp only [MazeDeviceHandlers.GetHandler, hd, ne_eq, not_false_eq_true, if_true,
          hl, hen]
    · cases e <;>
        simp only [MazeDeviceHandlers.GetHandler, hd, ne_eq, not_false_eq_true, if_true, hl]
  · simp only [DeviceConfigHandlers.GetHandler, hd, ne_eq, not_false_eq_true, if_true]
  · simp only [MazeDeviceHandlers.GetHandler, hd, ne_eq, not_false_eq_true, if_true]
  · subst hd
    rcases hr : cservice.ReadMany (Atoi pageStr).1 (Atoi rowsPerPageStr).1 st with
      ⟨⟨c, e⟩, st1⟩
    have hl : cservice.logged.ReadMany (Atoi pageStr).1 (Atoi rowsPerPageStr).1 (st, clog) =
        ((c, e), (st1, clog ++
          [DeviceConfigCall.ReadMany (Atoi pageStr).1 (Atoi rowsPerPageStr).1])) := by
      simp only [DeviceConfigService.logged, hr]
    rcases e with _ | e
    · rcases hen : cencodeMany c with _ | text <;>
        simp only [DeviceConfigHandlers.GetHandler, ne_eq, not_true_eq_false, if_false,
          hl, hen]
    · simp only [DeviceConfigHandlers.GetHandler, ne_eq, not_true_eq_false, if_false, hl]
  · subst hd
    rcases hr : sservice.ReadMany (Atoi pageStr).1 (Atoi rowsPerPageStr).1 st2 with
      ⟨⟨c, e⟩, st1⟩
    have hl : sservice.logged.ReadMany (Atoi pageStr).1 (Atoi rowsPerPageStr).1 (st2, slog) =
        ((c, e), (st1, slog ++
          [MazeDeviceStatusCall.ReadMany (Atoi pageStr).1 (Atoi rowsPerPageStr).1])) := by
      simp only [MazeDeviceStatusService.logged, hr]
    rcases e with _ | e
    · rcases hen : sencodeMany c with _ | text <;>
        simp only [MazeDeviceHandlers.GetHandler, ne_eq, not_true_eq_false, if_false,
          hl, hen]
    · simp only [MazeDeviceHandlers.GetHandler, ne_eq, not_true_eq_false, if_false, hl]

/-- The request `page=2&rows_per_page=20` reaches the service as `ReadMany 2 20`, and the
request `device_id=ARD001` as `ReadByDeviceID "ARD001"`. -/
theorem getHandler_routes_witness :
    (DeviceConfigHandlers.GetHandler encodeConfigFixture encodeConfigsFixture
        ResponseWriter.fresh "2" "20" ""
        (DeviceConfigServiceSQLite.toService parseFixture nowFixture
          ⟨configRepoFixture⟩).logged (7, [])).2.2 = [DeviceConfigCall.ReadMany 2 20] ∧
    (DeviceConfigHandlers.GetHandler encodeConfigFixture encodeConfigsFixture
        ResponseWriter.fresh "2" "20" "ARD001"
        (DeviceConfigServiceSQLite.toService parseFixture nowFixture
          ⟨configRepoFixture⟩).logged (7, [])).2.2 =
      [DeviceConfigCall.ReadByDeviceID "ARD001"] :=
  ⟨congrArg Prod.snd
      ((getHandler_routes encodeConfigFixture encodeConfigsFixture encodeStatusesFixture
        (DeviceConfigServiceSQLite.toService parseFixture nowFixture ⟨configRepoFixture⟩)
        (MazeDeviceStatusServiceSQLite.toService parseFixture nowFixture ⟨statusRepoFixture⟩)
        "2" "20" "" 7 7 [] []).2.1 rfl).1,
   congrArg Prod.snd
      ((getHandler_routes encodeConfigFixture encodeConfigsFixture encodeStatusesFixture
        (DeviceConfigServiceSQLite.toService parseFixture nowFixture ⟨configRepoFixture⟩)
        (MazeDeviceStatusServiceSQLite.toService parseFixture nowFixture ⟨statusRepoFixture⟩)
        "2" "20" "ARD001" 7 7 [] []).1 (by decide)).1⟩

/-- C15: on the device-scoped path of the config `GetHandler` (a non-empty `device_id`), a
`DeviceConfigError` from `ReadByDeviceID` is answered 400 with body
`{"error": "<message>"}`, another error 500, no error and no record 404 with body
`{"error": "Device config not found."}`, and a record 200 with what the encoder writes for
that one record. -/
theorem getHandler_device_path {σ : Type} (encode : DeviceConfig → Option String)
    (encodeMany : Option (List DeviceConfig) → Option String)
    (service : DeviceConfigService σ) (pageStr rowsPerPageStr deviceID : String) (st : σ)
    (hdevice : deviceID ≠ "") :
    (∀ m, (service.ReadByDeviceID deviceID st).1.2 = some (GoError.DeviceConfigError m) →
      (DeviceConfigHandlers.GetHandler encode encodeMany ResponseWriter.fresh pageStr
          rowsPerPageStr deviceID service st).1 =
        { code := some 400, body := "\x7b\"error\": \"" ++ m ++ "\"\x7d" }) ∧
    (∀ e, (service.ReadByDeviceID deviceID st).1.2 = some e →
      (∀ m, e ≠ GoError.DeviceConfigError m) →
      (DeviceConfigHandlers.GetHandler encode encodeMany ResponseWriter.fresh pageStr
          rowsPerPageStr deviceID service st).1 =
        { code := some 500, body := "Internal server error.\n" }) ∧
    ((service.ReadByDeviceID deviceID st).1 = (none, none) →
      (DeviceConfigHandlers.GetHandler encode encodeMany ResponseWriter.fresh pageStr
          rowsPerPageStr deviceID service st).1 =
        { code := some 404, body := "\x7b\"error\": \"Device config not found.\"\x7d" }) ∧
    (∀ config, (service.ReadByDeviceID deviceID st).1 = (some config, none) →
      (DeviceConfigHandlers.GetHandler encode encodeMany ResponseWriter.fresh pageStr
          rowsPerPageStr deviceID service st).1.code = some 200 ∧
      ∀ text, encode config = some text →
        (DeviceConfigHandlers.GetHandler encode encodeMany ResponseWriter.fresh pageStr
            rowsPerPageStr deviceID service st).1.body = text) := by
  rcases hr : service.ReadByDeviceID deviceID st with ⟨⟨c, e⟩, st1⟩
  refine ⟨?_, ?_, ?_, ?_⟩
  · intro m hm
    simp only at hm
    subst hm
    simp only [DeviceConfigHandlers.GetHandler, hdevice, ne_eq, not_false_eq_true, if_true, hr]
    rfl
  · intro e2 he hne
    simp only at he
    subst he
    cases e2 with
    | DeviceConfigError m => exact absurd rfl (hne m)
    | MazeDeviceStatusError m =>
      simp only [DeviceConfigHandlers.GetHandler, hdevice, ne_eq, not_false_eq_true, if_true,
        hr]
      rfl
    | other t =>
      simp only [DeviceConfigHandlers.GetHandler, hdevice, ne_eq, not_false_eq_true, if_true,
        hr]
      rfl
  · intro h
    simp only [Prod.mk.injEq] at h
    obtain ⟨rfl, rfl⟩ := h
    simp only [DeviceConfigHandlers.GetHandler, hdevice, ne_eq, not_false_eq_true, if_true, hr]
    rfl
  · intro config h
    simp only [Prod.mk.injEq] at h
    obtain ⟨rfl, rfl⟩ := h
    constructor
    · rcases hen : encode config with _ | text <;>
        simp only [DeviceConfigHandlers.GetHandler, hdevice, ne_eq, not_false_eq_true,
          if_true, hr, hen] <;> rfl
    · intro text htext
      simp only [DeviceConfigHandlers.GetHandler, hdevice, ne_eq, not_false_eq_true,
        if_true, hr, htext]
      exact String.empty_append text

/-- The validating service over the store stub holding one config: the request
`device_id=ARD001` is answered with that record, and `device_id=ARD404` is answered 404. -/
theorem getHandler_device_path_witness :
    (DeviceConfigHandlers.GetHandler encodeConfigFixture encodeConfigsFixture
        ResponseWriter.fresh "" "" "ARD001"
        (DeviceConfigServiceSQLite.toService parseFixture nowFixture
          ⟨sqliteConfigFixture.toRepository⟩)
        [(1, "ARD001", 300, 5, "2024-01-15T10:30:00Z")]).1.body = "1:ARD001" ∧
    (DeviceConfigHandlers.GetHandler encodeConfigFixture encodeConfigsFixture
        ResponseWriter.fresh "" "" "ARD404"
        (DeviceConfigServiceSQLite.toService parseFixture nowFixture
          ⟨sqliteConfigFixture.toRepository⟩)
        [(1, "ARD001", 300, 5, "2024-01-15T10:30:00Z")]).1 =
      { code := some 404, body := "\x7b\"error\": \"Device config not found.\"\x7d" } :=
  ⟨((getHandler_device_path encodeConfigFixture encodeConfigsFixture
        (DeviceConfigServiceSQLite.toService parseFixture nowFixture
          ⟨sqliteConfigFixture.toRepository⟩)
        "" "" "ARD001" [(1, "ARD001", 300, 5, "2024-01-15T10:30:00Z")] (by decide)).2.2.2
      (SQLite.scanConfig (1, "ARD001", 300, 5, "2024-01-15T10:30:00Z")) (by decide)).2
      "1:ARD001" (by decide),
   (getHandler_device_path encodeConfigFixture encodeConfigsFixture
        (DeviceConfigServiceSQLite.toService parseFixture nowFixture
          ⟨sqliteConfigFixture.toRepository⟩)
        "" "" "ARD404" [(1, "ARD001", 300, 5, "2024-01-15T10:30:00Z")] (by decide)).2.2.1
      (by decide)⟩

/-! ## The reading and deleting handlers, one resource at a time -/

/-- The outcomes of the config `GetByIDHandler`, with a call-logging service. -/
theorem config_getByID_outcomes {σ : Type} (encode : DeviceConfig → Option String)
    (service : DeviceConfigService σ) (idStr : String) (st : σ) (log : List DeviceConfigCall) :
    ((Atoi idStr).2 ≠ none →
      DeviceConfigHandlers.GetByIDHandler encode ResponseWriter.fresh idStr service.logged (st, log) =
        ({ code := some 400, body := "\x7b\"error\": \"Invalid ID format.\"\x7d" },
          (st, log))) ∧
    ((Atoi idStr).2 = none →
      (DeviceConfigHandlers.GetByIDHandler encode ResponseWriter.fresh idStr service.logged (st, log)).2 =
        ((service.ReadOne (Atoi idStr).1 st).2, log ++ [DeviceConfigCall.ReadOne (Atoi idStr).1]) ∧
      ((service.ReadOne (Atoi idStr).1 st).1.2 ≠ none →
        (DeviceConfigHandlers.GetByIDHandler encode ResponseWriter.fresh idStr service.logged (st, log)).1 =
          { code := some 500, body := "Internal server error.\n" }) ∧
      ((service.ReadOne (Atoi idStr).1 st).1 = (none, none) →
        (DeviceConfigHandlers.GetByIDHandler encode ResponseWriter.fresh idStr service.logged (st, log)).1 =
          { code := some 404, body := "\x7b\"error\": \"Device config not found.\"\x7d" }) ∧
      (∀ record, (service.ReadOne (Atoi idStr).1 st).1 = (some record, none) →
        (DeviceConfigHandlers.GetByIDHandler encode ResponseWriter.fresh idStr service.logged
            (st, log)).1.code = some 200 ∧
        ∀ text, encode record = some text →
          (DeviceConfigHandlers.GetByIDHandler encode ResponseWriter.fresh idStr service.logged
              (st, log)).1.body = text)) := by
  rcases ha : Atoi idStr with ⟨id, _ | perr⟩
  · refine ⟨fun h => absurd rfl h, fun _ => ?_⟩
    rcases hr : service.ReadOne id st with ⟨⟨c, e⟩, st1⟩
    have hl : service.logged.ReadOne id (st, log) =
        ((c, e), (st1, log ++ [DeviceConfigCall.ReadOne id])) := by
      simp only [DeviceConfigService.logged, hr]
    rcases e with _ | e
    · rcases c with _ | c
      · refine ⟨?_, fun h => absurd rfl h, fun _ => ?_, fun record h => ?_⟩
        · simp only [DeviceConfigHandlers.GetByIDHandler, ha, hl]
        · simp only [DeviceConfigHandlers.GetByIDHandler, ha, hl]
          rfl
        · simp at h
      · refine ⟨?_, fun h => absurd rfl h, fun h => ?_, fun record h => ?_⟩
        · rcases hen : encode c with _ | text <;> simp only [DeviceConfigHandlers.GetByIDHandler, ha, hl, hen]
        · simp at h
        · simp only [Prod.mk.injEq, Option.some.injEq, and_true] at h
          subst h
          constructor
          · rcases hen : encode c with _ | text <;>
              simp only [DeviceConfigHandlers.GetByIDHandler, ha, hl, hen] <;> rfl
          · intro text htext
            simp only [DeviceConfigHandlers.GetByIDHandler, ha, hl, htext]
            exact String.empty_append text
    · refine ⟨?_, fun _ => ?_, fun h => ?_, fun record h => ?_⟩
      · simp only [DeviceConfigHandlers.GetByIDHandler, ha, hl]
      · simp only [DeviceConfigHandlers.GetByIDHandler, ha, hl]
        rfl
      · simp at h
      · simp at h
  · refine ⟨fun _ => ?_, fun h => ?_⟩
    · simp only [DeviceConfigHandlers.GetByIDHandler, ha]
      rfl
    · simp at h

/-- The outcomes of the status `GetByIDHandler`, with a call-logging service. -/
theorem status_getByID_outcomes {σ : Type} (encode : MazeDeviceStatus → Option String)
    (service : MazeDeviceStatusService σ) (idStr : String) (st : σ) (log : List MazeDeviceStatusCall) :
    ((Atoi idStr).2 ≠ none →
      MazeDeviceHandlers.GetByIDHandler encode ResponseWriter.fresh idStr service.logged (st, log) =
        ({ code := some 400, body := "\x7b\"error\": \"Invalid ID format.\"\x7d" },
          (st, log))) ∧
    ((Atoi idStr).2 = none →
      (MazeDeviceHandlers.GetByIDHandler encode ResponseWriter.fresh idStr service.logged (st, log)).2 =
        ((service.ReadOne (Atoi idStr).1 st).2, log ++ [MazeDeviceStatusCall.ReadOne (Atoi idStr).1]) ∧
      ((service.ReadOne (Atoi idStr).1 st).1.2 ≠ none →
        (MazeDeviceHandlers.GetByIDHandler encode ResponseWriter.fresh idStr service.logged (st, log)).1 =
          { code := some 500, body := "Internal server error.\n" }) ∧
      ((service.ReadOne (Atoi idStr).1 st).1 = (none, none) →
        (MazeDeviceHandlers.GetByIDHandler encode ResponseWriter.fresh idStr service.logged (st, log)).1 =
          { code := some 404, body := "\x7b\"error\": \"Maze device status not found.\"\x7d" }) ∧
      (∀ record, (service.ReadOne (Atoi idStr).1 st).1 = (some record, none) →
        (MazeDeviceHandlers.GetByIDHandler encode ResponseWriter.fresh idStr service.logged
            (st, log)).1.code = some 200 ∧
        ∀ text, encode record = some text →
          (MazeDeviceHandlers.GetByIDHandler encode ResponseWriter.fresh idStr service.logged
              (st, log)).1.body = text)) := by
  rcases ha : Atoi idStr with ⟨id, _ | perr⟩
  · refine ⟨fun h => absurd rfl h, fun _ => ?_⟩
    rcases hr : service.ReadOne id st with ⟨⟨c, e⟩, st1⟩
    have hl : service.logged.ReadOne id (st, log) =
        ((c, e), (st1, log ++ [MazeDeviceStatusCall.ReadOne id])) := by
      simp only [MazeDeviceStatusService.logged, hr]
    rcases e with _ | e
    · rcases c with _ | c
      · refine ⟨?_, fun h => absurd rfl h, fun _ => ?_, fun record h => ?_⟩
        · simp only [MazeDeviceHandlers.GetByIDHandler, ha, hl]
        · simp only [MazeDeviceHandlers.GetByIDHandler, ha, hl]
          rfl
        · simp at h
      · refine ⟨?_, fun h => absurd rfl h, fun h => ?_, fun record h => ?_⟩
        · rcases hen : encode c with _ | text <;> simp only [MazeDeviceHandlers.GetByIDHandler, ha, hl, hen]
        · simp at h
        · simp only [Prod.mk.injEq, Option.some.injEq, and_true] at h
          subst h
          constructor
          · rcases hen : encode c with _ | text <;>
              simp only [MazeDeviceHandlers.GetByIDHandler, ha, hl, hen] <;> rfl
          · intro text htext
            simp only [MazeDeviceHandlers.GetByIDHandler, ha, hl, htext]
            exact String.empty_append text
    · refine ⟨?_, fun _ => ?_, fun h => ?_, fun record h => ?_⟩
      · simp only [MazeDeviceHandlers.GetByIDHandler, ha, hl]
      · simp only [MazeDeviceHandlers.GetByIDHandler, ha, hl]
        rfl
      · simp at h
      · simp at h
  · refine ⟨fun _ => ?_, fun h => ?_⟩
    · simp only [MazeDeviceHandlers.GetByIDHandler, ha]
      rfl
    · simp at h

/-- C16, evaluated where it fails: when the device query of the status repository delivers
no rows, `ReadByDeviceID` returns the nil slice and no error, and the status `GetHandler`
over the validating service answers 200 with the body `null`, which is not the JSON array
`[]` that the encoder writes for an empty non-nil slice; likewise for the unfiltered read
(`page` below 1) when the query of `ReadAll` delivers no rows. -/
theorem getHandler_empty_result_is_null {σ : Type} (parse : String → Option Int) (now : Int)
    (repo : SQLite.MazeDeviceStatusRepository σ) (elem : MazeDeviceStatus → String)
    (pageStr rowsPerPageStr deviceID : String) (st st1 st2 : σ)
    (hdevice : deviceID ≠ "")
    (hrows : repo.readByDeviceIDStmt deviceID st = (Except.ok [], st1))
    (hpage : (Atoi pageStr).1 < 1)
    (hall : repo.readAllQuery st = (Except.ok [], st2)) :
    repo.ReadByDeviceID deviceID st = ((none, none), st1) ∧
    MazeDeviceHandlers.GetHandler (fun s => some (encodeSlice elem s)) ResponseWriter.fresh
        pageStr rowsPerPageStr deviceID
        (MazeDeviceStatusServiceSQLite.toService parse now ⟨repo.toRepository⟩) st =
      ({ code := some 200, body := "null\n" }, st1) ∧
    MazeDeviceHandlers.GetHandler (fun s => some (encodeSlice elem s)) ResponseWriter.fresh
        pageStr rowsPerPageStr ""
        (MazeDeviceStatusServiceSQLite.toService parse now ⟨repo.toRepository⟩) st =
      ({ code := some 200, body := "null\n" }, st2) ∧
    encodeSlice elem (some []) = "[]\n" := by
  have h1 : repo.ReadByDeviceID deviceID st = ((none, none), st1) := by
    simp only [SQLite.MazeDeviceStatusRepository.ReadByDeviceID, hrows, SQLite.collect,
      scanRows]
  have h2 : repo.ReadMany (Atoi pageStr).1 (Atoi rowsPerPageStr).1 st = ((none, none), st2) := by
    simp only [SQLite.MazeDeviceStatusRepository.ReadMany, if_pos hpage,
      SQLite.MazeDeviceStatusRepository.ReadAll, hall, SQLite.collect, scanRows]
  refine ⟨h1, ?_, ?_, rfl⟩
  · simp only [MazeDeviceHandlers.GetHandler, hdevice, ne_eq, not_false_eq_true, if_true,
      MazeDeviceStatusServiceSQLite.toService, MazeDeviceStatusServiceSQLite.ReadByDeviceID,
      if_false, SQLite.MazeDeviceStatusRepository.toRepository, h1, encodeSlice]
    rfl
  · simp only [MazeDeviceHandlers.GetHandler, ne_eq, not_true_eq_false, if_false,
      MazeDeviceStatusServiceSQLite.toService, MazeDeviceStatusServiceSQLite.ReadMany,
      SQLite.MazeDeviceStatusRepository.toRepository, h2, encodeSlice]
    rfl

/-- The store stub with an empty table: the request `device_id=ARD404` is answered 200 with
the body `null`. -/
theorem getHandler_empty_result_is_null_witness :
    MazeDeviceHandlers.GetHandler encodeStatusesFixture ResponseWriter.fresh "" "" "ARD404"
        (MazeDeviceStatusServiceSQLite.toService parseFixture nowFixture
          ⟨sqliteStatusFixture.toRepository⟩) [] =
      ({ code := some 200, body := "null\n" }, []) :=
  (getHandler_empty_result_is_null parseFixture nowFixture sqliteStatusFixture
    (fun c => toString c.ID ++ ":" ++ c.DeviceID) "" "" "ARD404" [] [] []
    (by decide) rfl (by decide) rfl).2.1

/-- C17: for each resource, `GetByIDHandler` answers 400 with body
`{"error": "Invalid ID format."}` and makes no call of the service when `Atoi` rejects the
path value; otherwise it makes exactly one call, `ReadOne` with the integer read, and
answers 500 when that returns an error, 404 with the fixed not-found body of the resource
when it returns no record and no error, and 200 with what the encoder writes for the record
otherwise. The path values `0` and `-5` are read as 0 and -5. -/
theorem getByIDHandler_outcomes {σ τ : Type} (cencode : DeviceConfig → Option String)
    (sencode : MazeDeviceStatus → Option String)
    (cservice : DeviceConfigService σ) (sservice : MazeDeviceStatusService τ)
    (idStr : String) (st : σ) (st2 : τ)
    (clog : List DeviceConfigCall) (slog : List MazeDeviceStatusCall) :
    (((Atoi idStr).2 ≠ none →
      DeviceConfigHandlers.GetByIDHandler cencode ResponseWriter.fresh idStr cservice.logged
          (st, clog) =
        ({ code := some 400, body := "\x7b\"error\": \"Invalid ID format.\"\x7d" },
          (st, clog))) ∧
    ((Atoi idStr).2 = none →
      (DeviceConfigHandlers.GetByIDHandler cencode ResponseWriter.fresh idStr
          cservice.logged (st, clog)).2 =
        ((cservice.ReadOne (Atoi idStr).1 st).2,
          clog ++ [DeviceConfigCall.ReadOne (Atoi idStr).1]) ∧
      ((cservice.ReadOne (Atoi idStr).1 st).1.2 ≠ none →
        (DeviceConfigHandlers.GetByIDHandler cencode ResponseWriter.fresh idStr
            cservice.logged (st, clog)).1 =
          { code := some 500, body := "Internal server error.\n" }) ∧
      ((cservice.ReadOne (Atoi idStr).1 st).1 = (none, none) →
        (DeviceConfigHandlers.GetByIDHandler cencode ResponseWriter.fresh idStr
            cservice.logged (st, clog)).1 =
          { code := some 404, body := "\x7b\"error\": \"Device config not found.\"\x7d" }) ∧
      (∀ record, (cservice.ReadOne (Atoi idStr).1 st).1 = (some record, none) →
        (DeviceConfigHandlers.GetByIDHandler cencode ResponseWriter.fresh idStr
            cservice.logged (st, clog)).1.code = some 200 ∧
        ∀ text, cencode record = some text →
          (DeviceConfigHandlers.GetByIDHandler cencode ResponseWriter.fresh idStr
              cservice.logged (st, clog)).1.body = text))) ∧
    (((Atoi idStr).2 ≠ none →
      MazeDeviceHandlers.GetByIDHandler sencode ResponseWriter.fresh idStr sservice.logged
          (st2, slog) =
        ({ code := some 400, body := "\x7b\"error\": \"Invalid ID format.\"\x7d" },
          (st2, slog))) ∧
    ((Atoi idStr).2 = none →
      (MazeDeviceHandlers.GetByIDHandler sencode ResponseWriter.fresh idStr
          sservice.logged (st2, slog)).2 =
        ((sservice.ReadOne (Atoi idStr).1 st2).2,
          slog ++ [MazeDeviceStatusCall.ReadOne (Atoi idStr).1]) ∧
      ((sservice.ReadOne (Atoi idStr).1 st2).1.2 ≠ none →
        (MazeDeviceHandlers.GetByIDHandler sencode ResponseWriter.fresh idStr
            sservice.logged (st2, slog)).1 =
          { code := some 500, body := "Internal server error.\n" }) ∧
      ((sservice.ReadOne (Atoi idStr).1 st2).1 = (none, none) →
        (MazeDeviceHandlers.GetByIDHandler sencode ResponseWriter.fresh idStr
            sservice.logged (st2, slog)).1 =
          { code := some 404,
            body := "\x7b\"error\": \"Maze device status not found.\"\x7d" }) ∧
      (∀ record, (sservice.ReadOne (Atoi idStr).1 st2).1 = (some record, none) →
        (MazeDeviceHandlers.GetByIDHandler sencode ResponseWriter.fresh idStr
            sservice.logged (st2, slog)).1.code = some 200 ∧
        ∀ text, sencode record = some text →
          (MazeDeviceHandlers.GetByIDHandler sencode ResponseWriter.fresh idStr
              sservice.logged (st2, slog)).1.body = text))) ∧
    Atoi "0" = (0, none) ∧ Atoi "-5" = (-5, none) :=
  ⟨config_getByID_outcomes cencode cservice idStr st clog,
    status_getByID_outcomes sencode sservice idStr st2 slog, by decide, by decide⟩

/-- The validating service over the store stub holding one config: the path value `abc` is
answered 400, and `-5` reaches `ReadOne` as -5 and is answered 404. -/
theorem getByIDHandler_outcomes_witness :
    DeviceConfigHandlers.GetByIDHandler encodeConfigFixture ResponseWriter.fresh "abc"
        (DeviceConfigServiceSQLite.toService parseFixture nowFixture
          ⟨sqliteConfigFixture.toRepository⟩).logged
        ([(1, "ARD001", 300, 5, "2024-01-15T10:30:00Z")], []) =
      ({ code := some 400, body := "\x7b\"error\": \"Invalid ID format.\"\x7d" },
        ([(1, "ARD001", 300, 5, "2024-01-15T10:30:00Z")], [])) ∧
    (DeviceConfigHandlers.GetByIDHandler encodeConfigFixture ResponseWriter.fresh "-5"
        (DeviceConfigServiceSQLite.toService parseFixture nowFixture
          ⟨sqliteConfigFixture.toRepository⟩).logged
        ([(1, "ARD001", 300, 5, "2024-01-15T10:30:00Z")], [])).1 =
      { code := some 404, body := "\x7b\"error\": \"Device config not found.\"\x7d" } :=
  ⟨(getByIDHandler_outcomes encodeConfigFixture encodeStatusFixture
      (DeviceConfigServiceSQLite.toService parseFixture nowFixture
        ⟨sqliteConfigFixture.toRepository⟩)
      (MazeDeviceStatusServiceSQLite.toService parseFixture nowFixture
        ⟨sqliteStatusFixture.toRepository⟩)
      "abc" [(1, "ARD001", 300, 5, "2024-01-15T10:30:00Z")] [] [] []).1.1 (by decide),
   ((getByIDHandler_outcomes encodeConfigFixture encodeStatusFixture
      (DeviceConfigServiceSQLite.toService parseFixture nowFixture
        ⟨sqliteConfigFixture.toRepository⟩)
      (MazeDeviceStatusServiceSQLite.toService parseFixture nowFixture
        ⟨sqliteStatusFixture.toRepository⟩)
      "-5" [(1, "ARD001", 300, 5, "2024-01-15T10:30:00Z")] [] [] []).1.2 (by decide)).2.2.1
      (by decide)⟩

/-- The loop over rows that all scan, continuing a slice that is not nil, appends the
record of every row in order. -/
theorem scanRows_ok_some {ρ α : Type} (scan : ρ → α) (cols : List ρ) (acc : List α) :
    scanRows scan (cols.map Except.ok) (some acc) = (some (acc ++ cols.map scan), none) := by
  induction cols generalizing acc with
  | nil => simp only [List.map_nil, List.append_nil, scanRows]
  | cons c cs ih =>
    simp only [List.map_cons, scanRows, appendSlice, Option.getD_some, ih,
      List.append_assoc, List.singleton_append]

/-- The loop over rows that all scan, started on the nil slice, returns the record of
every row in order, the nil slice when there is no row, and no error. -/
theorem scanRows_ok {ρ α : Type} (scan : ρ → α) (cols : List ρ) :
    scanRows scan (cols.map Except.ok) none = (sliceOf (cols.map scan), none) := by
  cases cols with
  | nil => rfl
  | cons c cs =>
    simp only [List.map_cons, scanRows, appendSlice, Option.getD_none, List.nil_append,
      scanRows_ok_some, List.singleton_append, sliceOf]

/-- The loop ends at the first row whose scan fails, with the nil slice and that error. -/
theorem scanRows_error {ρ α : Type} (scan : ρ → α) (cols : List ρ) (err : GoError)
    (rest : List (Except GoError ρ)) (acc : Option (List α)) :
    scanRows scan (cols.map Except.ok ++ Except.error err :: rest) acc = (none, some err) := by
  induction cols generalizing acc with
  | nil => simp only [List.map_nil, List.nil_append, scanRows]
  | cons c cs ih => exact ih (appendSlice acc (scan c))

/-- The window of `LIMIT` and `OFFSET` holds at most `limit` rows when `limit` is not
negative. -/
theorem limitOffset_length {ρ : Type} (rows : List ρ) (limit offset : Int) (h : 0 ≤ limit) :
    ((limitOffset rows limit offset).length : Int) ≤ limit := by
  unfold limitOffset
  rw [if_neg (not_lt.mpr h), List.length_take]
  omega

/-- C19: for both SQLite repositories and every `page` and `rowsPerPage`, `ReadMany`
returns what `ReadAll` returns when `page` is below 1, and otherwise runs the paging
statement with limit `rowsPerPage` and offset `rowsPerPage * (page - 1)` as the `int`
product computes it, which is the mathematical product whenever that lies in the `int64`
range. So `ReadMany 0 n` is `ReadAll`, `ReadMany 2 20` uses limit 20 and offset 20, and with
`rowsPerPage` 0 and `page` at least 1 the statement runs with limit 0 and offset 0, and
`ReadMany` returns no rows when that fetch delivers none.

What `ReadAll` returns is the outcome of its query without `LIMIT`, and the loop shared by
both methods returns the error of a failed query, else the record of every delivered row in
order (the nil slice when there is none), else the error of the first row whose scan fails.
Over a store that holds a table and runs the two reading statements as SQL has it,
`ReadMany` with `page` below 1 therefore returns the record of every row of the table,
whatever `rowsPerPage` is; with `page` at least 1 it returns the records of the window
that `LIMIT rowsPerPage OFFSET offset` cuts out of the table, which holds at most
`rowsPerPage` rows; and with `rowsPerPage` 0 it returns the nil slice and no error. -/
theorem readMany_pagination {σ τ : Type} (crepo : SQLite.DeviceConfigRepository σ)
    (srepo : SQLite.MazeDeviceStatusRepository τ) (page rowsPerPage : Int) (st : σ) (st2 : τ)
    (cbase : SQLite.DeviceConfigRepository (List SQLite.ConfigRow))
    (sbase : SQLite.MazeDeviceStatusRepository (List SQLite.StatusRow))
    (order : List SQLite.StatusRow → List SQLite.StatusRow)
    (ctable : List SQLite.ConfigRow) (stable : List SQLite.StatusRow) (err : GoError)
    (crest : List (Except GoError SQLite.ConfigRow))
    (srest : List (Except GoError SQLite.StatusRow)) :
    (page < 1 →
      crepo.ReadMany page rowsPerPage st = crepo.ReadAll st ∧
      srepo.ReadMany page rowsPerPage st2 = srepo.ReadAll st2) ∧
    (1 ≤ page →
      crepo.ReadMany page rowsPerPage st =
        (SQLite.collect SQLite.scanConfig
          (crepo.readManyStmt rowsPerPage (wrapInt64 (rowsPerPage * (page - 1))) st).1,
         (crepo.readManyStmt rowsPerPage (wrapInt64 (rowsPerPage * (page - 1))) st).2) ∧
      srepo.ReadMany page rowsPerPage st2 =
        (SQLite.collect SQLite.scanStatus
          (srepo.readManyStmt rowsPerPage (wrapInt64 (rowsPerPage * (page - 1))) st2).1,
         (srepo.readManyStmt rowsPerPage (wrapInt64 (rowsPerPage * (page - 1))) st2).2)) ∧
    (-(2 ^ 63) ≤ rowsPerPage * (page - 1) → rowsPerPage * (page - 1) < 2 ^ 63 →
      wrapInt64 (rowsPerPage * (page - 1)) = rowsPerPage * (page - 1)) ∧
    (crepo.ReadMany 0 rowsPerPage st = crepo.ReadAll st ∧
      srepo.ReadMany 0 rowsPerPage st2 = srepo.ReadAll st2) ∧
    (crepo.ReadMany 2 20 st =
        (SQLite.collect SQLite.scanConfig (crepo.readManyStmt 20 20 st).1,
         (crepo.readManyStmt 20 20 st).2) ∧
      srepo.ReadMany 2 20 st2 =
        (SQLite.collect SQLite.scanStatus (srepo.readManyStmt 20 20 st2).1,
         (srepo.readManyStmt 20 20 st2).2)) ∧
    (1 ≤ page →
      crepo.ReadMany page 0 st =
        (SQLite.collect SQLite.scanConfig (crepo.readManyStmt 0 0 st).1,
         (crepo.readManyStmt 0 0 st).2) ∧
      srepo.ReadMany page 0 st2 =
        (SQLite.collect SQLite.scanStatus (srepo.readManyStmt 0 0 st2).1,
         (srepo.readManyStmt 0 0 st2).2) ∧
      ((crepo.readManyStmt 0 0 st).1 = Except.ok [] →
        (crepo.ReadMany page 0 st).1 = (none, none)) ∧
      ((srepo.readManyStmt 0 0 st2).1 = Except.ok [] →
        (srepo.ReadMany page 0 st2).1 = (none, none))) ∧
    (crepo.ReadAll st =
        (SQLite.collect SQLite.scanConfig (crepo.readAllQuery st).1, (crepo.readAllQuery st).2) ∧
      srepo.ReadAll st2 =
        (SQLite.collect SQLite.scanStatus (srepo.readAllQuery st2).1,
         (srepo.readAllQuery st2).2)) ∧
    (SQLite.collect SQLite.scanConfig (Except.error err) = (none, some err) ∧
      SQLite.collect SQLite.scanConfig (Except.ok (ctable.map Except.ok)) =
        (sliceOf (ctable.map SQLite.scanConfig), none) ∧
      SQLite.collect SQLite.scanConfig
          (Except.ok (ctable.map Except.ok ++ Except.error err :: crest)) = (none, some err) ∧
      SQLite.collect SQLite.scanStatus (Except.error err) = (none, some err) ∧
      SQLite.collect SQLite.scanStatus (Except.ok (stable.map Except.ok)) =
        (sliceOf (stable.map SQLite.scanStatus), none) ∧
      SQLite.collect SQLite.scanStatus
          (Except.ok (stable.map Except.ok ++ Except.error err :: srest)) = (none, some err)) ∧
    (page < 1 →
      cbase.onTable.ReadMany page rowsPerPage ctable =
        ((sliceOf (ctable.map SQLite.scanConfig), none), ctable) ∧
      (sbase.onTable order).ReadMany page rowsPerPage stable =
        ((sliceOf ((order stable).map SQLite.scanStatus), none), stable)) ∧
    (1 ≤ page →
      cbase.onTable.ReadMany page rowsPerPage ctable =
        ((sliceOf ((limitOffset ctable rowsPerPage
            (wrapInt64 (rowsPerPage * (page - 1)))).map SQLite.scanConfig), none), ctable) ∧
      (sbase.onTable order).ReadMany page rowsPerPage stable =
        ((sliceOf ((limitOffset stable rowsPerPage
            (wrapInt64 (rowsPerPage * (page - 1)))).map SQLite.scanStatus), none), stable) ∧
      cbase.onTable.ReadMany page 0 ctable = ((none, none), ctable) ∧
      (sbase.onTable order).ReadMany page 0 stable = ((none, none), stable)) ∧
    (0 ≤ rowsPerPage →
      ((limitOffset ctable rowsPerPage
          (wrapInt64 (rowsPerPage * (page - 1)))).length : Int) ≤ rowsPerPage ∧
      ((limitOffset stable rowsPerPage
          (wrapInt64 (rowsPerPage * (page - 1)))).length : Int) ≤ rowsPerPage) := by
  have hw0 : wrapInt64 (0 * (page - 1)) = 0 := by
    rw [zero_mul]
    decide
  have hw20 : wrapInt64 (20 * (2 - 1)) = 20 := by decide
  have hc : ∀ {ς : Type} (repo : SQLite.DeviceConfigRepository ς) (s : ς) (p r : Int), 1 ≤ p →
      repo.ReadMany p r s =
        (SQLite.collect SQLite.scanConfig (repo.readManyStmt r (wrapInt64 (r * (p - 1))) s).1,
         (repo.readManyStmt r (wrapInt64 (r * (p - 1))) s).2) := by
    intro ς repo s p r hp
    simp only [SQLite.DeviceConfigRepository.ReadMany, if_neg (not_lt.mpr hp)]
  have hs : ∀ {ς : Type} (repo : SQLite.MazeDeviceStatusRepository ς) (s : ς) (p r : Int),
      1 ≤ p → repo.ReadMany p r s =
        (SQLite.collect SQLite.scanStatus (repo.readManyStmt r (wrapInt64 (r * (p - 1))) s).1,
         (repo.readManyStmt r (wrapInt64 (r * (p - 1))) s).2) := by
    intro ς repo s p r hp
    simp only [SQLite.MazeDeviceStatusRepository.ReadMany, if_neg (not_lt.mpr hp)]
  have hcok : ∀ cols : List SQLite.ConfigRow,
      SQLite.collect SQLite.scanConfig (Except.ok (cols.map Except.ok)) =
        (sliceOf (cols.map SQLite.scanConfig), none) :=
    fun cols => scanRows_ok SQLite.scanConfig cols
  have hsok : ∀ cols : List SQLite.StatusRow,
      SQLite.collect SQLite.scanStatus (Except.ok (cols.map Except.ok)) =
        (sliceOf (cols.map SQLite.scanStatus), none) :=
    fun cols => scanRows_ok SQLite.scanStatus cols
  have hl0c : ∀ offset : Int, limitOffset ctable 0 offset = [] := by
    intro offset
    simp only [limitOffset, show ¬ ((0 : Int) < 0) by decide, if_false, Int.toNat_zero,
      List.take_zero]
  have hl0s : ∀ offset : Int, limitOffset stable 0 offset = [] := by
    intro offset
    simp only [limitOffset, show ¬ ((0 : Int) < 0) by decide, if_false, Int.toNat_zero,
      List.take_zero]
  refine ⟨fun hp => ⟨?_, ?_⟩,
    fun hp => ⟨hc crepo st page rowsPerPage hp, hs srepo st2 page rowsPerPage hp⟩,
    fun h1 h2 => ?_, ⟨?_, ?_⟩, ⟨?_, ?_⟩, fun hp => ⟨?_, ?_, fun h => ?_, fun h => ?_⟩,
    ⟨rfl, rfl⟩,
    ⟨rfl, hcok ctable, scanRows_error SQLite.scanConfig ctable err crest none,
      rfl, hsok stable, scanRows_error SQLite.scanStatus stable err srest none⟩,
    fun hp => ⟨?_, ?_⟩, fun hp => ⟨?_, ?_, ?_, ?_⟩,
    fun h0 => ⟨limitOffset_length ctable rowsPerPage _ h0,
      limitOffset_length stable rowsPerPage _ h0⟩⟩
  · simp only [SQLite.DeviceConfigRepository.ReadMany, if_pos hp]
  · simp only [SQLite.MazeDeviceStatusRepository.ReadMany, if_pos hp]
  · unfold wrapInt64
    omega
  · simp only [SQLite.DeviceConfigRepository.ReadMany, show (0 : Int) < 1 by decide, if_true]
  · simp only [SQLite.MazeDeviceStatusRepository.ReadMany, show (0 : Int) < 1 by decide,
      if_true]
  · rw [hc crepo st 2 20 (by decide), hw20]
  · rw [hs srepo st2 2 20 (by decide), hw20]
  · rw [hc crepo st page 0 hp, hw0]
  · rw [hs srepo st2 page 0 hp, hw0]
  · rw [hc crepo st page 0 hp, hw0, h]
    rfl
  · rw [hs srepo st2 page 0 hp, hw0, h]
    rfl
  · simp only [SQLite.DeviceConfigRepository.ReadMany, if_pos hp,
      SQLite.DeviceConfigRepository.ReadAll, SQLite.DeviceConfigRepository.onTable, hcok]
  · simp only [SQLite.MazeDeviceStatusRepository.ReadMany, if_pos hp,
      SQLite.MazeDeviceStatusRepository.ReadAll, SQLite.MazeDeviceStatusRepository.onTable,
      hsok]
  · rw [hc cbase.onTable ctable page rowsPerPage hp]
    simp only [SQLite.DeviceConfigRepository.onTable, hcok]
  · rw [hs (sbase.onTable order) stable page rowsPerPage hp]
    simp only [SQLite.MazeDeviceStatusRepository.onTable, hsok]
  · rw [hc cbase.onTable ctable page 0 hp]
    simp only [SQLite.DeviceConfigRepository.onTable, hcok, hl0c]
    rfl
  · rw [hs (sbase.onTable order) stable page 0 hp]
    simp only [SQLite.MazeDeviceStatusRepository.onTable, hsok, hl0s]
    rfl

/-- Three configs in the table. Over the store stub, page 2 with two rows a page delivers
the third row. Over the store that runs the reading statements as SQL has it, page 0
delivers all three in order whatever the page size, page 2 with two rows a page delivers
the third, and a page of zero rows delivers the nil slice; three statuses, arranged by
the store in the opposite order, come back all three in that arrangement. -/
theorem readMany_pagination_witness :
    (sqliteConfigFixture.ReadMany 2 2
        [(1, "A", 300, 5, "t"), (2, "B", 300, 5, "t"), (3, "C", 300, 5, "t")]).1 =
      (some [SQLite.scanConfig (3, "C", 300, 5, "t")], none) ∧
    sqliteConfigFixture.onTable.ReadMany 0 2
        [(1, "A", 300, 5, "t"), (2, "B", 300, 5, "t"), (3, "C", 300, 5, "t")] =
      ((some [SQLite.scanConfig (1, "A", 300, 5, "t"), SQLite.scanConfig (2, "B", 300, 5, "t"),
          SQLite.scanConfig (3, "C", 300, 5, "t")], none),
       [(1, "A", 300, 5, "t"), (2, "B", 300, 5, "t"), (3, "C", 300, 5, "t")]) ∧
    sqliteConfigFixture.onTable.ReadMany 2 2
        [(1, "A", 300, 5, "t"), (2, "B", 300, 5, "t"), (3, "C", 300, 5, "t")] =
      ((some [SQLite.scanConfig (3, "C", 300, 5, "t")], none),
       [(1, "A", 300, 5, "t"), (2, "B", 300, 5, "t"), (3, "C", 300, 5, "t")]) ∧
    sqliteConfigFixture.onTable.ReadMany 1 0
        [(1, "A", 300, 5, "t"), (2, "B", 300, 5, "t"), (3, "C", 300, 5, "t")] =
      ((none, none),
       [(1, "A", 300, 5, "t"), (2, "B", 300, 5, "t"), (3, "C", 300, 5, "t")]) ∧
    (sqliteStatusFixture.onTable List.reverse).ReadMany 0 2
        [(1, "A", true, false, true, 50, "t1"), (2, "B", true, false, true, 50, "t2"),
          (3, "C", true, false, true, 50, "t3")] =
      ((some [SQLite.scanStatus (3, "C", true, false, true, 50, "t3"),
          SQLite.scanStatus (2, "B", true, false, true, 50, "t2"),
          SQLite.scanStatus (1, "A", true, false, true, 50, "t1")], none),
       [(1, "A", true, false, true, 50, "t1"), (2, "B", true, false, true, 50, "t2"),
          (3, "C", true, false, true, 50, "t3")]) :=
  ⟨((readMany_pagination sqliteConfigFixture sqliteStatusFixture 2 2
        [(1, "A", 300, 5, "t"), (2, "B", 300, 5, "t"), (3, "C", 300, 5, "t")] []
        sqliteConfigFixture sqliteStatusFixture id [] [] (GoError.other "") [] []).2.1
      (by decide)).1 ▸ (by decide),
   ((readMany_pagination sqliteConfigFixture sqliteStatusFixture 0 2 [] []
        sqliteConfigFixture sqliteStatusFixture List.reverse
        [(1, "A", 300, 5, "t"), (2, "B", 300, 5, "t"), (3, "C", 300, 5, "t")]
        [(1, "A", true, false, true, 50, "t1"), (2, "B", true, false, true, 50, "t2"),
          (3, "C", true, false, true, 50, "t3")]
        (GoError.other "") [] []).2.2.2.2.2.2.2.2.1 (by decide)).1,
   ((readMany_pagination sqliteConfigFixture sqliteStatusFixture 2 2 [] []
        sqliteConfigFixture sqliteStatusFixture List.reverse
        [(1, "A", 300, 5, "t"), (2, "B", 300, 5, "t"), (3, "C", 300, 5, "t")] []
        (GoError.other "") [] []).2.2.2.2.2.2.2.2.2.1 (by decide)).1,
   ((readMany_pagination sqliteConfigFixture sqliteStatusFixture 1 0 [] []
        sqliteConfigFixture sqliteStatusFixture List.reverse
        [(1, "A", 300, 5, "t"), (2, "B", 300, 5, "t"), (3, "C", 300, 5, "t")] []
        (GoError.other "") [] []).2.2.2.2.2.2.2.2.2.1 (by decide)).2.2.1,
   ((readMany_pagination sqliteConfigFixture sqliteStatusFixture 0 2 [] []
        sqliteConfigFixture sqliteStatusFixture List.reverse
        [(1, "A", 300, 5, "t"), (2, "B", 300, 5, "t"), (3, "C", 300, 5, "t")]
        [(1, "A", true, false, true, 50, "t1"), (2, "B", true, false, true, 50, "t2"),
          (3, "C", true, false, true, 50, "t3")]
        (GoError.other "") [] []).2.2.2.2.2.2.2.2.1 (by decide)).2⟩

/-- C20 as stated fails for the config service: when the repository returns a record
together with an error, the service returns the error without the record, which is not
the repository's result. -/
theorem config_readByDeviceID_drops_record :
    DeviceConfigServiceSQLite.ReadByDeviceID ⟨recordWithErrorRepoFixture⟩ "ARD001" 7 =
      ((none, some (GoError.other "database is locked")), 7) ∧
    recordWithErrorRepoFixture.ReadByDeviceID "ARD001" 7 =
      ((some configFixture, some (GoError.other "database is locked")), 7) ∧
    DeviceConfigServiceSQLite.ReadByDeviceID ⟨recordWithErrorRepoFixture⟩ "ARD001" 7 ≠
      recordWithErrorRepoFixture.ReadByDeviceID "ARD001" 7 := by
  refine ⟨by decide, by decide, by decide⟩

/-- C20, amended: called with the empty string, both services' `ReadByDeviceID` return no
record and the client error `device_id is required` without a repository call. Called with
a non-empty string they make exactly one repository call; the status service returns
exactly the repository's result; the config service returns the repository's state and
error, with no record when there is an error and the repository's record otherwise, which
is exactly the repository's result whenever that is not a record together with an error,
and always so over the SQLite repository. -/
theorem readByDeviceID_guard {σ τ υ : Type} (crepo : DeviceConfigRepository σ)
    (srepo : MazeDeviceStatusRepository τ) (sqlite : SQLite.DeviceConfigRepository υ)
    (deviceID : String) (st : σ) (st2 : τ) (st3 : υ)
    (clog : List DeviceConfigCall) (slog : List MazeDeviceStatusCall) :
    (deviceID = "" →
      DeviceConfigServiceSQLite.ReadByDeviceID ⟨crepo.logged⟩ deviceID (st, clog) =
        ((none, some (GoError.DeviceConfigError "device_id is required")), (st, clog)) ∧
      MazeDeviceStatusServiceSQLite.ReadByDeviceID ⟨srepo.logged⟩ deviceID (st2, slog) =
        ((none, some (GoError.MazeDeviceStatusError "device_id is required")),
          (st2, slog))) ∧
    (deviceID ≠ "" →
      MazeDeviceStatusServiceSQLite.ReadByDeviceID ⟨srepo⟩ deviceID st2 =
        srepo.ReadByDeviceID deviceID st2 ∧
      (MazeDeviceStatusServiceSQLite.ReadByDeviceID ⟨srepo.logged⟩ deviceID
          (st2, slog)).2.2 = slog ++ [MazeDeviceStatusCall.ReadByDeviceID deviceID] ∧
      (DeviceConfigServiceSQLite.ReadByDeviceID ⟨crepo.logged⟩ deviceID (st, clog)).2.2 =
        clog ++ [DeviceConfigCall.ReadByDeviceID deviceID] ∧
      (DeviceConfigServiceSQLite.ReadByDeviceID ⟨crepo⟩ deviceID st).2 =
        (crepo.ReadByDeviceID deviceID st).2 ∧
      (DeviceConfigServiceSQLite.ReadByDeviceID ⟨crepo⟩ deviceID st).1.2 =
        (crepo.ReadByDeviceID deviceID st).1.2 ∧
      ((crepo.ReadByDeviceID deviceID st).1.2 ≠ none →
        (DeviceConfigServiceSQLite.ReadByDeviceID ⟨crepo⟩ deviceID st).1.1 = none) ∧
      ((crepo.ReadByDeviceID deviceID st).1.2 = none ∨
          (crepo.ReadByDeviceID deviceID st).1.1 = none →
        DeviceConfigServiceSQLite.ReadByDeviceID ⟨crepo⟩ deviceID st =
          crepo.ReadByDeviceID deviceID st) ∧
      DeviceConfigServiceSQLite.ReadByDeviceID ⟨sqlite.toRepository⟩ deviceID st3 =
        sqlite.ReadByDeviceID deviceID st3) := by
  constructor
  · intro hd
    subst hd
    simp only [DeviceConfigServiceSQLite.ReadByDeviceID,
      MazeDeviceStatusServiceSQLite.ReadByDeviceID, if_true, and_self]
  · intro hd
    refine ⟨?_, ?_, ?_, ?_, ?_, ?_, ?_, ?_⟩
    · simp only [MazeDeviceStatusServiceSQLite.ReadByDeviceID, if_neg hd]
    · simp only [MazeDeviceStatusServiceSQLite.ReadByDeviceID, if_neg hd,
        MazeDeviceStatusRepository.logged]
    · simp only [DeviceConfigServiceSQLite.ReadByDeviceID, if_neg hd,
        DeviceConfigRepository.logged]
      rcases crepo.ReadByDeviceID deviceID st with ⟨⟨c, _ | e⟩, st1⟩ <;> rfl
    · simp only [DeviceConfigServiceSQLite.ReadByDeviceID, if_neg hd]
      rcases crepo.ReadByDeviceID deviceID st with ⟨⟨c, _ | e⟩, st1⟩ <;> rfl
    · simp only [DeviceConfigServiceSQLite.ReadByDeviceID, if_neg hd]
      rcases crepo.ReadByDeviceID deviceID st with ⟨⟨c, _ | e⟩, st1⟩ <;> rfl
    · simp only [DeviceConfigServiceSQLite.ReadByDeviceID, if_neg hd]
      rcases crepo.ReadByDeviceID deviceID st with ⟨⟨c, _ | e⟩, st1⟩
      · intro h
        exact absurd rfl h
      · intro _
        rfl
    · simp only [DeviceConfigServiceSQLite.ReadByDeviceID, if_neg hd]
      rcases crepo.ReadByDeviceID deviceID st with ⟨⟨c, _ | e⟩, st1⟩
      · intro _
        rfl
      · rintro (h | h)
        · simp at h
        · simp only at h
          subst h
          rfl
    · simp only [DeviceConfigServiceSQLite.ReadByDeviceID, if_neg hd,
        SQLite.DeviceConfigRepository.toRepository,
        SQLite.DeviceConfigRepository.ReadByDeviceID]
      rcases sqlite.readByDeviceIDStmt deviceID st3 with ⟨_ | _ | _, st4⟩ <;> rfl

/-- The config service over the store stub: the empty device id is turned away without a
call, and `ARD001` gives the repository's record. -/
theorem readByDeviceID_guard_witness :
    DeviceConfigServiceSQLite.ReadByDeviceID ⟨configRepoFixture.logged⟩ "" (7, []) =
      ((none, some (GoError.DeviceConfigError "device_id is required")), (7, [])) ∧
    DeviceConfigServiceSQLite.ReadByDeviceID ⟨sqliteConfigFixture.toRepository⟩ "ARD001"
        [(1, "ARD001", 300, 5, "2024-01-15T10:30:00Z")] =
      sqliteConfigFixture.ReadByDeviceID "ARD001"
        [(1, "ARD001", 300, 5, "2024-01-15T10:30:00Z")] :=
  ⟨((readByDeviceID_guard configRepoFixture statusRepoFixture sqliteConfigFixture "" 7 7
        [] [] []).1 rfl).1,
   ((readByDeviceID_guard configRepoFixture statusRepoFixture sqliteConfigFixture "ARD001"
        7 7 [(1, "ARD001", 300, 5, "2024-01-15T10:30:00Z")] [] []).2
      (by decide)).2.2.2.2.2.2.2⟩

/-- C21 as stated fails for `ReadOne`: when the repository returns a record together with
an error, the service returns the error without the record, which is not the repository's
result. -/
theorem service_readOne_drops_record :
    DeviceConfigServiceSQLite.ReadOne ⟨readOneRecordWithErrorFixture⟩ 1 7 =
      ((none, some (GoError.other "database is locked")), 7) ∧
    readOneRecordWithErrorFixture.ReadOne 1 7 =
      ((some configFixture, some (GoError.other "database is locked")), 7) ∧
    DeviceConfigServiceSQLite.ReadOne ⟨readOneRecordWithErrorFixture⟩ 1 7 ≠
      readOneRecordWithErrorFixture.ReadOne 1 7 := by
  refine ⟨by decide, by decide, by decide⟩

/-- C21, amended: the config service's `Delete` and `ReadMany` make exactly one repository
call and return exactly its result, for every argument; `ReadOne` makes exactly one
repository call and returns the repository's state and error, with no record when there is
an error and the repository's record otherwise, which is exactly the repository's result
whenever that is not a record together with an error, and always so over the SQLite
repository. The id-only record of `DeleteHandler` fails `ValidateConfig` and still reaches
the repository through `Delete`. -/
theorem reads_and_deletes_skip_validation {σ υ : Type} (parse : String → Option Int)
    (now : Int) (repo : DeviceConfigRepository σ) (sqlite : SQLite.DeviceConfigRepository υ)
    (config : DeviceConfig) (id page rowsPerPage : Int) (st : σ) (st3 : υ)
    (log : List DeviceConfigCall) :
    (DeviceConfigServiceSQLite.Delete ⟨repo⟩ config st = repo.Delete config st ∧
      (DeviceConfigServiceSQLite.Delete ⟨repo.logged⟩ config (st, log)).2.2.2 =
        log ++ [DeviceConfigCall.Delete config]) ∧
    (DeviceConfigServiceSQLite.ReadMany ⟨repo⟩ page rowsPerPage st =
        repo.ReadMany page rowsPerPage st ∧
      (DeviceConfigServiceSQLite.ReadMany ⟨repo.logged⟩ page rowsPerPage (st, log)).2.2 =
        log ++ [DeviceConfigCall.ReadMany page rowsPerPage]) ∧
    ((DeviceConfigServiceSQLite.ReadOne ⟨repo.logged⟩ id (st, log)).2.2 =
        log ++ [DeviceConfigCall.ReadOne id] ∧
      (DeviceConfigServiceSQLite.ReadOne ⟨repo⟩ id st).2 = (repo.ReadOne id st).2 ∧
      (DeviceConfigServiceSQLite.ReadOne ⟨repo⟩ id st).1.2 = (repo.ReadOne id st).1.2 ∧
      ((repo.ReadOne id st).1.2 ≠ none →
        (DeviceConfigServiceSQLite.ReadOne ⟨repo⟩ id st).1.1 = none) ∧
      ((repo.ReadOne id st).1.2 = none ∨ (repo.ReadOne id st).1.1 = none →
        DeviceConfigServiceSQLite.ReadOne ⟨repo⟩ id st = repo.ReadOne id st) ∧
      DeviceConfigServiceSQLite.ReadOne ⟨sqlite.toRepository⟩ id st3 =
        sqlite.ReadOne id st3) ∧
    (ValidateConfig parse now (DeviceConfig.ofID id) ≠ none ∧
      DeviceConfigServiceSQLite.Delete ⟨repo.logged⟩ (DeviceConfig.ofID id) (st, log) =
        repo.logged.Delete (DeviceConfig.ofID id) (st, log)) := by
  refine ⟨⟨rfl, rfl⟩, ⟨rfl, rfl⟩, ⟨?_, ?_, ?_, ?_, ?_, ?_⟩, ⟨?_, rfl⟩⟩
  · simp only [DeviceConfigServiceSQLite.ReadOne, DeviceConfigRepository.logged]
    rcases repo.ReadOne id st with ⟨⟨c, _ | e⟩, st1⟩ <;> rfl
  · simp only [DeviceConfigServiceSQLite.ReadOne]
    rcases repo.ReadOne id st with ⟨⟨c, _ | e⟩, st1⟩ <;> rfl
  · simp only [DeviceConfigServiceSQLite.ReadOne]
    rcases repo.ReadOne id st with ⟨⟨c, _ | e⟩, st1⟩ <;> rfl
  · simp only [DeviceConfigServiceSQLite.ReadOne]
    rcases repo.ReadOne id st with ⟨⟨c, _ | e⟩, st1⟩
    · intro h
      exact absurd rfl h
    · intro _
      rfl
  · simp only [DeviceConfigServiceSQLite.ReadOne]
    rcases repo.ReadOne id st with ⟨⟨c, _ | e⟩, st1⟩
    · intro _
      rfl
    · rintro (h | h)
      · simp at h
      · simp only at h
        subst h
        rfl
  · simp only [DeviceConfigServiceSQLite.ReadOne, SQLite.DeviceConfigRepository.toRepository,
      SQLite.DeviceConfigRepository.ReadOne]
    rcases sqlite.readStmt id st3 with ⟨_ | _ | _, st4⟩ <;> rfl
  · rw [ne_eq, validateConfig_none_iff]
    rintro ⟨⟨h, -⟩, -⟩
    exact h rfl

/-- Over the repository stub, `Delete` of the id-only record 5 reaches the repository, and
`ReadOne` over the store stub gives the repository's record. -/
theorem reads_and_deletes_skip_validation_witness :
    DeviceConfigServiceSQLite.Delete ⟨configRepoFixture.logged⟩ (DeviceConfig.ofID 5) (7, []) =
      ((1, none), DeviceConfig.ofID 5, (7, [DeviceConfigCall.Delete (DeviceConfig.ofID 5)])) ∧
    DeviceConfigServiceSQLite.ReadOne ⟨sqliteConfigFixture.toRepository⟩ 1
        [(1, "ARD001", 300, 5, "2024-01-15T10:30:00Z")] =
      sqliteConfigFixture.ReadOne 1 [(1, "ARD001", 300, 5, "2024-01-15T10:30:00Z")] :=
  ⟨(reads_and_deletes_skip_validation parseFixture nowFixture configRepoFixture
      sqliteConfigFixture configFixture 5 0 0 7
      [(1, "ARD001", 300, 5, "2024-01-15T10:30:00Z")] []).2.2.2.2.trans (by decide),
   (reads_and_deletes_skip_validation parseFixture nowFixture configRepoFixture
      sqliteConfigFixture configFixture 1 0 0 7
      [(1, "ARD001", 300, 5, "2024-01-15T10:30:00Z")] []).2.2.1.2.2.2.2.2⟩

/-! ## The SQLite repositories -/

/-- C22: the config repository's `ReadOne` and `ReadByDeviceID` (and the status
repository's `ReadOne`) return no record and no error when the scan reports
`sql.ErrNoRows`, no record and the scan's error when the scan fails otherwise, and, when a
row is found, no error and a record whose fields are the columns of the row, in order. -/
theorem repository_absence_is_no_error {σ τ : Type} (crepo : SQLite.DeviceConfigRepository σ)
    (srepo : SQLite.MazeDeviceStatusRepository τ) (id : Int) (deviceID : String)
    (st st1 : σ) (st2 st3 : τ) :
    ((crepo.readStmt id st = (RowScan.ErrNoRows, st1) →
        crepo.ReadOne id st = ((none, none), st1)) ∧
      (∀ err, crepo.readStmt id st = (RowScan.failed err, st1) →
        crepo.ReadOne id st = ((none, some err), st1)) ∧
      (∀ key device timeout level updated,
        crepo.readStmt id st = (RowScan.row (key, device, timeout, level, updated), st1) →
        crepo.ReadOne id st =
          ((some { ID := key, DeviceID := device, AlarmTimeout := timeout,
                   SensitivityLevel := level, UpdatedAt := updated }, none), st1))) ∧
    ((crepo.readByDeviceIDStmt deviceID st = (RowScan.ErrNoRows, st1) →
        crepo.ReadByDeviceID deviceID st = ((none, none), st1)) ∧
      (∀ err, crepo.readByDeviceIDStmt deviceID st = (RowScan.failed err, st1) →
        crepo.ReadByDeviceID deviceID st = ((none, some err), st1)) ∧
      (∀ key device timeout level updated,
        crepo.readByDeviceIDStmt deviceID st =
          (RowScan.row (key, device, timeout, level, updated), st1) →
        crepo.ReadByDeviceID deviceID st =
          ((some { ID := key, DeviceID := device, AlarmTimeout := timeout,
                   SensitivityLevel := level, UpdatedAt := updated }, none), st1))) ∧
    ((srepo.readStmt id st2 = (RowScan.ErrNoRows, st3) →
        srepo.ReadOne id st2 = ((none, none), st3)) ∧
      (∀ err, srepo.readStmt id st2 = (RowScan.failed err, st3) →
        srepo.ReadOne id st2 = ((none, some err), st3)) ∧
      (∀ key device alarm completed hall battery stamp,
        srepo.readStmt id st2 =
          (RowScan.row (key, device, alarm, completed, hall, battery, stamp), st3) →
        srepo.ReadOne id st2 =
          ((some { ID := key, DeviceID := device, AlarmActive := alarm,
                   MazeCompleted := completed, HallSensorValue := hall,
                   BatteryLevel := battery, Timestamp := stamp }, none), st3))) := by
  refine ⟨⟨fun h => ?_, fun err h => ?_, fun _ _ _ _ _ h => ?_⟩,
    ⟨fun h => ?_, fun err h => ?_, fun _ _ _ _ _ h => ?_⟩,
    ⟨fun h => ?_, fun err h => ?_, fun _ _ _ _ _ _ _ h => ?_⟩⟩
  all_goals
    simp only [SQLite.DeviceConfigRepository.ReadOne,
      SQLite.DeviceConfigRepository.ReadByDeviceID, SQLite.MazeDeviceStatusRepository.ReadOne,
      h, SQLite.scanConfig, SQLite.scanStatus]

/-- The store stub holding one config: key 2 is absent and read as no record and no error;
key 1 is read as the record of the row. -/
theorem repository_absence_is_no_error_witness :
    sqliteConfigFixture.ReadOne 2 [(1, "ARD001", 300, 5, "2024-01-15T10:30:00Z")] =
      ((none, none), [(1, "ARD001", 300, 5, "2024-01-15T10:30:00Z")]) ∧
    sqliteConfigFixture.ReadOne 1 [(1, "ARD001", 300, 5, "2024-01-15T10:30:00Z")] =
      ((some { ID := 1, DeviceID := "ARD001", AlarmTimeout := 300, SensitivityLevel := 5,
               UpdatedAt := "2024-01-15T10:30:00Z" }, none),
        [(1, "ARD001", 300, 5, "2024-01-15T10:30:00Z")]) :=
  ⟨(repository_absence_is_no_error sqliteConfigFixture sqliteStatusFixture 2 "ARD001"
      [(1, "ARD001", 300, 5, "2024-01-15T10:30:00Z")]
      [(1, "ARD001", 300, 5, "2024-01-15T10:30:00Z")] [] []).1.1 rfl,
   (repository_absence_is_no_error sqliteConfigFixture sqliteStatusFixture 1 "ARD001"
      [(1, "ARD001", 300, 5, "2024-01-15T10:30:00Z")]
      [(1, "ARD001", 300, 5, "2024-01-15T10:30:00Z")] [] []).1.2.2
      1 "ARD001" 300 5 "2024-01-15T10:30:00Z" rfl⟩

/-- C23: when the insert statement succeeds and the store reports the key `key`, the
repository's `Create` returns no error and the input record with its id set to `key` and
every other field as it was; the statement does not receive the input id, so a record that
differs only in its id gets the same store answer, the same state, and on success the same
record. When the insert fails (or the key cannot be read) the record is returned as it was
and the store's error as is. This holds for the config and the status repository. -/
theorem create_assigns_store_key {σ τ : Type} (crepo : SQLite.DeviceConfigRepository σ)
    (srepo : SQLite.MazeDeviceStatusRepository τ) (config : DeviceConfig)
    (status : MazeDeviceStatus) (otherID : Int) (st st1 : σ) (st2 st3 : τ) :
    ((∀ res key,
        crepo.createStmt config.DeviceID config.AlarmTimeout config.SensitivityLevel
          config.UpdatedAt st = (Except.ok res, st1) →
        res.LastInsertId = (key, none) →
        crepo.Create config st = (none, { config with ID := key }, st1) ∧
        crepo.Create { config with ID := otherID } st =
          (none, { config with ID := key }, st1)) ∧
      (∀ err,
        crepo.createStmt config.DeviceID config.AlarmTimeout config.SensitivityLevel
          config.UpdatedAt st = (Except.error err, st1) →
        crepo.Create config st = (some err, config, st1)) ∧
      (∀ res key err,
        crepo.createStmt config.DeviceID config.AlarmTimeout config.SensitivityLevel
          config.UpdatedAt st = (Except.ok res, st1) →
        res.LastInsertId = (key, some err) →
        crepo.Create config st = (some err, config, st1)) ∧
      (crepo.Create { config with ID := otherID } st).1 = (crepo.Create config st).1 ∧
      (crepo.Create { config with ID := otherID } st).2.2 = (crepo.Create config st).2.2) ∧
    ((∀ res key,
        srepo.createStmt status.DeviceID status.AlarmActive status.MazeCompleted
          status.HallSensorValue status.BatteryLevel status.Timestamp st2 =
          (Except.ok res, st3) →
        res.LastInsertId = (key, none) →
        srepo.Create status st2 = (none, { status with ID := key }, st3) ∧
        srepo.Create { status with ID := otherID } st2 =
          (none, { status with ID := key }, st3)) ∧
      (∀ err,
        srepo.createStmt status.DeviceID status.AlarmActive status.MazeCompleted
          status.HallSensorValue status.BatteryLevel status.Timestamp st2 =
          (Except.error err, st3) →
        srepo.Create status st2 = (some err, status, st3)) ∧
      (∀ res key err,
        srepo.createStmt status.DeviceID status.AlarmActive status.MazeCompleted
          status.HallSensorValue status.BatteryLevel status.Timestamp st2 =
          (Except.ok res, st3) →
        res.LastInsertId = (key, some err) →
        srepo.Create status st2 = (some err, status, st3)) ∧
      (srepo.Create { status with ID := otherID } st2).1 = (srepo.Create status st2).1 ∧
      (srepo.Create { status with ID := otherID } st2).2.2 = (srepo.Create status st2).2.2) := by
  refine ⟨⟨fun res key h hk => ?_, fun err h => ?_, fun res key err h hk => ?_, ?_, ?_⟩,
    ⟨fun res key h hk => ?_, fun err h => ?_, fun res key err h hk => ?_, ?_, ?_⟩⟩
  · simp only [SQLite.DeviceConfigRepository.Create, h, hk, and_self]
  · simp only [SQLite.DeviceConfigRepository.Create, h]
  · simp only [SQLite.DeviceConfigRepository.Create, h, hk]
  · simp only [SQLite.DeviceConfigRepository.Create]
    rcases crepo.createStmt config.DeviceID config.AlarmTimeout config.SensitivityLevel
      config.UpdatedAt st with ⟨_ | res, st4⟩
    · rfl
    · rcases hk : res.LastInsertId with ⟨key, _ | err⟩ <;> simp only [hk]
  · simp only [SQLite.DeviceConfigRepository.Create]
    rcases crepo.createStmt config.DeviceID config.AlarmTimeout config.SensitivityLevel
      config.UpdatedAt st with ⟨_ | res, st4⟩
    · rfl
    · rcases hk : res.LastInsertId with ⟨key, _ | err⟩ <;> simp only [hk]
  · simp only [SQLite.MazeDeviceStatusRepository.Create, h, hk, and_self]
  · simp only [SQLite.MazeDeviceStatusRepository.Create, h]
  · simp only [SQLite.MazeDeviceStatusRepository.Create, h, hk]
  · simp only [SQLite.MazeDeviceStatusRepository.Create]
    rcases srepo.createStmt status.DeviceID status.AlarmActive status.MazeCompleted
      status.HallSensorValue status.BatteryLevel status.Timestamp st2 with ⟨_ | res, st4⟩
    · rfl
    · rcases hk : res.LastInsertId with ⟨key, _ | err⟩ <;> simp only [hk]
  · simp only [SQLite.MazeDeviceStatusRepository.Create]
    rcases srepo.createStmt status.DeviceID status.AlarmActive status.MazeCompleted
      status.HallSensorValue status.BatteryLevel status.Timestamp st2 with ⟨_ | res, st4⟩
    · rfl
    · rcases hk : res.LastInsertId with ⟨key, _ | err⟩ <;> simp only [hk]

/-- The store stub holding one config: a new record that carries id 99 is stored under the
key 2 the store assigns, and its other fields are returned unchanged. -/
theorem create_assigns_store_key_witness :
    sqliteConfigFixture.Create { configFixture with ID := 99, DeviceID := "ARD002" }
        [(1, "ARD001", 300, 5, "2024-01-15T10:30:00Z")] =
      (none, { configFixture with ID := 2, DeviceID := "ARD002" },
        [(1, "ARD001", 300, 5, "2024-01-15T10:30:00Z"),
         (2, "ARD002", 300, 5, "2024-01-15T10:30:00Z")]) :=
  ((create_assigns_store_key sqliteConfigFixture sqliteStatusFixture
      { configFixture with ID := 99, DeviceID := "ARD002" } statusFixture 0
      [(1, "ARD001", 300, 5, "2024-01-15T10:30:00Z")]
      [(1, "ARD001", 300, 5, "2024-01-15T10:30:00Z"),
       (2, "ARD002", 300, 5, "2024-01-15T10:30:00Z")] [] []).1.1
    { LastInsertId := (2, none), RowsAffected := (1, none) } 2 rfl rfl).1

/-! ## Uniqueness conflicts -/

/-- C24: for every request and every behaviour of the service, the status `PostHandler`
answers 201, 400 or 500, so never 409; a `Create` failure that is no client error and whose
message is `UNIQUE constraint failed: device_config.device_id` is answered 500 with the
generic message. -/
theorem status_postHandler_never_conflict {σ : Type}
    (decode : String → Option MazeDeviceStatus) (encode : MazeDeviceStatus → Option String)
    (service : MazeDeviceStatusService σ) (body : String) (st : σ) :
    ((MazeDeviceHandlers.PostHandler decode encode ResponseWriter.fresh body service st).1.code
        = some 201 ∨
      (MazeDeviceHandlers.PostHandler decode encode ResponseWriter.fresh body service st).1.code
        = some 400 ∨
      (MazeDeviceHandlers.PostHandler decode encode ResponseWriter.fresh body service st).1.code
        = some 500) ∧
    (MazeDeviceHandlers.PostHandler decode encode ResponseWriter.fresh body service st).1.code
      ≠ some 409 ∧
    (∀ status err, decode body = some status →
      (service.Create status st).1 = some err →
      (∀ m, err ≠ GoError.MazeDeviceStatusError m) →
      err.Error = "UNIQUE constraint failed: device_config.device_id" →
      (MazeDeviceHandlers.PostHandler decode encode ResponseWriter.fresh body service st).1 =
        { code := some 500, body := "Internal server error.\n" }) := by
  have key : ∀ status err, decode body = some status →
      (service.Create status st).1 = some err →
      (∀ m, err ≠ GoError.MazeDeviceStatusError m) →
      (MazeDeviceHandlers.PostHandler decode encode ResponseWriter.fresh body service st).1 =
        { code := some 500, body := "Internal server error.\n" } := by
    intro status err hd hc hk
    rcases hr : service.Create status st with ⟨e, c2, st1⟩
    rw [hr] at hc
    simp only at hc
    subst hc
    cases err with
    | MazeDeviceStatusError m => exact absurd rfl (hk m)
    | DeviceConfigError m =>
      simp only [MazeDeviceHandlers.PostHandler, hd, hr]
      rfl
    | other t =>
      simp only [MazeDeviceHandlers.PostHandler, hd, hr]
      rfl
  have codes :
      (MazeDeviceHandlers.PostHandler decode encode ResponseWriter.fresh body service st).1.code
        = some 201 ∨
      (MazeDeviceHandlers.PostHandler decode encode ResponseWriter.fresh body service st).1.code
        = some 400 ∨
      (MazeDeviceHandlers.PostHandler decode encode ResponseWriter.fresh body service st).1.code
        = some 500 := by
    rcases hd : decode body with _ | status
    · right; left
      simp only [MazeDeviceHandlers.PostHandler, hd]
      rfl
    · rcases hr : service.Create status st with ⟨e, c2, st1⟩
      rcases e with _ | e
      · left
        rcases hen : encode c2 with _ | text <;>
          simp only [MazeDeviceHandlers.PostHandler, hd, hr, hen] <;> rfl
      · cases e with
        | MazeDeviceStatusError m =>
          right; left
          simp only [MazeDeviceHandlers.PostHandler, hd, hr]
          rfl
        | DeviceConfigError m =>
          right; right
          simp only [MazeDeviceHandlers.PostHandler, hd, hr]
          rfl
        | other t =>
          right; right
          simp only [MazeDeviceHandlers.PostHandler, hd, hr]
          rfl
  refine ⟨codes, ?_, fun status err hd hc hk _ => key status err hd hc hk⟩
  rcases codes with h | h | h <;> rw [h] <;> decide

/-- The status service stub that fails with the uniqueness error of the config table is
answered 500. -/
theorem status_postHandler_never_conflict_witness :
    (MazeDeviceHandlers.PostHandler decodeStatusFixture encodeStatusFixture
        ResponseWriter.fresh "valid" statusConflictServiceFixture 7).1 =
      { code := some 500, body := "Internal server error.\n" } :=
  (status_postHandler_never_conflict decodeStatusFixture encodeStatusFixture
    statusConflictServiceFixture "valid" 7).2.2 statusFixture
    (GoError.other "UNIQUE constraint failed: device_config.device_id")
    (by decide) (by decide) (fun _ h => GoError.noConfusion h) (by decide)

/-- C25: the config `PostHandler` answers 409 exactly when the body decodes and `Create`
returns an error that is no `DeviceConfigError` and whose message equals
`UNIQUE constraint failed: device_config.device_id`. An error of another type with any
other message, such as that text behind a prefix, is answered 500, and a
`DeviceConfigError` with exactly that message is answered 400 with the message in the
body. -/
theorem postHandler_conflict_iff {σ : Type} (decode : String → Option DeviceConfig)
    (encode : DeviceConfig → Option String) (service : DeviceConfigService σ)
    (body : String) (st : σ) :
    ((DeviceConfigHandlers.PostHandler decode encode ResponseWriter.fresh body service st).1.code
        = some 409 ↔
      ∃ config err, decode body = some config ∧ (service.Create config st).1 = some err ∧
        (∀ m, err ≠ GoError.DeviceConfigError m) ∧
        err.Error = "UNIQUE constraint failed: device_config.device_id") ∧
    (∀ config text, decode body = some config →
      (service.Create config st).1 = some (GoError.other text) →
      text ≠ "UNIQUE constraint failed: device_config.device_id" →
      (DeviceConfigHandlers.PostHandler decode encode ResponseWriter.fresh body service st).1 =
        { code := some 500, body := "Internal server error.\n" }) ∧
    (∀ config, decode body = some config →
      (service.Create config st).1 =
        some (GoError.DeviceConfigError "UNIQUE constraint failed: device_config.device_id") →
      (DeviceConfigHandlers.PostHandler decode encode ResponseWriter.fresh body service st).1 =
        { code := some 400,
          body := "\x7b\"error\": \"" ++
            "UNIQUE constraint failed: device_config.device_id" ++ "\"\x7d" }) := by
  refine ⟨?_, ?_, ?_⟩
  · rcases hd : decode body with _ | config
    · constructor
      · intro h
        simp only [DeviceConfigHandlers.PostHandler, hd] at h
        exact absurd h (by decide)
      · rintro ⟨config, err, h, -⟩
        simp at h
    · rcases hr : service.Create config st with ⟨e, c2, st1⟩
      rcases e with _ | e
      · rw [postHandler_of_created decode encode service body config _ _ _ hd hr]
        constructor
        · intro h
          rcases hen : encode c2 with _ | text <;> rw [hen] at h <;>
            change (some 201 : Option Nat) = some 409 at h <;> exact absurd h (by decide)
        · rintro ⟨config2, err, h2, h3, -⟩
          simp only [Option.some.injEq] at h2
          subst h2
          rw [hr] at h3
          simp at h3
      · by_cases hkind : ∀ m, e ≠ GoError.DeviceConfigError m
        · rw [postHandler_of_failed decode encode service body config _ _ _ _ hd hr hkind]
          by_cases ht : e.Error = "UNIQUE constraint failed: device_config.device_id"
          · rw [if_pos ht]
            exact ⟨fun _ => ⟨config, e, rfl, by rw [hr], hkind, ht⟩, fun _ => rfl⟩
          · rw [if_neg ht]
            constructor
            · intro h
              change (some 500 : Option Nat) = some 409 at h
              exact absurd h (by decide)
            · rintro ⟨config2, err, h2, h3, -, h5⟩
              simp only [Option.some.injEq] at h2
              subst h2
              rw [hr] at h3
              simp only [Option.some.injEq] at h3
              subst h3
              exact absurd h5 ht
        · push_neg at hkind
          obtain ⟨m, rfl⟩ := hkind
          rw [postHandler_of_rejected decode encode service body config _ _ _ _ hd hr]
          constructor
          · intro h
            change (some 400 : Option Nat) = some 409 at h
            exact absurd h (by decide)
          · rintro ⟨config2, err, h2, h3, h4, -⟩
            simp only [Option.some.injEq] at h2
            subst h2
            rw [hr] at h3
            simp only [Option.some.injEq] at h3
            exact absurd h3.symm (h4 m)
  · intro config text hd hc ht
    rcases hr : service.Create config st with ⟨e, c2, st1⟩
    rw [hr] at hc
    simp only at hc
    subst hc
    rw [postHandler_of_failed decode encode service body config _ _ _ _ hd hr
      (fun _ h => GoError.noConfusion h)]
    simp only [GoError.Error, if_neg ht]
  · intro config hd hc
    rcases hr : service.Create config st with ⟨e, c2, st1⟩
    rw [hr] at hc
    simp only at hc
    subst hc
    rw [postHandler_of_rejected decode encode service body config _ _ _ _ hd hr]

/-- The conflict stub is answered 409, and the condition of the equivalence holds for it:
its error is no client error and carries exactly the uniqueness message. -/
theorem postHandler_conflict_iff_witness :
    (DeviceConfigHandlers.PostHandler decodeConfigFixture encodeConfigFixture
        ResponseWriter.fresh "valid" conflictServiceFixture 7).1.code = some 409 :=
  (postHandler_conflict_iff decodeConfigFixture encodeConfigFixture conflictServiceFixture
    "valid" 7).1.mpr
    ⟨configFixture, GoError.other "UNIQUE constraint failed: device_config.device_id",
      by decide, by decide, fun _ h => GoError.noConfusion h, by decide⟩

/-- C26: the config `PutHandler` never answers 409. For a body that decodes to a record
with a non-zero id, an `Update` that fails with the store's error
`UNIQUE constraint failed: device_config.device_id` is answered 500 with the generic
message; so it is when the update statement of the SQLite repository fails with that error
under the validating service and the record is valid. -/
theorem putHandler_never_conflict {σ υ : Type} (decode : String → Option DeviceConfig)
    (encode : DeviceConfig → Option String) (service : DeviceConfigService σ)
    (parse : String → Option Int) (now : Int) (sqlite : SQLite.DeviceConfigRepository υ)
    (body : String) (config : DeviceConfig) (st : σ) (st3 st4 : υ) :
    (DeviceConfigHandlers.PutHandler decode encode ResponseWriter.fresh body service st).1.code
      ≠ some 409 ∧
    (decode body = some config → config.ID ≠ 0 →
      (service.Update config st).1.2 =
        some (GoError.other "UNIQUE constraint failed: device_config.device_id") →
      (DeviceConfigHandlers.PutHandler decode encode ResponseWriter.fresh body service st).1 =
        { code := some 500, body := "Internal server error.\n" }) ∧
    (decode body = some config → config.ID ≠ 0 → ValidateConfig parse now config = none →
      sqlite.updateStmt config.DeviceID config.AlarmTimeout config.SensitivityLevel
          config.UpdatedAt config.ID st3 =
        (Except.error (GoError.other "UNIQUE constraint failed: device_config.device_id"),
          st4) →
      DeviceConfigHandlers.PutHandler decode encode ResponseWriter.fresh body
          (DeviceConfigServiceSQLite.toService parse now ⟨sqlite.toRepository⟩) st3 =
        ({ code := some 500, body := "Internal server error.\n" }, st4)) := by
  refine ⟨?_, ?_, ?_⟩
  · have codes :
        (DeviceConfigHandlers.PutHandler decode encode ResponseWriter.fresh body service
            st).1.code = some 400 ∨
        (DeviceConfigHandlers.PutHandler decode encode ResponseWriter.fresh body service
            st).1.code = some 500 ∨
        (DeviceConfigHandlers.PutHandler decode encode ResponseWriter.fresh body service
            st).1.code = some 404 ∨
        (DeviceConfigHandlers.PutHandler decode encode ResponseWriter.fresh body service
            st).1.code = some 200 := by
      rcases hd : decode body with _ | c
      · left
        simp only [DeviceConfigHandlers.PutHandler, hd]
        rfl
      · by_cases hid : c.ID = 0
        · left
          simp only [DeviceConfigHandlers.PutHandler, hd, hid, if_true]
          rfl
        · rcases hr : service.Update c st with ⟨⟨n, e⟩, c2, st1⟩
          rcases e with _ | e
          · by_cases hn : n = 0
            · right; right; left
              simp only [DeviceConfigHandlers.PutHandler, hd, if_neg hid, hr, hn, if_true]
              rfl
            · right; right; right
              rcases hen : encode c2 with _ | text <;>
                simp only [DeviceConfigHandlers.PutHandler, hd, if_neg hid, hr, if_neg hn,
                  hen] <;> rfl
          · cases e with
            | DeviceConfigError m =>
              left
              simp only [DeviceConfigHandlers.PutHandler, hd, if_neg hid, hr]
              rfl
            | MazeDeviceStatusError m =>
              right; left
              simp only [DeviceConfigHandlers.PutHandler, hd, if_neg hid, hr]
              rfl
            | other t =>
              right; left
              simp only [DeviceConfigHandlers.PutHandler, hd, if_neg hid, hr]
              rfl
    rcases codes with h | h | h | h <;> rw [h] <;> decide
  · intro hd hid hu
    rcases hr : service.Update config st with ⟨⟨n, e⟩, c2, st1⟩
    rw [hr] at hu
    simp only at hu
    subst hu
    simp only [DeviceConfigHandlers.PutHandler, hd, if_neg hid, hr]
    rfl
  · intro hd hid hv hs
    simp only [DeviceConfigHandlers.PutHandler, hd, if_neg hid,
      DeviceConfigServiceSQLite.toService, DeviceConfigServiceSQLite.Update, hv,
      SQLite.DeviceConfigRepository.toRepository, SQLite.DeviceConfigRepository.Update, hs,
      SQLite.rowsAffectedOf]
    rfl

/-- The validating service over the store stub whose update statement reports the
uniqueness error: a valid update of record 3 is answered 500 with the generic message. -/
theorem putHandler_never_conflict_witness :
    DeviceConfigHandlers.PutHandler decodePutFixture encodeConfigFixture
        ResponseWriter.fresh "update"
        (DeviceConfigServiceSQLite.toService parseFixture nowFixture
          ⟨sqliteConflictFixture.toRepository⟩)
        [(3, "ARD003", 300, 5, "2024-01-15T10:30:00Z")] =
      ({ code := some 500, body := "Internal server error.\n" },
        [(3, "ARD003", 300, 5, "2024-01-15T10:30:00Z")]) :=
  (putHandler_never_conflict decodePutFixture encodeConfigFixture conflictServiceFixture
    parseFixture nowFixture sqliteConflictFixture "update" { configFixture with ID := 3 } 7
    [(3, "ARD003", 300, 5, "2024-01-15T10:30:00Z")]
    [(3, "ARD003", 300, 5, "2024-01-15T10:30:00Z")]).2.2
    (by decide) (by decide) (by decide) rfl

/-! ## The messages of client errors -/

/-- A text made of two safe texts is safe. -/
theorem jsonSafe_append (s t : String) : jsonSafe (s ++ t) = (jsonSafe s && jsonSafe t) := by
  simp only [jsonSafe, String.data_append, List.all_append]

/-- Appending safe texts to a safe text gives a safe text. -/
theorem jsonSafe_foldl (l : List String) (acc : String) (hacc : jsonSafe acc = true)
    (hl : ∀ s ∈ l, jsonSafe s = true) :
    jsonSafe (l.foldl (fun r s => r ++ s) acc) = true := by
  induction l generalizing acc with
  | nil => exact hacc
  | cons x xs ih =>
    simp only [List.foldl_cons]
    apply ih
    · rw [jsonSafe_append, hacc, hl x (List.mem_cons_self x xs)]
      rfl
    · intro s hs
      exact hl s (List.mem_cons_of_mem x hs)

/-- The concatenation of safe texts is safe. -/
theorem jsonSafe_join (l : List String) (hl : ∀ s ∈ l, jsonSafe s = true) :
    jsonSafe (String.join l) = true :=
  jsonSafe_foldl l "" rfl hl

/-- Every message of a config rule is safe. -/
theorem configViolations_safe (parse : String → Option Int) (now : Int) (c : DeviceConfig) :
    ∀ s ∈ configViolations parse now c, jsonSafe s = true := by
  intro s hs
  unfold configViolations at hs
  simp only [List.mem_append] at hs
  rcases hs with ((hs | hs) | hs) | hs
  · split_ifs at hs
    · rw [List.mem_singleton.mp hs]; decide
    · simp at hs
  · split_ifs at hs
    · rw [List.mem_singleton.mp hs]; decide
    · simp at hs
  · split_ifs at hs
    · rw [List.mem_singleton.mp hs]; decide
    · simp at hs
  · rcases hp : parse c.UpdatedAt with _ | t
    · rw [hp] at hs
      rw [List.mem_singleton.mp hs]; decide
    · rw [hp] at hs
      simp only at hs
      split_ifs at hs
      · rw [List.mem_singleton.mp hs]; decide
      · simp at hs

/-- Every message of a status rule is safe. -/
theorem statusViolations_safe (parse : String → Option Int) (now : Int)
    (c : MazeDeviceStatus) : ∀ s ∈ statusViolations parse now c, jsonSafe s = true := by
  intro s hs
  unfold statusViolations at hs
  simp only [List.mem_append] at hs
  rcases hs with ((hs | hs) | hs) | hs
  · split_ifs at hs
    · rw [List.mem_singleton.mp hs]; decide
    · simp at hs
  · split_ifs at hs
    · rw [List.mem_singleton.mp hs]; decide
    · simp at hs
  · rcases hp : parse c.Timestamp with _ | t
    · rw [hp] at hs
      rw [List.mem_singleton.mp hs]; decide
    · rw [hp] at hs
      simp only at hs
      split_ifs at hs
      · rw [List.mem_singleton.mp hs]; decide
      · simp at hs
  · split_ifs at hs
    · rw [List.mem_singleton.mp hs]; decide
    · simp at hs

/-- The message of a config validation error is safe. -/
theorem validateConfig_safe (parse : String → Option Int) (now : Int) (c : DeviceConfig)
    (e : GoError) (h : ValidateConfig parse now c = some e) : jsonSafe e.Error = true := by
  rw [validateConfig_eq] at h
  split_ifs at h
  simp only [Option.some.injEq] at h
  subst h
  exact jsonSafe_join _ (configViolations_safe parse now c)

/-- The message of a status validation error is safe. -/
theorem validateStatus_safe (parse : String → Option Int) (now : Int) (c : MazeDeviceStatus)
    (e : GoError) (h : ValidateStatus parse now c = some e) : jsonSafe e.Error = true := by
  rw [validateStatus_eq] at h
  split_ifs at h
  simp only [Option.some.injEq] at h
  subst h
  exact jsonSafe_join _ (statusViolations_safe parse now c)

/-- Dropping an opening from a text that starts with it leaves the rest. -/
theorem dropOpening_append (opening rest : List Char) :
    dropOpening opening (opening ++ rest) = some rest := by
  induction opening with
  | nil => cases rest <;> rfl
  | cons o os ih =>
    show (if o = o then dropOpening os (os ++ rest) else none) = some rest
    rw [if_pos rfl, ih]

/-- A text of plain characters followed by a quote is read up to that quote. -/
theorem readStringBody_plain (value rest : List Char)
    (h : value.all plainChar = true) :
    readStringBody (value ++ '"' :: rest) = some (value, rest) := by
  induction value with
  | nil => simp only [List.nil_append, readStringBody, if_true]
  | cons c cs ih =>
    simp only [List.all_cons, Bool.and_eq_true] at h
    have hq : c ≠ '"' := by
      intro hc
      rw [hc] at h
      exact absurd h.1 (by decide)
    show (if c = '"' then some ([], cs ++ '"' :: rest)
      else if plainChar c = true then
        match readStringBody (cs ++ '"' :: rest) with
        | some (value, rest) => some (c :: value, rest)
        | none => none
      else none) = some (c :: cs, rest)
    rw [if_neg hq, if_pos h.1, ih h.2]

/-- The body built around a safe message is read back as that message. -/
theorem parseErrorBody_of_safe (m : String) (h : jsonSafe m = true) :
    parseErrorBody ("\x7b\"error\": \"" ++ m ++ "\"\x7d") = some m := by
  unfold parseErrorBody
  have hdata : ("\x7b\"error\": \"" ++ m ++ "\"\x7d").data =
      "\x7b\"error\": \"".data ++ (m.data ++ '"' :: ['\x7d']) := by
    simp only [String.data_append, List.append_assoc]
  rw [hdata, dropOpening_append]
  simp only [readStringBody_plain m.data ['\x7d'] h]

/-- C27: the message of every validation error of the config and the status service,
bare or behind the prefix `Invalid device config: ` / `Invalid maze device status: `, and
the message `device_id is required`, has no double quote, no backslash and no control
character, whatever the record holds; so the body `{"error": "<message>"}` built by
concatenation reads back as JSON with the message as its `error` field, and this is the
body the config `PostHandler` sends for a record that the validating service turns away. -/
theorem client_error_bodies_are_json {σ : Type} (parse : String → Option Int) (now : Int)
    (config : DeviceConfig) (status : MazeDeviceStatus)
    (decode : String → Option DeviceConfig) (encode : DeviceConfig → Option String)
    (repo : DeviceConfigRepository σ) (body : String) (st : σ) :
    (∀ e, ValidateConfig parse now config = some e →
      jsonSafe e.Error = true ∧
      jsonSafe ("Invalid device config: " ++ e.Error) = true ∧
      parseErrorBody ("\x7b\"error\": \"" ++ e.Error ++ "\"\x7d") = some e.Error ∧
      parseErrorBody ("\x7b\"error\": \"" ++ ("Invalid device config: " ++ e.Error) ++
          "\"\x7d") = some ("Invalid device config: " ++ e.Error) ∧
      (decode body = some config →
        parseErrorBody
          (DeviceConfigHandlers.PostHandler decode encode ResponseWriter.fresh body
            (DeviceConfigServiceSQLite.toService parse now ⟨repo⟩) st).1.body =
          some ("Invalid device config: " ++ e.Error))) ∧
    (∀ e, ValidateStatus parse now status = some e →
      jsonSafe e.Error = true ∧
      jsonSafe ("Invalid maze device status: " ++ e.Error) = true ∧
      parseErrorBody ("\x7b\"error\": \"" ++ e.Error ++ "\"\x7d") = some e.Error ∧
      parseErrorBody ("\x7b\"error\": \"" ++ ("Invalid maze device status: " ++ e.Error) ++
          "\"\x7d") = some ("Invalid maze device status: " ++ e.Error)) ∧
    jsonSafe "device_id is required" = true ∧
    parseErrorBody ("\x7b\"error\": \"" ++ "device_id is required" ++ "\"\x7d") =
      some "device_id is required" := by
  refine ⟨fun e he => ?_, fun e he => ?_, by decide, by decide⟩
  · have h1 := validateConfig_safe parse now config e he
    have h2 : jsonSafe ("Invalid device config: " ++ e.Error) = true := by
      rw [jsonSafe_append, h1]
      decide
    refine ⟨h1, h2, parseErrorBody_of_safe _ h1, parseErrorBody_of_safe _ h2, fun hd => ?_⟩
    have hc : (DeviceConfigServiceSQLite.toService parse now ⟨repo⟩).Create config st =
        (some (GoError.DeviceConfigError ("Invalid device config: " ++ e.Error)), config,
          st) := by
      simp only [DeviceConfigServiceSQLite.toService, DeviceConfigServiceSQLite.Create, he]
    rw [postHandler_of_rejected decode encode _ body config _ _ _ _ hd hc]
    exact parseErrorBody_of_safe _ h2
  · have h1 := validateStatus_safe parse now status e he
    have h2 : jsonSafe ("Invalid maze device status: " ++ e.Error) = true := by
      rw [jsonSafe_append, h1]
      decide
    exact ⟨h1, h2, parseErrorBody_of_safe _ h1, parseErrorBody_of_safe _ h2⟩

/-- A config whose device_id holds a double quote and whose updated_at is a double quote
and a backslash: the 400 body of the config `PostHandler` reads back as JSON with the
validation message, in which no part of the record appears. -/
theorem client_error_bodies_are_json_witness :
    parseErrorBody
        (DeviceConfigHandlers.PostHandler
          (fun _ => some { ID := 0, DeviceID := "a\"b", AlarmTimeout := 0,
                           SensitivityLevel := 5, UpdatedAt := "\"\\" })
          encodeConfigFixture ResponseWriter.fresh "any"
          (DeviceConfigServiceSQLite.toService parseFixture nowFixture ⟨configRepoFixture⟩)
          7).1.body =
      some ("Invalid device config: " ++
        ("alarm_timeout must be between 1 and 3600 seconds. " ++
         "updated_at must be in RFC3339 format (e.g., 2006-01-02T15:04:05Z07:00). ")) :=
  ((client_error_bodies_are_json parseFixture nowFixture
      { ID := 0, DeviceID := "a\"b", AlarmTimeout := 0, SensitivityLevel := 5,
        UpdatedAt := "\"\\" }
      statusFixture
      (fun _ => some { ID := 0, DeviceID := "a\"b", AlarmTimeout := 0,
                       SensitivityLevel := 5, UpdatedAt := "\"\\" })
      encodeConfigFixture configRepoFixture "any" 7).1
    (GoError.DeviceConfigError
      ("alarm_timeout must be between 1 and 3600 seconds. " ++
       "updated_at must be in RFC3339 format (e.g., 2006-01-02T15:04:05Z07:00). "))
    (by decide)).2.2.2.2 rfl

/-! ## The page offset -/

/-- C28 as stated fails: the query `page=4611686018427387905&rows_per_page=3` is read as a
page of at least 1 and a non-negative row count, both within `int64`, and the offset that
`ReadMany` computes for them is -4611686018427387904, which is negative and is not the
product 13835058055282163712. -/
theorem offset_wraps_around :
    Atoi "4611686018427387905" = (4611686018427387905, none) ∧
    Atoi "3" = (3, none) ∧
    (1 : Int) ≤ 4611686018427387905 ∧ (0 : Int) ≤ 3 ∧
    wrapInt64 (3 * (4611686018427387905 - 1)) = -4611686018427387904 ∧
    wrapInt64 (3 * (4611686018427387905 - 1)) < 0 ∧
    wrapInt64 (3 * (4611686018427387905 - 1)) ≠ 3 * (4611686018427387905 - 1) ∧
    (DeviceConfigHandlers.GetHandler encodeConfigFixture encodeConfigsFixture
        ResponseWriter.fresh "4611686018427387905" "3" ""
        (DeviceConfigServiceSQLite.toService parseFixture nowFixture
          ⟨configRepoFixture⟩).logged (7, [])).2.2 =
      [DeviceConfigCall.ReadMany 4611686018427387905 3] := by
  refine ⟨by decide, by decide, by decide, by decide, by decide, by decide, by decide,
    by decide⟩

/-- C28, amended: for every page of at least 1 and every non-negative `rowsPerPage` whose
product `rowsPerPage * (page - 1)` is below 2^63, the offset that `ReadMany` computes is
non-negative and equals the product, and both SQLite repositories run the paging statement
with it. For every page and `rowsPerPage` the computed offset lies in the `int64` range and
differs from the product by a multiple of 2^64. -/
theorem offset_exact_in_range {σ τ : Type} (crepo : SQLite.DeviceConfigRepository σ)
    (srepo : SQLite.MazeDeviceStatusRepository τ) (page rowsPerPage : Int) (st : σ) (st2 : τ) :
    (1 ≤ page → 0 ≤ rowsPerPage → rowsPerPage * (page - 1) < 2 ^ 63 →
      0 ≤ wrapInt64 (rowsPerPage * (page - 1)) ∧
      wrapInt64 (rowsPerPage * (page - 1)) = rowsPerPage * (page - 1) ∧
      crepo.ReadMany page rowsPerPage st =
        (SQLite.collect SQLite.scanConfig
          (crepo.readManyStmt rowsPerPage (rowsPerPage * (page - 1)) st).1,
         (crepo.readManyStmt rowsPerPage (rowsPerPage * (page - 1)) st).2) ∧
      srepo.ReadMany page rowsPerPage st2 =
        (SQLite.collect SQLite.scanStatus
          (srepo.readManyStmt rowsPerPage (rowsPerPage * (page - 1)) st2).1,
         (srepo.readManyStmt rowsPerPage (rowsPerPage * (page - 1)) st2).2)) ∧
    (-(2 ^ 63) ≤ wrapInt64 (rowsPerPage * (page - 1)) ∧
      wrapInt64 (rowsPerPage * (page - 1)) < 2 ^ 63 ∧
      (wrapInt64 (rowsPerPage * (page - 1)) - rowsPerPage * (page - 1)) % 2 ^ 64 = 0) := by
  constructor
  · intro hp hr hlt
    have hnn : 0 ≤ rowsPerPage * (page - 1) := mul_nonneg hr (by omega)
    have hw : wrapInt64 (rowsPerPage * (page - 1)) = rowsPerPage * (page - 1) := by
      unfold wrapInt64
      omega
    refine ⟨by rw [hw]; exact hnn, hw, ?_, ?_⟩
    · simp only [SQLite.DeviceConfigRepository.ReadMany, if_neg (not_lt.mpr hp), hw]
    · simp only [SQLite.MazeDeviceStatusRepository.ReadMany, if_neg (not_lt.mpr hp), hw]
  · unfold wrapInt64
    omega

/-- The store stub holding three configs: page 3 with one row a page uses offset 2 and
delivers the third row. -/
theorem offset_exact_in_range_witness :
    wrapInt64 (1 * (3 - 1)) = 1 * (3 - 1) ∧
    (sqliteConfigFixture.ReadMany 3 1
        [(1, "A", 300, 5, "t"), (2, "B", 300, 5, "t"), (3, "C", 300, 5, "t")]).1 =
      (some [SQLite.scanConfig (3, "C", 300, 5, "t")], none) :=
  ⟨((offset_exact_in_range sqliteConfigFixture sqliteStatusFixture 3 1
        [(1, "A", 300, 5, "t"), (2, "B", 300, 5, "t"), (3, "C", 300, 5, "t")] []).1
      (by decide) (by decide) (by decide)).2.1,
   ((offset_exact_in_range sqliteConfigFixture sqliteStatusFixture 3 1
        [(1, "A", 300, 5, "t"), (2, "B", 300, 5, "t"), (3, "C", 300, 5, "t")] []).1
      (by decide) (by decide) (by decide)).2.2.1 ▸ (by decide)⟩

/-! ## Validation, the clock and the fields without a rule -/

/-- C29: when `ValidateConfig` accepts a config at the current time `t`, it accepts it at
every later time, and so does `ValidateStatus` for a status. -/
theorem validation_monotone_in_clock (parse : String → Option Int) (t later : Int)
    (config : DeviceConfig) (status : MazeDeviceStatus) (hle : t ≤ later) :
    (ValidateConfig parse t config = none → ValidateConfig parse later config = none) ∧
    (ValidateStatus parse t status = none → ValidateStatus parse later status = none) := by
  constructor
  · intro h
    rw [validateConfig_none_iff] at h ⊢
    obtain ⟨h1, h2, h3, ts, h4, h5⟩ := h
    exact ⟨h1, h2, h3, ts, h4, by omega⟩
  · intro h
    rw [validateStatus_none_iff] at h ⊢
    obtain ⟨h1, h2, ⟨ts, h4, h5⟩, h6⟩ := h
    exact ⟨h1, h2, ⟨ts, h4, by omega⟩, h6⟩

/-- The fixture config, valid one hour after its timestamp, is valid a day later too. -/
theorem validation_monotone_in_clock_witness :
    ValidateConfig parseFixture (nowFixture + 24 * 60 * Minute) configFixture = none :=
  (validation_monotone_in_clock parseFixture nowFixture (nowFixture + 24 * 60 * Minute)
    configFixture statusFixture (by decide)).1 (by decide)

/-- C30: at the same current time, two configs that agree in every field but the id get
the same result of `ValidateConfig`, and two statuses that agree in every field but the id
and alarm_active get the same result of `ValidateStatus`; and the validators of the
services return the record and the state they were given. -/
theorem validation_ignores_fields_without_rule {σ τ : Type} (parse : String → Option Int)
    (now : Int) (c1 c2 : DeviceConfig) (s1 s2 : MazeDeviceStatus)
    (csvc : DeviceConfigServiceSQLite σ) (ssvc : MazeDeviceStatusServiceSQLite τ)
    (st : σ) (st2 : τ) :
    (c1.DeviceID = c2.DeviceID → c1.AlarmTimeout = c2.AlarmTimeout →
      c1.SensitivityLevel = c2.SensitivityLevel → c1.UpdatedAt = c2.UpdatedAt →
      ValidateConfig parse now c1 = ValidateConfig parse now c2) ∧
    (s1.DeviceID = s2.DeviceID → s1.MazeCompleted = s2.MazeCompleted →
      s1.HallSensorValue = s2.HallSensorValue → s1.BatteryLevel = s2.BatteryLevel →
      s1.Timestamp = s2.Timestamp →
      ValidateStatus parse now s1 = ValidateStatus parse now s2) ∧
    (DeviceConfigServiceSQLite.toService parse now csvc).ValidateConfig c1 st =
      (ValidateConfig parse now c1, c1, st) ∧
    (MazeDeviceStatusServiceSQLite.toService parse now ssvc).ValidateStatus s1 st2 =
      (ValidateStatus parse now s1, s1, st2) := by
  refine ⟨fun h1 h2 h3 h4 => ?_, fun h1 h2 h3 h4 h5 => ?_, rfl, rfl⟩
  · simp only [ValidateConfig, h1, h2, h3, h4]
  · simp only [ValidateStatus, h1, h2, h3, h4, h5]

/-- The fixture config under id 0 and under id 42: the same result; likewise an invalid
config, with the same message. -/
theorem validation_ignores_fields_without_rule_witness :
    ValidateConfig parseFixture nowFixture { configFixture with ID := 42 } =
      ValidateConfig parseFixture nowFixture configFixture ∧
    ValidateStatus parseFixture nowFixture
        { statusFixture with ID := 42, AlarmActive := false, BatteryLevel := 101 } =
      ValidateStatus parseFixture nowFixture { statusFixture with BatteryLevel := 101 } :=
  ⟨(validation_ignores_fields_without_rule parseFixture nowFixture
      { configFixture with ID := 42 } configFixture statusFixture statusFixture
      ⟨configRepoFixture⟩ ⟨statusRepoFixture⟩ 7 7).1 rfl rfl rfl rfl,
   (validation_ignores_fields_without_rule parseFixture nowFixture configFixture configFixture
      { statusFixture with ID := 42, AlarmActive := false, BatteryLevel := 101 }
      { statusFixture with BatteryLevel := 101 }
      ⟨configRepoFixture⟩ ⟨statusRepoFixture⟩ 7 7).2.1 rfl rfl rfl rfl rfl⟩

end MazeApi
